import Mathlib

/-!
TREL platform glue (src/common/br/trel_plat.c): peer directory and discovery pipeline;
UDP platform (src/common/br/udp_plat.c): connect, send, receive queue.

A shallow embedding of the peer directory and of the DNS-SD discovery callbacks of
`trel_plat.c`, and of the socket functions of `udp_plat.c` (namespace `UdpPlat`).

Conventions of the embedding.

* The module's static variables form the record `TrelState`; every C function becomes a
  function on `TrelState`.
* The intrusive list `sPeerList` is a Lean list of records plus the bound given to
  `LIST_Init`; a pointer to a record is the position of the record in the list.
* C strings are values (a `const char *` that may be `NULL` is an `Option String`): the
  bytes a stored pointer refers to are taken not to change while the record holds it.
* Machine integers are natural numbers, reduced modulo their width where the code can wrap
  (`sPeerNumber`, the loop counter of the address selection, the counters).
* Calls made to collaborators (mesh layer, mDNS, heap) are appended, oldest first, to
  `TrelState.calls`; what collaborators answer is an explicit argument.
* An operation that contains undefined behaviour, or a loop that may not terminate,
  returns `Except Fault _`; loops that may not terminate take fuel.
* Work handed to the IP-stack thread by `tcpip_callback` waits in `UdpState.jobs` until it
  is run; the macros of the IP stack are the fields of the parameter `UdpPlat.Lwip`.
* Mutex calls are not represented.
-/

namespace TrelPlat

/-! ## Data model -/

/-- Ways in which an operation can fail to return a state. -/
inductive Fault where
  | undefinedBehaviour
  | outOfFuel
  deriving DecidableEq, Repr

deriving instance DecidableEq for Except

/-- Size of the TXT blob of a peer record (`#define TXT_DATA_SIZE 24`). -/
def TXT_DATA_SIZE : Nat := 24

/-- An IPv6 address: the 16 bytes `mFields.m8`. -/
structure otIp6Address where
  m8 : List Nat
  size_eq : m8.length = 16
  deriving DecidableEq, Repr

/-- The all-zero address (`kAnyAddress`, and the value of `selectedAddress = {.mFields = 0}`). -/
def kAnyAddress : otIp6Address :=
  ⟨[0, 0, 0, 0, 0, 0, 0, 0, 0, 0, 0, 0, 0, 0, 0, 0], rfl⟩

/-- OpenThread `otIp6IsAddressUnspecified`: all sixteen bytes are zero. -/
def otIp6IsAddressUnspecified (a : otIp6Address) : Bool :=
  a.m8.all (fun b => b == 0)

/-- C `memcmp` on the first `n` bytes: the difference of the first pair of bytes that differ,
zero when there is none. -/
def memcmp : List Nat → List Nat → Nat → Int
  | a :: as, b :: bs, n + 1 => if a = b then memcmp as bs n else (a : Int) - (b : Int)
  | _, _, _ => 0

structure otSockAddr where
  mAddress : otIp6Address
  mPort : Nat
  deriving DecidableEq, Repr

/-- The discovery callbacks a resolver can carry (`mCallback`). -/
inductive Callback where
  | HandleServiceBrowseResult
  | HandleServiceResolveResult
  | HandleServiceTxtResolveResult
  | HandleIp6AddressResolver
  deriving DecidableEq, Repr

structure otMdnsSrvResolver where
  mServiceInstance : Option String
  mServiceType : Option String
  mInfraIfIndex : Nat
  mCallback : Option Callback
  deriving DecidableEq, Repr

structure otMdnsTxtResolver where
  mServiceInstance : Option String
  mServiceType : Option String
  mInfraIfIndex : Nat
  mCallback : Option Callback
  deriving DecidableEq, Repr

structure otMdnsAddressResolver where
  mHostName : Option String
  mInfraIfIndex : Nat
  mCallback : Option Callback
  deriving DecidableEq, Repr

structure otMdnsBrowser where
  mServiceType : Option String
  mSubTypeLabel : Option String
  mInfraIfIndex : Nat
  mCallback : Option Callback
  deriving DecidableEq, Repr

/-- The record `struct Peer`; the `link` member is the position in the list. -/
structure Peer where
  mPeerServiceInstance : String
  mPeerHostName : Option String
  mTxtData : List Nat
  mTxtLength : Nat
  mPort : Nat
  mSockAddr : otSockAddr
  mSrvResolver : otMdnsSrvResolver
  mTxtResolver : otMdnsTxtResolver
  mAddrResolver : otMdnsAddressResolver
  deriving DecidableEq, Repr

/-- The structure `otPlatTrelPeerInfo` handed to the mesh layer (the TXT pointer is
represented by the bytes it points to at the time of the call). -/
structure otPlatTrelPeerInfo where
  mRemoved : Bool
  mTxtData : List Nat
  mTxtLength : Nat
  mSockAddr : otSockAddr
  deriving DecidableEq, Repr

structure otPlatTrelCounters where
  mTxPackets : Nat
  mTxBytes : Nat
  mTxFailure : Nat
  mRxPackets : Nat
  mRxBytes : Nat
  deriving DecidableEq, Repr

/-- The local service record `sTrelService` (`otMdnsService`), as far as this file sets it. -/
structure otMdnsService where
  mHostName : Option String
  mServiceInstance : Option String
  mServiceType : Option String
  mPort : Nat
  mTxtData : List Nat
  mTxtDataLength : Nat
  deriving DecidableEq, Repr

/-- Browse result: instance name and TTL. -/
structure otMdnsBrowseResult where
  mServiceInstance : String
  mTtl : Nat
  deriving DecidableEq, Repr

/-- Service-resolve result: instance name, host name, port. -/
structure otMdnsSrvResult where
  mServiceInstance : String
  mHostName : String
  mPort : Nat
  deriving DecidableEq, Repr

/-- Text-resolve result: instance name and the TXT bytes (`mTxtDataLength` is their number). -/
structure otMdnsTxtResult where
  mServiceInstance : String
  mTxtData : List Nat
  deriving DecidableEq, Repr

def otMdnsTxtResult.mTxtDataLength (r : otMdnsTxtResult) : Nat := r.mTxtData.length

structure otMdnsAddressAndTtl where
  mAddress : otIp6Address
  mTtl : Nat
  deriving DecidableEq, Repr

/-- Address-resolve result: host name and the array of candidates (`mAddressesLength`, a
16-bit field of the OpenThread structure, is the number of entries of the array). -/
structure otMdnsAddressResult where
  mHostName : String
  mAddresses : List otMdnsAddressAndTtl
  deriving DecidableEq, Repr

def otMdnsAddressResult.mAddressesLength (r : otMdnsAddressResult) : Nat := r.mAddresses.length

/-- Calls made to collaborators, in the order they are made. -/
inductive Call where
  | otPlatTrelHandleDiscoveredPeerInfo (info : otPlatTrelPeerInfo)
  | otMdnsStartSrvResolver (r : otMdnsSrvResolver)
  | otMdnsStopSrvResolver (r : otMdnsSrvResolver)
  | otMdnsStartTxtResolver (r : otMdnsTxtResolver)
  | otMdnsStopTxtResolver (r : otMdnsTxtResolver)
  | otMdnsStartIp6AddressResolver (r : otMdnsAddressResolver)
  | otMdnsStopIp6AddressResolver (r : otMdnsAddressResolver)
  | otMdnsStartBrowser (b : otMdnsBrowser)
  | otMdnsStopBrowser (b : otMdnsBrowser)
  | otMdnsRegisterService (service : otMdnsService)
  | otMdnsUnregisterService (service : otMdnsService)
  | otPlatUdpSocket
  | otPlatUdpBind
  | otPlatUdpBindToNetif
  | otPlatUdpClose
  | otUdpNewMessage
  | otMessageAppend (payload : List Nat)
  | otMessageFree
  | otPlatUdpSend (payload : List Nat) (mPeerAddr : otIp6Address) (mPeerPort : Nat)
      (mSockAddr : otIp6Address) (mSockPort : Nat)
  | otPlatTrelHandleReceived (payload : List Nat)
  | otPlatFree (record : Peer)
  deriving DecidableEq, Repr

/-! ## The generic list facility -/

inductive list_status_t where
  | kLIST_Ok
  | kLIST_Full
  deriving DecidableEq, Repr

/-- The list label `list_label_t`: the records from head to tail, and the bound `max`
(`size` is the number of records). -/
structure list_label_t where
  elems : List Peer
  max : Nat
  deriving DecidableEq, Repr

def list_label_t.size (l : list_label_t) : Nat := l.elems.length

/-- Modelled from the spec: the generic list facility (`fsl_component_generic_list`) is a
collaborator whose code is not among the sources. `LIST_Init` empties the list and records
the bound. -/
def LIST_Init (max : Nat) : list_label_t :=
  { elems := [], max := max }

/-- Modelled from the spec: the generic list facility is not among the sources. `add` fails
if the capacity bound is reached; a bound of zero is no bound (the receive queue of
`udp_plat.c`, made by `LIST_Init(&sMsgList, 0)`, is unbounded). On success the record is
linked after the tail. -/
def LIST_AddTail (l : list_label_t) (e : Peer) : list_status_t × list_label_t :=
  if l.max ≠ 0 ∧ l.max = l.size then (.kLIST_Full, l)
  else (.kLIST_Ok, { l with elems := l.elems ++ [e] })

/-- Modelled from the spec: the generic list facility is not among the sources.
`LIST_GetHead` is the first record, if any. -/
def LIST_GetHead (l : list_label_t) : Option Peer := l.elems.head?

/-- Modelled from the spec: the generic list facility is not among the sources.
`LIST_RemoveElement` unlinks the record at the given position, keeping the others in
order. -/
def LIST_RemoveElement (l : list_label_t) (idx : Nat) : list_label_t :=
  { l with elems := l.elems.eraseIdx idx }

/-! ## Module state -/

inductive otError where
  | OT_ERROR_NONE
  | OT_ERROR_FAILED
  | OT_ERROR_INVALID_ARGS
  | OT_ERROR_DUPLICATED
  deriving DecidableEq, Repr

/-- A network interface of the IP stack; `netif_get_index` reads its index. -/
structure netif where
  index : Nat
  deriving DecidableEq, Repr

def netif_get_index (n : netif) : Nat := n.index

/-- The service label `sTrelServiceLabel`. -/
def sTrelServiceLabel : String := "_trel._udp"

/-- The static variables of `trel_plat.c`, and the calls made so far. -/
structure TrelState where
  sTrelSocketPort : Nat
  sBackboneNetifPtr : netif
  sTrelService : otMdnsService
  sTrelEnabled : Bool
  sBrowsingEnabled : Bool
  trelBrowser : otMdnsBrowser
  sTrelTxtData : List Nat
  sCounters : otPlatTrelCounters
  sPeerNumber : Nat
  sPeerList : list_label_t
  calls : List Call
  deriving DecidableEq, Repr

/-- Record a call to a collaborator. -/
def emit (c : Call) (s : TrelState) : TrelState :=
  { s with calls := s.calls ++ [c] }

/-! ## Peer directory -/

/-- The scan of `findPeerByServiceInstance`, from the record at position `i`. -/
def findPeerByServiceInstanceFrom (aServiceInstanceName : String) :
    List Peer → Nat → Option (Nat × Peer)
  | [], _ => none
  | peer :: rest, i =>
    if peer.mPeerServiceInstance = aServiceInstanceName then some (i, peer)
    else findPeerByServiceInstanceFrom aServiceInstanceName rest (i + 1)

/-- The function `findPeerByServiceInstance`: position and content of the first record whose
instance name equals the argument, `none` for `NULL`. -/
def findPeerByServiceInstance (s : TrelState) (aServiceInstanceName : String) :
    Option (Nat × Peer) :=
  findPeerByServiceInstanceFrom aServiceInstanceName s.sPeerList.elems 0

/-- The scan of `findPeerByHostName`, from the record at position `i`. A record whose host
name is still `NULL` is handed to `strcmp`, which is undefined. -/
def findPeerByHostNameFrom (aHostName : String) :
    List Peer → Nat → Except Fault (Option (Nat × Peer))
  | [], _ => .ok none
  | peer :: rest, i =>
    match peer.mPeerHostName with
    | none => .error .undefinedBehaviour
    | some hostName =>
      if hostName = aHostName then .ok (some (i, peer))
      else findPeerByHostNameFrom aHostName rest (i + 1)

/-- The function `findPeerByHostName`. -/
def findPeerByHostName (s : TrelState) (aHostName : String) :
    Except Fault (Option (Nat × Peer)) :=
  findPeerByHostNameFrom aHostName s.sPeerList.elems 0

/-- The function `createAndAppendPeerListEntry`; `allocOk` tells whether `otPlatCAlloc`
returned a record. -/
def createAndAppendPeerListEntry (allocOk : Bool) (aPeer : Peer) (s : TrelState) :
    otError × TrelState :=
  let result := list_status_t.kLIST_Ok
  if !allocOk then
    (if result = .kLIST_Ok then .OT_ERROR_NONE else .OT_ERROR_FAILED, s)
  else
    let added := LIST_AddTail s.sPeerList aPeer
    let result := added.1
    let s1 := { s with sPeerList := added.2, sPeerNumber := (s.sPeerNumber + 1) % 256 }
    (if result = .kLIST_Ok then .OT_ERROR_NONE else .OT_ERROR_FAILED, s1)

/-- The function `removeAndFreeInternalPeerListEntry`, for the record at position
`aListElement.1` (both branches on `sTrelEnabled` unlink the record; they differ by the mutex
calls only). -/
def removeAndFreeInternalPeerListEntry (aListElement : Nat × Peer) (s : TrelState) :
    TrelState :=
  let s1 := { s with sPeerList := LIST_RemoveElement s.sPeerList aListElement.1 }
  let s2 := emit (.otPlatFree aListElement.2) s1
  { s2 with sPeerNumber := (s2.sPeerNumber + 255) % 256 }

/-- The notification built by the two removal paths from a record. -/
def removedPeerInfo (peer : Peer) : otPlatTrelPeerInfo :=
  { mRemoved := true, mSockAddr := peer.mSockAddr,
    mTxtData := peer.mTxtData, mTxtLength := peer.mTxtLength }

/-- The loop of `RemoveAllPeersAndNotify`; `otTrelIsEnabled` is the answer of the mesh
layer to `otTrelIsEnabled(sInstance)`. -/
def RemoveAllPeersAndNotify (otTrelIsEnabled : Bool) : Nat → TrelState → Except Fault TrelState
  | 0, _ => .error .outOfFuel
  | fuel + 1, s =>
    match LIST_GetHead s.sPeerList with
    | none => .ok s
    | some peer =>
      let s1 :=
        if otTrelIsEnabled then
          emit (.otPlatTrelHandleDiscoveredPeerInfo (removedPeerInfo peer)) s
        else s
      RemoveAllPeersAndNotify otTrelIsEnabled fuel
        (removeAndFreeInternalPeerListEntry (0, peer) s1)

/-- The function `RemoveTrelServiceInstance`. -/
def RemoveTrelServiceInstance (aElement : Nat × Peer) (s : TrelState) : TrelState :=
  let peerInfo := removedPeerInfo aElement.2
  let s1 := emit (.otPlatTrelHandleDiscoveredPeerInfo peerInfo) s
  let s2 := emit (.otMdnsStopSrvResolver aElement.2.mSrvResolver) s1
  let s3 := emit (.otMdnsStopTxtResolver aElement.2.mTxtResolver) s2
  removeAndFreeInternalPeerListEntry aElement s3

/-- A record after `memset(&peer, 0, sizeof(peer))` with the instance name assigned. -/
def zeroedPeer (aServiceInstanceName : String) : Peer :=
  { mPeerServiceInstance := aServiceInstanceName
    mPeerHostName := none
    mTxtData := List.replicate TXT_DATA_SIZE 0
    mTxtLength := 0
    mPort := 0
    mSockAddr := { mAddress := kAnyAddress, mPort := 0 }
    mSrvResolver :=
      { mServiceInstance := none, mServiceType := none, mInfraIfIndex := 0, mCallback := none }
    mTxtResolver :=
      { mServiceInstance := none, mServiceType := none, mInfraIfIndex := 0, mCallback := none }
    mAddrResolver := { mHostName := none, mInfraIfIndex := 0, mCallback := none } }

/-- The record built by `AddTrelServiceInstance` before it is appended. -/
def newPeer (s : TrelState) (aServiceInstanceName : String) : Peer :=
  { zeroedPeer aServiceInstanceName with
    mSrvResolver :=
      { mServiceInstance := some aServiceInstanceName
        mServiceType := some sTrelServiceLabel
        mInfraIfIndex := netif_get_index s.sBackboneNetifPtr
        mCallback := some .HandleServiceResolveResult }
    mTxtResolver :=
      { mServiceInstance := some aServiceInstanceName
        mServiceType := some sTrelServiceLabel
        mInfraIfIndex := netif_get_index s.sBackboneNetifPtr
        mCallback := some .HandleServiceTxtResolveResult }
    mAddrResolver :=
      { mHostName := none
        mInfraIfIndex := netif_get_index s.sBackboneNetifPtr
        mCallback := some .HandleIp6AddressResolver } }

/-- The function `AddTrelServiceInstance`. -/
def AddTrelServiceInstance (allocOk : Bool) (aServiceInstanceName : String) (s : TrelState) :
    TrelState :=
  let peer := newPeer s aServiceInstanceName
  let r := createAndAppendPeerListEntry allocOk peer s
  if r.1 = .OT_ERROR_NONE then emit (.otMdnsStartSrvResolver peer.mSrvResolver) r.2
  else r.2

/-- The function `StopAllPeerResolvers`, from a given record on. -/
def StopAllPeerResolversFrom : List Peer → TrelState → TrelState
  | [], s => s
  | peer :: rest, s =>
    StopAllPeerResolversFrom rest
      (emit (.otMdnsStopTxtResolver peer.mTxtResolver)
        (emit (.otMdnsStopSrvResolver peer.mSrvResolver) s))

/-- The function `StopAllPeerResolvers`. -/
def StopAllPeerResolvers (s : TrelState) : TrelState :=
  StopAllPeerResolversFrom s.sPeerList.elems s

/-! ## Discovery callbacks -/

/-- Replace the record at a position (assignment through the pointer `element`). -/
def storePeer (s : TrelState) (idx : Nat) (peer : Peer) : TrelState :=
  { s with sPeerList := { s.sPeerList with elems := s.sPeerList.elems.set idx peer } }

/-- The callback `HandleServiceBrowseResult`; `allocOk` tells whether the allocation made
when a record is created succeeds. -/
def HandleServiceBrowseResult (allocOk : Bool) (aResult : otMdnsBrowseResult)
    (s : TrelState) : TrelState :=
  if !s.sTrelEnabled then s
  else
    match findPeerByServiceInstance s aResult.mServiceInstance with
    | some element =>
      if aResult.mTtl ≠ 0 then emit (.otMdnsStartSrvResolver element.2.mSrvResolver) s
      else RemoveTrelServiceInstance element s
    | none => AddTrelServiceInstance allocOk aResult.mServiceInstance s

/-- The callback `HandleServiceResolveResult`. -/
def HandleServiceResolveResult (aResult : otMdnsSrvResult) (s : TrelState) : TrelState :=
  if !s.sTrelEnabled then s
  else
    match findPeerByServiceInstance s aResult.mServiceInstance with
    | some element =>
      let peer :=
        { element.2 with
          mPeerHostName := some aResult.mHostName
          mAddrResolver := { element.2.mAddrResolver with mHostName := some aResult.mHostName }
          mPort := aResult.mPort }
      emit (.otMdnsStartTxtResolver peer.mTxtResolver) (storePeer s element.1 peer)
    | none => s

/-- The callback `HandleServiceTxtResolveResult`. The `memcpy` of `mTxtDataLength` bytes
into the blob of `TXT_DATA_SIZE` bytes is undefined when it is longer than the blob. -/
def HandleServiceTxtResolveResult (aResult : otMdnsTxtResult) (s : TrelState) :
    Except Fault TrelState :=
  if !s.sTrelEnabled then .ok s
  else
    match findPeerByServiceInstance s aResult.mServiceInstance with
    | some element =>
      if TXT_DATA_SIZE < aResult.mTxtDataLength then .error .undefinedBehaviour
      else
        let peer :=
          { element.2 with
            mTxtData :=
              aResult.mTxtData ++ List.replicate (TXT_DATA_SIZE - aResult.mTxtDataLength) 0
            mTxtLength := aResult.mTxtDataLength % 256 }
        .ok (emit (.otMdnsStartIp6AddressResolver peer.mAddrResolver)
          (storePeer s element.1 peer))
    | none => .ok s

/-- The body of the selection loop of `HandleIp6AddressResolver` for one candidate. -/
def selectStep (selectedAddress : otIp6Address) (c : otMdnsAddressAndTtl) : otIp6Address :=
  if c.mTtl ≠ 0 ∧
      (otIp6IsAddressUnspecified selectedAddress = true ∨
        memcmp selectedAddress.m8 c.mAddress.m8 16 < 0) then
    c.mAddress
  else selectedAddress

/-- The loop `for (uint8_t i = 0; i < aResult->mAddressesLength; i++)` of
`HandleIp6AddressResolver`, from the value `i` of the 8-bit counter. -/
def selectAddressLoop (aResult : otMdnsAddressResult) :
    Nat → Nat → otIp6Address → Except Fault otIp6Address
  | 0, _, _ => .error .outOfFuel
  | fuel + 1, i, selectedAddress =>
    if i < aResult.mAddressesLength then
      match aResult.mAddresses[i]? with
      | some c => selectAddressLoop aResult fuel ((i + 1) % 256) (selectStep selectedAddress c)
      | none => .error .undefinedBehaviour
    else .ok selectedAddress

/-- The notification built by `HandleIp6AddressResolver` from the updated record. -/
def discoveredPeerInfo (peer : Peer) : otPlatTrelPeerInfo :=
  { mRemoved := false
    mSockAddr := { mPort := peer.mPort, mAddress := peer.mSockAddr.mAddress }
    mTxtData := peer.mTxtData
    mTxtLength := peer.mTxtLength }

/-- The callback `HandleIp6AddressResolver`. -/
def HandleIp6AddressResolver (fuel : Nat) (aResult : otMdnsAddressResult) (s : TrelState) :
    Except Fault TrelState :=
  if !s.sTrelEnabled then .ok s
  else
    match findPeerByHostName s aResult.mHostName with
    | .error f => .error f
    | .ok none => .ok s
    | .ok (some element) =>
      let s1 := emit (.otMdnsStopIp6AddressResolver element.2.mAddrResolver) s
      match selectAddressLoop aResult fuel 0 kAnyAddress with
      | .error f => .error f
      | .ok selectedAddress =>
        let peer :=
          { element.2 with mSockAddr := { element.2.mSockAddr with mAddress := selectedAddress } }
        .ok (emit (.otPlatTrelHandleDiscoveredPeerInfo (discoveredPeerInfo peer))
          (storePeer s1 element.1 peer))

/-! ## Public functions -/

/-- The function `otPlatTrelResetCounters`. -/
def otPlatTrelResetCounters (s : TrelState) : TrelState :=
  { s with sCounters :=
      { mTxPackets := 0, mTxBytes := 0, mTxFailure := 0, mRxPackets := 0, mRxBytes := 0 } }

/-- The function `TrelPlatInit`; `baseName` is what `CreateBaseName` returns. -/
def TrelPlatInit (baseName : Option String) (backboneNetif : netif) (s : TrelState) :
    TrelState :=
  { s with
    sBackboneNetifPtr := backboneNetif
    sTrelService :=
      { s.sTrelService with
        mServiceInstance := baseName, mServiceType := some sTrelServiceLabel } }

/-- The function `TrelStartBrowser`; `startOk` tells whether `otMdnsStartBrowser` returned
`OT_ERROR_NONE`. -/
def TrelStartBrowser (startOk : Bool) (s : TrelState) : Bool × TrelState :=
  let browser : otMdnsBrowser :=
    { mServiceType := some sTrelServiceLabel
      mSubTypeLabel := none
      mInfraIfIndex := netif_get_index s.sBackboneNetifPtr
      mCallback := some .HandleServiceBrowseResult }
  (startOk, emit (.otMdnsStartBrowser browser) { s with trelBrowser := browser })

/-- The function `TrelOnAppReady`. -/
def TrelOnAppReady (startOk : Bool) (aHostName : String) (s : TrelState) : TrelState :=
  let s1 :=
    if !s.sBrowsingEnabled then
      let r := TrelStartBrowser startOk s
      { r.2 with sBrowsingEnabled := r.1 }
    else s
  let s2 := { s1 with sTrelService := { s1.sTrelService with mHostName := some aHostName } }
  emit (.otMdnsRegisterService s2.sTrelService) s2

/-- The function `TrelOnExternalNetifDown`. -/
def TrelOnExternalNetifDown (otTrelIsEnabled : Bool) (fuel : Nat) (s : TrelState) :
    Except Fault TrelState :=
  RemoveAllPeersAndNotify otTrelIsEnabled fuel { s with sBrowsingEnabled := false }

/-- What the collaborators of `otPlatTrelEnable` answer: the results of `otPlatUdpSocket`,
`otPlatUdpBind` and `otPlatUdpBindToNetif`, the local port of the socket,
`BrMdnsHostIsInitialized()`, and the result of `otMdnsStartBrowser`. -/
structure EnableEnv where
  udpSocketOk : Bool
  udpBindOk : Bool
  udpBindToNetifOk : Bool
  local_port : Nat
  hostIsInitialized : Bool
  startBrowserOk : Bool
  deriving DecidableEq, Repr

/-- The function `otPlatTrelEnable`; `MAX_PEER_NUMBER` is the constant of that name, whose
definition is not among the sources. The second component is the value written to
`*aUdpPort`, if any. -/
def otPlatTrelEnable (MAX_PEER_NUMBER : Nat) (env : EnableEnv) (s : TrelState) :
    TrelState × Option Nat :=
  let s0 := { s with sPeerList := LIST_Init MAX_PEER_NUMBER }
  if s0.sTrelEnabled then (s0, none)
  else
    let s1 := emit .otPlatUdpSocket s0
    if !env.udpSocketOk then (s1, none)
    else
      let s2 := emit .otPlatUdpBind s1
      if !env.udpBindOk then (s2, none)
      else
        let s3 := emit .otPlatUdpBindToNetif s2
        if !env.udpBindToNetifOk then (s3, none)
        else
          let s4 := { s3 with sTrelSocketPort := env.local_port, sTrelEnabled := true }
          let s5 :=
            if env.hostIsInitialized then
              let s6 :=
                if !s4.sBrowsingEnabled then
                  let r := TrelStartBrowser env.startBrowserOk s4
                  { r.2 with sBrowsingEnabled := r.1 }
                else s4
              emit (.otMdnsRegisterService s6.sTrelService) s6
            else s4
          (otPlatTrelResetCounters s5, some env.local_port)

/-- The function `otPlatTrelDisable`; `otTrelIsEnabled` is the answer of the mesh layer to
`otTrelIsEnabled(sInstance)`. -/
def otPlatTrelDisable (otTrelIsEnabled : Bool) (fuel : Nat) (s : TrelState) :
    Except Fault TrelState :=
  if !s.sTrelEnabled then .ok s
  else
    let s1 := emit .otPlatUdpClose s
    let s2 := emit (.otMdnsStopBrowser s1.trelBrowser) s1
    let s3 := { s2 with sBrowsingEnabled := false }
    let s4 := emit (.otMdnsUnregisterService s3.sTrelService) s3
    let s5 := { s4 with sTrelEnabled := false }
    RemoveAllPeersAndNotify otTrelIsEnabled fuel (StopAllPeerResolvers s5)

/-- What the collaborators of `otPlatTrelSend` answer: whether `otUdpNewMessage` returned a
message, whether `otMessageAppend` and `otPlatUdpSend` returned `OT_ERROR_NONE`. -/
structure SendEnv where
  newMessageOk : Bool
  appendOk : Bool
  udpSendOk : Bool
  deriving DecidableEq, Repr

/-- The function `otPlatTrelSend` (the counters are 64-bit). -/
def otPlatTrelSend (env : SendEnv) (aUdpPayload : List Nat) (aDestSockAddr : otSockAddr)
    (s : TrelState) : TrelState :=
  if !s.sTrelEnabled then s
  else
    let s1 := emit .otUdpNewMessage s
    if !env.newMessageOk then s1
    else
      let s2 := emit (.otMessageAppend aUdpPayload) s1
      if !env.appendOk then
        let s3 := emit .otMessageFree s2
        { s3 with sCounters :=
            { s3.sCounters with mTxFailure := (s3.sCounters.mTxFailure + 1) % 2 ^ 64 } }
      else
        let s3 :=
          emit (.otPlatUdpSend aUdpPayload aDestSockAddr.mAddress aDestSockAddr.mPort
            kAnyAddress s2.sTrelSocketPort) s2
        if env.udpSendOk then
          { s3 with sCounters :=
              { s3.sCounters with
                mTxPackets := (s3.sCounters.mTxPackets + 1) % 2 ^ 64
                mTxBytes := (s3.sCounters.mTxBytes + aUdpPayload.length) % 2 ^ 64 } }
        else
          { s3 with sCounters :=
              { s3.sCounters with mTxFailure := (s3.sCounters.mTxFailure + 1) % 2 ^ 64 } }

/-- The function `otPlatTrelRegisterService`; `hostIsInitialized` is
`BrMdnsHostIsInitialized()`, and `aTxtLength` is the length of `aTxtData`. The `memcpy` into
`sTrelTxtData` is undefined when `aTxtLength` exceeds `TXT_DATA_SIZE`. -/
def otPlatTrelRegisterService (hostIsInitialized : Bool) (aPort : Nat) (aTxtData : List Nat)
    (s : TrelState) : Except Fault TrelState :=
  if TXT_DATA_SIZE < aTxtData.length then .error .undefinedBehaviour
  else
    let txt := aTxtData ++ List.replicate (TXT_DATA_SIZE - aTxtData.length) 0
    let s1 :=
      { s with
        sTrelTxtData := txt
        sTrelService :=
          { s.sTrelService with
            mPort := aPort, mTxtData := txt, mTxtDataLength := aTxtData.length } }
    .ok (if hostIsInitialized then emit (.otMdnsRegisterService s1.sTrelService) s1 else s1)

/-- The callback `HandleTrelRegistrationCallback`; `CreateAlternativeBaseName` is the helper
of that name, whose code is not among the sources. -/
def HandleTrelRegistrationCallback (CreateAlternativeBaseName : Option String → Option String)
    (aError : otError) (s : TrelState) : TrelState :=
  if aError ≠ .OT_ERROR_NONE then
    let s1 :=
      { s with sTrelService :=
          { s.sTrelService with
            mServiceInstance := CreateAlternativeBaseName s.sTrelService.mServiceInstance } }
    emit (.otMdnsRegisterService s1.sTrelService) s1
  else s

/-- The socket handler `TrelSocketReceive` for a message with the given bytes; `allocOk`
tells whether `otPlatCAlloc` returned a buffer (reading a non-empty message into `NULL` is
undefined). -/
def TrelSocketReceive (allocOk : Bool) (aMessage : List Nat) (s : TrelState) :
    Except Fault TrelState :=
  if !allocOk ∧ aMessage.length ≠ 0 then .error .undefinedBehaviour
  else
    let s1 := emit .otMessageFree s
    let s2 :=
      { s1 with sCounters :=
          { s1.sCounters with
            mRxPackets := (s1.sCounters.mRxPackets + 1) % 2 ^ 64
            mRxBytes := (s1.sCounters.mRxBytes + aMessage.length) % 2 ^ 64 } }
    .ok (emit (.otPlatTrelHandleReceived aMessage) s2)

/-! ## Sequences of operations -/

/-- The entry points of the module, each with what its collaborators answer during the
call. -/
inductive Op where
  | TrelPlatInit (baseName : Option String) (backboneNetif : netif)
  | TrelOnAppReady (startOk : Bool) (aHostName : String)
  | TrelOnExternalNetifDown (otTrelIsEnabled : Bool)
  | otPlatTrelEnable (env : EnableEnv)
  | otPlatTrelDisable (otTrelIsEnabled : Bool)
  | otPlatTrelSend (env : SendEnv) (aUdpPayload : List Nat) (aDestSockAddr : otSockAddr)
  | otPlatTrelRegisterService (hostIsInitialized : Bool) (aPort : Nat) (aTxtData : List Nat)
  | otPlatTrelResetCounters
  | TrelSocketReceive (allocOk : Bool) (aMessage : List Nat)
  | HandleServiceBrowseResult (allocOk : Bool) (aResult : otMdnsBrowseResult)
  | HandleServiceResolveResult (aResult : otMdnsSrvResult)
  | HandleServiceTxtResolveResult (aResult : otMdnsTxtResult)
  | HandleIp6AddressResolver (aResult : otMdnsAddressResult)
  | HandleTrelRegistrationCallback (aError : otError)
  deriving DecidableEq, Repr

/-- The constants and helpers of the build that are not among the sources. -/
structure Build where
  MAX_PEER_NUMBER : Nat
  CreateAlternativeBaseName : Option String → Option String

/-- One operation. -/
def step (b : Build) (fuel : Nat) (op : Op) (s : TrelState) : Except Fault TrelState :=
  match op with
  | .TrelPlatInit baseName backboneNetif => .ok (TrelPlatInit baseName backboneNetif s)
  | .TrelOnAppReady startOk aHostName => .ok (TrelOnAppReady startOk aHostName s)
  | .TrelOnExternalNetifDown otTrelIsEnabled => TrelOnExternalNetifDown otTrelIsEnabled fuel s
  | .otPlatTrelEnable env => .ok (otPlatTrelEnable b.MAX_PEER_NUMBER env s).1
  | .otPlatTrelDisable otTrelIsEnabled => otPlatTrelDisable otTrelIsEnabled fuel s
  | .otPlatTrelSend env aUdpPayload aDestSockAddr =>
    .ok (otPlatTrelSend env aUdpPayload aDestSockAddr s)
  | .otPlatTrelRegisterService hostIsInitialized aPort aTxtData =>
    otPlatTrelRegisterService hostIsInitialized aPort aTxtData s
  | .otPlatTrelResetCounters => .ok (otPlatTrelResetCounters s)
  | .TrelSocketReceive allocOk aMessage => TrelSocketReceive allocOk aMessage s
  | .HandleServiceBrowseResult allocOk aResult =>
    .ok (HandleServiceBrowseResult allocOk aResult s)
  | .HandleServiceResolveResult aResult => .ok (HandleServiceResolveResult aResult s)
  | .HandleServiceTxtResolveResult aResult => HandleServiceTxtResolveResult aResult s
  | .HandleIp6AddressResolver aResult => HandleIp6AddressResolver fuel aResult s
  | .HandleTrelRegistrationCallback aError =>
    .ok (HandleTrelRegistrationCallback b.CreateAlternativeBaseName aError s)

/-- A sequence of operations, each given `fuel` for its loops; the sequence stops at the
first operation that does not return. -/
def run (b : Build) (fuel : Nat) : TrelState → List Op → Except Fault TrelState
  | s, [] => .ok s
  | s, op :: ops =>
    match step b fuel op s with
    | .ok s1 => run b fuel s1 ops
    | .error f => .error f

/-- A sequence of browse results, each with the outcome of the allocation it may make. -/
def browseAll : TrelState → List (Bool × otMdnsBrowseResult) → TrelState
  | s, [] => s
  | s, r :: rs => browseAll (HandleServiceBrowseResult r.1 r.2 s) rs

/-- The state of the module before any call: all static variables zero. -/
def initialState : TrelState :=
  { sTrelSocketPort := 0
    sBackboneNetifPtr := { index := 0 }
    sTrelService :=
      { mHostName := none, mServiceInstance := none, mServiceType := none,
        mPort := 0, mTxtData := [], mTxtDataLength := 0 }
    sTrelEnabled := false
    sBrowsingEnabled := false
    trelBrowser :=
      { mServiceType := none, mSubTypeLabel := none, mInfraIfIndex := 0, mCallback := none }
    sTrelTxtData := List.replicate TXT_DATA_SIZE 0
    sCounters :=
      { mTxPackets := 0, mTxBytes := 0, mTxFailure := 0, mRxPackets := 0, mRxBytes := 0 }
    sPeerNumber := 0
    sPeerList := { elems := [], max := 0 }
    calls := [] }

/-! ## Concrete states and inputs -/

/-- Collaborators that let `otPlatTrelEnable` succeed, mDNS host not yet ready. -/
def enableOk : EnableEnv :=
  { udpSocketOk := true, udpBindOk := true, udpBindToNetifOk := true,
    local_port := 49152, hostIsInitialized := false, startBrowserOk := true }

/-- The module after a successful `otPlatTrelEnable` with a bound of four records. -/
def enabledState : TrelState := (otPlatTrelEnable 4 enableOk initialState).1

/-- An address whose first fifteen bytes are zero. -/
def addrOf (b : Nat) : otIp6Address :=
  ⟨[0, 0, 0, 0, 0, 0, 0, 0, 0, 0, 0, 0, 0, 0, 0, b], rfl⟩

/-- One peer, browsed and service-resolved to host `"h"`. -/
def resolvedState : TrelState :=
  HandleServiceResolveResult { mServiceInstance := "p", mHostName := "h", mPort := 7 }
    (HandleServiceBrowseResult true { mServiceInstance := "p", mTtl := 120 } enabledState)

/-- An address-resolve result for host `"h"` with 256 candidates. -/
def manyAddresses : otMdnsAddressResult :=
  { mHostName := "h", mAddresses := List.replicate 256 { mAddress := addrOf 1, mTtl := 5 } }

/-- The peer-info notifications among calls, in the order they were made. -/
def peerInfoCalls (calls : List Call) : List otPlatTrelPeerInfo :=
  calls.filterMap fun c =>
    match c with
    | .otPlatTrelHandleDiscoveredPeerInfo info => some info
    | _ => none

/-- Browse results that name `"a"` twice, then `"b"`, then withdraw `"a"`, then name `"b"`
again with an allocation that fails. -/
def someBrowseResults : List (Bool × otMdnsBrowseResult) :=
  [(true, { mServiceInstance := "a", mTtl := 120 }),
    (true, { mServiceInstance := "a", mTtl := 120 }),
    (true, { mServiceInstance := "b", mTtl := 120 }),
    (true, { mServiceInstance := "a", mTtl := 0 }),
    (false, { mServiceInstance := "b", mTtl := 120 })]

/-- The calls `RemoveAllPeersAndNotify` makes for one record. -/
def removeAllCallsFor (otTrelIsEnabled : Bool) (peer : Peer) : List Call :=
  (if otTrelIsEnabled then [Call.otPlatTrelHandleDiscoveredPeerInfo (removedPeerInfo peer)]
    else []) ++ [Call.otPlatFree peer]

/-- The calls `StopAllPeerResolvers` makes for one record. -/
def stopCallsFor (peer : Peer) : List Call :=
  [Call.otMdnsStopSrvResolver peer.mSrvResolver, Call.otMdnsStopTxtResolver peer.mTxtResolver]

/-- A build with a bound of four records. -/
def build4 : Build :=
  { MAX_PEER_NUMBER := 4, CreateAlternativeBaseName := fun name => name }

/-- Enable, then discover peer `"p"` through all four stages (it is announced with address
`addrOf 5`), then browse peer `"q"`. -/
def discoverOps : List Op :=
  [.otPlatTrelEnable enableOk,
    .HandleServiceBrowseResult true { mServiceInstance := "p", mTtl := 120 },
    .HandleServiceResolveResult { mServiceInstance := "p", mHostName := "h", mPort := 7 },
    .HandleServiceTxtResolveResult { mServiceInstance := "p", mTxtData := [1, 2] },
    .HandleIp6AddressResolver
      { mHostName := "h", mAddresses := [{ mAddress := addrOf 5, mTtl := 5 }] },
    .HandleServiceBrowseResult true { mServiceInstance := "q", mTtl := 120 }]

/-- The state reached by `discoverOps`: peer `"p"` announced, peer `"q"` just browsed. -/
def activeState : TrelState :=
  match run build4 2 initialState discoverOps with
  | .ok s => s
  | .error _ => initialState

/-- Enable, then take peer `"p"` through browse, service-resolve and text-resolve: its
address resolver has been started and no address result has arrived. -/
def resolvingOps : List Op :=
  [.otPlatTrelEnable enableOk,
    .HandleServiceBrowseResult true { mServiceInstance := "p", mTtl := 120 },
    .HandleServiceResolveResult { mServiceInstance := "p", mHostName := "h", mPort := 7 },
    .HandleServiceTxtResolveResult { mServiceInstance := "p", mTxtData := [1, 2] }]

/-- The state reached by `resolvingOps`. -/
def resolvingState : TrelState :=
  match run build4 2 initialState resolvingOps with
  | .ok s => s
  | .error _ => initialState

/-- Whether a call stops an address resolver. -/
def isStopIp6AddressResolver : Call → Bool
  | .otMdnsStopIp6AddressResolver _ => true
  | _ => false

/-- Whether a call starts an address resolver. -/
def isStartIp6AddressResolver : Call → Bool
  | .otMdnsStartIp6AddressResolver _ => true
  | _ => false

/-- Three records: `"a"` just browsed, `"b"` service-resolved, `"c"` just browsed. -/
def threePeers : TrelState :=
  HandleServiceBrowseResult true { mServiceInstance := "c", mTtl := 120 }
    (HandleServiceResolveResult { mServiceInstance := "b", mHostName := "hb", mPort := 9 }
      (HandleServiceBrowseResult true { mServiceInstance := "b", mTtl := 120 }
        (HandleServiceBrowseResult true { mServiceInstance := "a", mTtl := 120 } enabledState)))

/-- The record of `"b"` in `threePeers`. -/
def peerB : Peer :=
  { newPeer enabledState "b" with
    mPeerHostName := some "hb"
    mPort := 9
    mAddrResolver := { (newPeer enabledState "b").mAddrResolver with mHostName := some "hb" } }

/-- A browse result that withdraws `"b"`. -/
def withdrawB : otMdnsBrowseResult := { mServiceInstance := "b", mTtl := 0 }

/-- A browse result that reports the unknown name `"p"` with TTL zero. -/
def withdrawUnknown : otMdnsBrowseResult := { mServiceInstance := "p", mTtl := 0 }

/-- A browse result that withdraws `"p"`. -/
def withdrawP : otMdnsBrowseResult := { mServiceInstance := "p", mTtl := 0 }

/-- The peer-discovered notifications (`mRemoved = false`) among calls. -/
def discoveredCalls (calls : List Call) : List otPlatTrelPeerInfo :=
  (peerInfoCalls calls).filter fun info => !info.mRemoved

/-- A build with a bound of one record. -/
def build1 : Build :=
  { MAX_PEER_NUMBER := 1, CreateAlternativeBaseName := fun name => name }

/-- The module enabled with a bound of one record, holding one record. -/
def fullState : TrelState :=
  HandleServiceBrowseResult true { mServiceInstance := "a", mTtl := 120 }
    (otPlatTrelEnable 1 enableOk initialState).1

/-- The state `s'` is `s` after further calls, none of them a peer-discovered
notification. -/
def QuietlyExtends (s s' : TrelState) : Prop :=
  ∃ new, s'.calls = s.calls ++ new ∧ discoveredCalls new = []

/-- Every record of the directory was created by a browse result of `past` for its instance
name, and its host name, if set, was given by a later service-resolve result of `past` for
that instance name. -/
def Traced (past : List Op) (s : TrelState) : Prop :=
  ∀ p ∈ s.sPeerList.elems,
    ∃ (i : Nat) (allocOk : Bool) (browse : otMdnsBrowseResult),
      past[i]? = some (Op.HandleServiceBrowseResult allocOk browse) ∧
        browse.mServiceInstance = p.mPeerServiceInstance ∧
        ∀ h, p.mPeerHostName = some h →
          ∃ (j : Nat) (srv : otMdnsSrvResult),
            i < j ∧ past[j]? = some (Op.HandleServiceResolveResult srv) ∧
              srv.mServiceInstance = p.mPeerServiceInstance ∧ srv.mHostName = h

/-- A browse result and a service-resolve result for peer `"p"`, and nothing else. -/
def earlyOps : List Op :=
  [.HandleServiceBrowseResult true { mServiceInstance := "p", mTtl := 120 },
    .HandleServiceResolveResult { mServiceInstance := "p", mHostName := "h", mPort := 7 }]

/-- An address-resolve result for host `"h"` without candidates. -/
def noCandidates : otMdnsAddressResult := { mHostName := "h", mAddresses := [] }

/-- Whether an operation is a text-resolve result. -/
def isTxtResolveResult : Op → Bool
  | .HandleServiceTxtResolveResult _ => true
  | _ => false

/-- The state after `noCandidates` is handled in `resolvedState`. -/
def announcedState : TrelState :=
  match HandleIp6AddressResolver 1 noCandidates resolvedState with
  | .ok s => s
  | .error _ => resolvedState

/-! ## The UDP platform (src/common/br/udp_plat.c)

Conventions, in addition to those above. The IP stack is a collaborator: its calls are
recorded in `UdpState.calls`, its answers are arguments, and its macros and constants are
the fields of `Lwip`. A job accepted by `tcpip_callback` waits in `UdpState.jobs` until the
IP-stack thread runs it. A network interface pointer stands for an existing interface, and
`netif_get_by_index` returns the interface of the index it is given. The sources refer to
the IPv4 view of addresses outside `#if LWIP_IPV4`, so the build has `LWIP_IPV4` set. -/

namespace UdpPlat

/-- The OpenThread instance handle. -/
structure otInstance where
  id : Nat
  deriving DecidableEq, Repr

/-- The tag of an address of the IP stack (`enum lwip_ip_addr_type`); an object initialised
with `{0}` carries the first tag. -/
inductive lwip_ip_addr_type where
  | IPADDR_TYPE_V4
  | IPADDR_TYPE_V6
  | IPADDR_TYPE_ANY
  deriving DecidableEq, Repr

/-- An address of the IP stack (`ip_addr_t`): the sixteen bytes of the union `u_addr` (the
IPv6 view is all of them, the IPv4 view the first four), the zone of the IPv6 view, and the
tag. -/
structure ip_addr_t where
  addr : otIp6Address
  zone : Nat
  type : lwip_ip_addr_type
  deriving DecidableEq, Repr

def IP6_NO_ZONE : Nat := 0

def NETIF_NO_INDEX : Nat := 0

inductive lwip_ipv6_scope_type where
  | IP6_UNKNOWN
  | IP6_UNICAST
  | IP6_MULTICAST
  deriving DecidableEq, Repr

/-- The constants and macros of the IP stack that the sources use and whose definitions are
not among the sources. -/
structure Lwip where
  UDP_TTL : Nat
  ip6_addr_has_scope : otIp6Address → lwip_ipv6_scope_type → Bool
  ip6_addr_islinklocal : otIp6Address → Bool
  ip_addr_isany : ip_addr_t → Bool
  ip_addr_ismulticast : ip_addr_t → Bool
  ip6_addr_isipv4mappedipv6 : otIp6Address → Bool

/-- Sixteen bytes from a list of bytes (the list itself when it has sixteen). -/
def bytes16 (l : List Nat) : otIp6Address :=
  ⟨(l ++ List.replicate 16 0).take 16, by simp⟩

/-- The value of `ip_addr_t addr = {0}`. -/
def zero_ip_addr : ip_addr_t :=
  { addr := kAnyAddress, zone := 0, type := .IPADDR_TYPE_V4 }

/-- The macro `ip6_addr_assign_zone(ip6addr, type, netif)`: the zone becomes the index of the
interface when the address has a scope, and no zone otherwise. -/
def ip6_addr_assign_zone (lw : Lwip) (a : ip_addr_t) (type : lwip_ipv6_scope_type)
    (netifIndex : Nat) : ip_addr_t :=
  { a with zone := if lw.ip6_addr_has_scope a.addr type then netifIndex else IP6_NO_ZONE }

/-- Modelled from the spec: the macro `ip4_2_ipv4_mapped_ipv6(ip6addr, ip4addr)` of the IP
stack is not among the sources; it normalises an IPv4 address to its IPv4-mapped IPv6
representation. Applied to the two views of one object: the last four bytes become the IPv4
address (the first four bytes), the two bytes before them `0xff`, the first ten bytes zero,
and the zone is cleared. -/
def ip4_2_ipv4_mapped_ipv6 (a : ip_addr_t) : ip_addr_t :=
  { a with
    addr := bytes16 (List.replicate 10 0 ++ [0xff, 0xff] ++ a.addr.m8.take 4)
    zone := IP6_NO_ZONE }

/-- Modelled from the spec: the macro `unmap_ipv4_mapped_ipv6(ip4addr, ip6addr)` of the IP
stack is not among the sources; it is the converse of the mapping. Applied to the two views
of one object: the first four bytes become the last four. -/
def unmap_ipv4_mapped_ipv6 (a : ip_addr_t) : ip_addr_t :=
  { a with addr := bytes16 (a.addr.m8.drop 12 ++ a.addr.m8.drop 4) }

/-- The function `convertOpenthreadToLwipAddress`. -/
def convertOpenthreadToLwipAddress (lw : Lwip) (aAddress : otIp6Address) : ip_addr_t :=
  let retAddr : ip_addr_t := { addr := aAddress, zone := 0, type := .IPADDR_TYPE_V6 }
  if lw.ip6_addr_isipv4mappedipv6 retAddr.addr then
    { unmap_ipv4_mapped_ipv6 retAddr with type := .IPADDR_TYPE_V4 }
  else { retAddr with type := .IPADDR_TYPE_V6 }

/-- The control block of a socket in the IP stack (`struct udp_pcb`), as far as the sources
read or write it; `multicast_loop` is the bit `UDP_FLAGS_MULTICAST_LOOP` of `flags`. -/
structure udp_pcb where
  netif_idx : Nat
  ttl : Nat
  multicast_loop : Bool
  local_ip : ip_addr_t
  local_port : Nat
  deriving DecidableEq, Repr

/-- The socket `otUdpSocket`; `mHandler` and `mContext` identify the handler and its
argument, `mHandle` is `NULL` until the socket is opened. -/
structure otUdpSocket where
  mSockName : otSockAddr
  mPeerName : otSockAddr
  mHandler : Nat
  mContext : Nat
  mHandle : Option udp_pcb
  deriving DecidableEq, Repr

/-- The structure `otMessageInfo`, as far as the sources read or write it. -/
structure otMessageInfo where
  mSockAddr : otIp6Address
  mPeerAddr : otIp6Address
  mSockPort : Nat
  mPeerPort : Nat
  mHopLimit : Nat
  mIsHostInterface : Bool
  mMulticastLoop : Bool
  deriving DecidableEq, Repr

/-- The structure `udpSendContext` (the control block it points to is not represented). -/
structure udpSendContext where
  buf : List Nat
  peer_addr : ip_addr_t
  peerPort : Nat
  deriving DecidableEq, Repr

/-- The structure `udpReceiveContext`; the `link` member is the position in the queue, the
message is the bytes it holds. -/
structure udpReceiveContext where
  socket : otUdpSocket
  message : List Nat
  message_info : otMessageInfo
  deriving DecidableEq, Repr

/-- What is handed to `otPlatFree` or obtained from `otPlatCAlloc`. -/
inductive Allocation where
  | receiveContext (socket : otUdpSocket)
  | sendContext
  deriving DecidableEq, Repr

/-- Calls made by the UDP platform to its collaborators, in the order they are made. -/
inductive UdpCall where
  | mHandler (socket : otUdpSocket) (message : List Nat) (message_info : otMessageInfo)
  | otPlatFree (what : Allocation)
  | otMessageFree (message : List Nat)
  | pbuf_free (buf : List Nat)
  | otTaskletsSignalPending
  | tcpip_callback (context : udpSendContext)
  | udp_sendto (buf : List Nat) (peer_addr : ip_addr_t) (peerPort : Nat) (result : Bool)
  | udp_connect (addr : ip_addr_t) (port : Nat)
  | udp_disconnect
  | udp_bind_netif (netifIndex : Nat)
  deriving DecidableEq, Repr

/-- The list label of the receive queue `sMsgList`. -/
structure list_label_t where
  elems : List udpReceiveContext
  max : Nat
  deriving DecidableEq, Repr

/-- Modelled from the spec: the generic list facility is not among the sources. `LIST_Init`
empties the list and records the bound. -/
def LIST_Init (max : Nat) : list_label_t :=
  { elems := [], max := max }

/-- Modelled from the spec: the generic list facility is not among the sources. `add` fails
if the capacity bound is reached, a bound of zero being no bound (the receive queue is
unbounded); on success the element is linked after the tail. -/
def LIST_AddTail (l : list_label_t) (e : udpReceiveContext) : list_status_t × list_label_t :=
  if l.max ≠ 0 ∧ l.max = l.elems.length then (.kLIST_Full, l)
  else (.kLIST_Ok, { l with elems := l.elems ++ [e] })

/-- Modelled from the spec: the generic list facility is not among the sources.
`LIST_RemoveHead` unlinks and returns the first element, `NULL` when the list is empty. -/
def LIST_RemoveHead (l : list_label_t) : Option udpReceiveContext × list_label_t :=
  match l.elems with
  | [] => (none, l)
  | e :: rest => (some e, { l with elems := rest })

/-- The static variables of `udp_plat.c`, the jobs waiting for the IP-stack thread, and the
calls made so far. -/
structure UdpState where
  sBackboneNetifIdx : Nat
  sOtNetifIdx : Nat
  sInstance : Option otInstance
  sBackboneNetifPtr : netif
  sOtNetifPtr : netif
  sMsgList : list_label_t
  jobs : List udpSendContext
  calls : List UdpCall
  deriving DecidableEq, Repr

/-- Record a call to a collaborator. -/
def emit (c : UdpCall) (u : UdpState) : UdpState :=
  { u with calls := u.calls ++ [c] }

/-- The function `UdpPlatInit`. -/
def UdpPlatInit (aInstance : Option otInstance) (backboneNetif otNetif : netif)
    (u : UdpState) : UdpState :=
  { u with
    sInstance := aInstance
    sBackboneNetifPtr := backboneNetif
    sOtNetifPtr := otNetif
    sBackboneNetifIdx := netif_get_index backboneNetif
    sOtNetifIdx := netif_get_index otNetif
    sMsgList := LIST_Init 0 }

/-- The function `otPlatUdpConnect`; `connectOk` tells whether `udp_connect` returned
`ERR_OK`. Both branches read the control block, which a socket that was never opened does
not have. -/
def otPlatUdpConnect (lw : Lwip) (connectOk : Bool) (aUdpSocket : otUdpSocket)
    (u : UdpState) : Except Fault (otError × UdpState) :=
  match aUdpSocket.mHandle with
  | none => .error .undefinedBehaviour
  | some pcb =>
    let port := aUdpSocket.mPeerName.mPort
    let addr := zero_ip_addr
    if port ≠ 0 ∧ otIp6IsAddressUnspecified aUdpSocket.mPeerName.mAddress = false then
      -- `convertOpenthreadToLwipAddress(&aUdpSocket->mSockName.mAddress);` : value not used
      let addr1 := { addr with zone := IP6_NO_ZONE }
      let addr2 :=
        if pcb.netif_idx = NETIF_NO_INDEX then
          if lw.ip6_addr_islinklocal addr1.addr then
            ip6_addr_assign_zone lw addr1 .IP6_UNICAST (netif_get_index u.sBackboneNetifPtr)
          else addr1
        else ip6_addr_assign_zone lw addr1 .IP6_UNICAST pcb.netif_idx
      let u1 := emit (.udp_connect addr2 port) u
      .ok (if connectOk then .OT_ERROR_NONE else .OT_ERROR_FAILED, u1)
    else
      let oldIfIndex := pcb.netif_idx
      let u1 := emit .udp_disconnect u
      let u2 := if oldIfIndex ≠ NETIF_NO_INDEX then emit (.udp_bind_netif oldIfIndex) u1 else u1
      .ok (.OT_ERROR_NONE, u2)

/-- What the collaborators of `otPlatUdpSend` answer: whether `otPlatCAlloc` returned a
context, whether `pbuf_alloc` returned a buffer, whether `otMessageRead` read the whole
message, and whether `tcpip_callback` returned `ERR_OK`. -/
structure UdpSendEnv where
  contextAllocOk : Bool
  pbufAllocOk : Bool
  messageReadOk : Bool
  tcpipCallbackOk : Bool
  deriving DecidableEq, Repr

/-- The function `convertToLwipMsg` (a buffer is identified by the bytes of the packet it was
allocated for). -/
def convertToLwipMsg (env : UdpSendEnv) (otIpPkt : List Nat) (u : UdpState) :
    Option (List Nat) × UdpState :=
  if !env.pbufAllocOk then (none, u)
  else if !env.messageReadOk then (none, emit (.pbuf_free otIpPkt) u)
  else (some otIpPkt, u)

/-- The function `otPlatUdpSend`; the socket is returned with its control block as the
function leaves it. -/
def otPlatUdpSend (lw : Lwip) (env : UdpSendEnv) (aUdpSocket : otUdpSocket)
    (aMessage : List Nat) (aMessageInfo : otMessageInfo) (u : UdpState) :
    Except Fault (otError × otUdpSocket × UdpState) :=
  if !env.contextAllocOk then
    .ok (.OT_ERROR_FAILED, aUdpSocket, emit (.otMessageFree aMessage) u)
  else
    match aUdpSocket.mHandle with
    | none => .error .undefinedBehaviour
    | some pcb =>
      let netif_idx :=
        if pcb.netif_idx = NETIF_NO_INDEX then
          if aMessageInfo.mIsHostInterface then netif_get_index u.sBackboneNetifPtr
          else netif_get_index u.sOtNetifPtr
        else pcb.netif_idx
      let converted := convertToLwipMsg env aMessage u
      match converted.1 with
      | none => .ok (.OT_ERROR_FAILED, aUdpSocket, emit (.otMessageFree aMessage) converted.2)
      | some buf =>
        let src_port := aMessageInfo.mSockPort
        let peerPort := aMessageInfo.mPeerPort
        let isMulticastLoop := aMessageInfo.mMulticastLoop
        let hop_limit := if aMessageInfo.mHopLimit ≠ 0 then aMessageInfo.mHopLimit else lw.UDP_TTL
        let src_addr := convertOpenthreadToLwipAddress lw aMessageInfo.mSockAddr
        let peer_addr := convertOpenthreadToLwipAddress lw aMessageInfo.mPeerAddr
        let pcb1 :=
          { pcb with
            ttl := hop_limit, multicast_loop := isMulticastLoop
            local_ip := src_addr, local_port := src_port }
        let pcb2 :=
          if !lw.ip_addr_isany pcb1.local_ip then
            { pcb1 with
              local_ip := ip6_addr_assign_zone lw pcb1.local_ip .IP6_UNICAST netif_idx }
          else pcb1
        let peer_addr2 :=
          if peer_addr.type = .IPADDR_TYPE_V6 then
            if lw.ip_addr_ismulticast peer_addr then
              ip6_addr_assign_zone lw peer_addr .IP6_MULTICAST netif_idx
            else ip6_addr_assign_zone lw peer_addr .IP6_UNICAST netif_idx
          else peer_addr
        let pcb3 :=
          if peer_addr.type = .IPADDR_TYPE_V6 then pcb2
          else if lw.ip_addr_isany pcb2.local_ip then
            { pcb2 with local_ip := { pcb2.local_ip with type := .IPADDR_TYPE_ANY } }
          else pcb2
        let context : udpSendContext := { buf := buf, peer_addr := peer_addr2, peerPort := peerPort }
        let socket := { aUdpSocket with mHandle := some pcb3 }
        let u1 := emit (.tcpip_callback context) converted.2
        if !env.tcpipCallbackOk then
          .ok (.OT_ERROR_FAILED, socket,
            emit (.otMessageFree aMessage)
              (emit (.otPlatFree .sendContext) (emit (.pbuf_free buf) u1)))
        else
          .ok (.OT_ERROR_NONE, socket,
            emit (.otMessageFree aMessage) { u1 with jobs := u1.jobs ++ [context] })

/-- The job `lwipTaskCb`, run by the IP-stack thread; `sendtoOk` tells whether `udp_sendto`
returned `ERR_OK` (the job does not look at it). -/
def lwipTaskCb (sendtoOk : Bool) (context : udpSendContext) (u : UdpState) : UdpState :=
  emit (.otPlatFree .sendContext)
    (emit (.pbuf_free context.buf)
      (emit (.udp_sendto context.buf context.peer_addr context.peerPort sendtoOk) u))

/-- The IP-stack thread takes the job that has waited longest and runs it. -/
def runJob (sendtoOk : Bool) (u : UdpState) : UdpState :=
  match u.jobs with
  | [] => u
  | context :: rest => lwipTaskCb sendtoOk context { u with jobs := rest }

/-- What the collaborators of `recv_fcn` answer: whether `otPlatCAlloc` returned a context,
whether `otUdpNewMessage` returned a message, whether `otMessageAppend` returned
`OT_ERROR_NONE`, the destination address of the datagram (`ip_current_dest_addr()`), the TTL
of its IPv4 header and the hop limit of its IPv6 header, and the interface it came in on. -/
structure RecvEnv where
  contextAllocOk : Bool
  newMessageOk : Bool
  appendOk : Bool
  current_dest_addr : ip_addr_t
  ip4_ttl : Nat
  ip6_hoplim : Nat
  current_netif : netif
  deriving DecidableEq, Repr

/-- The message info `recv_fcn` fills in for a datagram. -/
def receivedMessageInfo (env : RecvEnv) (addr : ip_addr_t) (port : Nat) (u : UdpState) :
    otMessageInfo :=
  { mSockPort := 0
    mPeerAddr :=
      if addr.type = .IPADDR_TYPE_V6 then addr.addr else (ip4_2_ipv4_mapped_ipv6 addr).addr
    mSockAddr :=
      if addr.type = .IPADDR_TYPE_V6 then env.current_dest_addr.addr
      else (ip4_2_ipv4_mapped_ipv6 env.current_dest_addr).addr
    mPeerPort := port
    mHopLimit := if addr.type = .IPADDR_TYPE_V4 then env.ip4_ttl else env.ip6_hoplim
    mIsHostInterface := decide (netif_get_index env.current_netif = u.sBackboneNetifIdx)
    mMulticastLoop := false }

/-- The callback `recv_fcn` for a datagram with payload `p` from `addr`, `port`, on the
socket `arg` (a message is identified by the bytes it was made for). -/
def recv_fcn (env : RecvEnv) (arg : otUdpSocket) (p : List Nat) (addr : ip_addr_t) (port : Nat)
    (u : UdpState) : UdpState :=
  if !env.contextAllocOk then emit (.pbuf_free p) u
  else
    let context : udpReceiveContext :=
      { socket := arg, message := p, message_info := receivedMessageInfo env addr port u }
    if !env.newMessageOk then emit (.pbuf_free p) (emit (.otPlatFree (.receiveContext arg)) u)
    else if !env.appendOk then
      emit (.pbuf_free p)
        (emit (.otPlatFree (.receiveContext arg)) (emit (.otMessageFree p) u))
    else
      let u1 := { u with sMsgList := (LIST_AddTail u.sMsgList context).2 }
      emit (.pbuf_free p) (emit .otTaskletsSignalPending u1)

/-- The loop of `otPlatUdpProcess`. -/
def otPlatUdpProcessLoop : Nat → UdpState → Except Fault UdpState
  | 0, _ => .error .outOfFuel
  | fuel + 1, u =>
    match (LIST_RemoveHead u.sMsgList).1 with
    | none => .ok { u with sMsgList := (LIST_RemoveHead u.sMsgList).2 }
    | some context =>
      otPlatUdpProcessLoop fuel
        (emit (.otPlatFree (.receiveContext context.socket))
          (emit (.mHandler context.socket context.message context.message_info)
            { u with sMsgList := (LIST_RemoveHead u.sMsgList).2 }))

/-- The function `otPlatUdpProcess`. -/
def otPlatUdpProcess (fuel : Nat) (u : UdpState) : Except Fault UdpState :=
  if u.sInstance.isSome then otPlatUdpProcessLoop fuel u else .ok u

end UdpPlat

/-! ## Further definitions for the TREL module -/

/-- The function `otPlatTrelGetCounters`: the pointer it returns is represented by the
counters it points to. -/
def otPlatTrelGetCounters (s : TrelState) : otPlatTrelCounters × TrelState :=
  (s.sCounters, s)

/-- Whether a call stops a resolver of any of the three kinds. -/
def isStopResolver : Call → Bool
  | .otMdnsStopSrvResolver _ => true
  | .otMdnsStopTxtResolver _ => true
  | .otMdnsStopIp6AddressResolver _ => true
  | _ => false

/-- The counters all at zero. -/
def zeroCounters : otPlatTrelCounters :=
  { mTxPackets := 0, mTxBytes := 0, mTxFailure := 0, mRxPackets := 0, mRxBytes := 0 }

/-- Collaborators of `otPlatTrelSend` that build the message and accept the dispatch. -/
def sendOk : SendEnv := { newMessageOk := true, appendOk := true, udpSendOk := true }

/-- Collaborators of `otPlatTrelSend` that build the message and refuse the dispatch. -/
def sendRefused : SendEnv := { newMessageOk := true, appendOk := true, udpSendOk := false }

/-- A destination for datagrams. -/
def somewhere : otSockAddr := { mAddress := addrOf 9, mPort := 4711 }

/-! ## The TREL module on top of the UDP platform -/

/-- The TREL module, the UDP platform, and the TREL socket `sTrelSocket` through which the
module sends. -/
structure Platform where
  trel : TrelState
  udp : UdpPlat.UdpState
  sTrelSocket : UdpPlat.otUdpSocket
  deriving DecidableEq, Repr

/-- The message info `otPlatTrelSend` hands to `otPlatUdpSend` (zeroed, then four members
set). -/
def trelMessageInfo (s : TrelState) (aDestSockAddr : otSockAddr) : UdpPlat.otMessageInfo :=
  { mPeerAddr := aDestSockAddr.mAddress
    mPeerPort := aDestSockAddr.mPort
    mSockPort := s.sTrelSocketPort
    mSockAddr := kAnyAddress
    mHopLimit := 0
    mIsHostInterface := false
    mMulticastLoop := false }

/-- The function `otPlatTrelSend` with its dispatch carried out by `otPlatUdpSend` of
`udp_plat.c` on the TREL socket: `otPlatUdpSend` is called when the module is enabled and
the message has been built, and what it returns is the outcome of the dispatch. -/
def sendOverUdp (lw : UdpPlat.Lwip) (newMessageOk appendOk : Bool) (env : UdpPlat.UdpSendEnv)
    (aUdpPayload : List Nat) (aDestSockAddr : otSockAddr) (p : Platform) :
    Except Fault Platform :=
  if p.trel.sTrelEnabled = true ∧ newMessageOk = true ∧ appendOk = true then
    match UdpPlat.otPlatUdpSend lw env p.sTrelSocket aUdpPayload
        (trelMessageInfo p.trel aDestSockAddr) p.udp with
    | .error f => .error f
    | .ok r =>
      .ok { trel :=
              otPlatTrelSend
                { newMessageOk := newMessageOk
                  appendOk := appendOk
                  udpSendOk := decide (r.1 = .OT_ERROR_NONE) }
                aUdpPayload aDestSockAddr p.trel
            udp := r.2.2
            sTrelSocket := r.2.1 }
  else
    let env0 : SendEnv :=
      { newMessageOk := newMessageOk, appendOk := appendOk, udpSendOk := false }
    .ok { p with trel := otPlatTrelSend env0 aUdpPayload aDestSockAddr p.trel }

/-- The IP-stack thread runs the job that has waited longest; `sendtoOk` tells whether
`udp_sendto` returned `ERR_OK`. The job is code of `udp_plat.c`, which has no access to the
static variables of `trel_plat.c`. -/
def runJobOnPlatform (sendtoOk : Bool) (p : Platform) : Platform :=
  { p with udp := UdpPlat.runJob sendtoOk p.udp }

/-- The macros of the IP stack, as the IP stack defines them, and its default TTL. -/
def lwip : UdpPlat.Lwip :=
  { UDP_TTL := 255
    ip6_addr_islinklocal := fun a =>
      a.m8.head? == some 0xfe && ((a.m8.getD 1 0) / 64 == 2)
    ip6_addr_has_scope := fun a type =>
      (a.m8.head? == some 0xfe && ((a.m8.getD 1 0) / 64 == 2)) ||
        (type != .IP6_UNICAST && a.m8.head? == some 0xff &&
          ((a.m8.getD 1 0) % 16 == 1 || (a.m8.getD 1 0) % 16 == 2))
    ip_addr_isany := fun a =>
      if a.type = .IPADDR_TYPE_V6 then a.addr.m8.all (fun b => b == 0)
      else (a.addr.m8.take 4).all (fun b => b == 0)
    ip_addr_ismulticast := fun a =>
      if a.type = .IPADDR_TYPE_V6 then a.addr.m8.head? == some 0xff
      else (a.addr.m8.getD 0 0) / 16 == 14
    ip6_addr_isipv4mappedipv6 := fun a =>
      a.m8.take 12 == [0, 0, 0, 0, 0, 0, 0, 0, 0, 0, 0xff, 0xff] }

/-- The UDP platform before any call: all static variables zero. -/
def UdpPlat.initialState : UdpPlat.UdpState :=
  { sBackboneNetifIdx := 0
    sOtNetifIdx := 0
    sInstance := none
    sBackboneNetifPtr := { index := 0 }
    sOtNetifPtr := { index := 0 }
    sMsgList := { elems := [], max := 0 }
    jobs := []
    calls := [] }

/-- The UDP platform after `UdpPlatInit` with backbone interface 1 and mesh interface 2. -/
def udpReady : UdpPlat.UdpState :=
  UdpPlat.UdpPlatInit (some { id := 1 }) { index := 1 } { index := 2 } UdpPlat.initialState

/-- The control block of a socket bound to interface 1. -/
def openPcb : UdpPlat.udp_pcb :=
  { netif_idx := 1
    ttl := 255
    multicast_loop := false
    local_ip := UdpPlat.zero_ip_addr
    local_port := 49152 }

/-- An open socket bound to interface 1. -/
def openSocket : UdpPlat.otUdpSocket :=
  { mSockName := { mAddress := kAnyAddress, mPort := 49152 }
    mPeerName := { mAddress := kAnyAddress, mPort := 0 }
    mHandler := 1
    mContext := 0
    mHandle := some openPcb }

/-- The TREL module enabled on top of the initialised UDP platform. -/
def readyPlatform : Platform :=
  { trel := enabledState, udp := udpReady, sTrelSocket := openSocket }

/-- Collaborators of `otPlatUdpSend` that all succeed. -/
def udpSendAllOk : UdpPlat.UdpSendEnv :=
  { contextAllocOk := true, pbufAllocOk := true, messageReadOk := true, tcpipCallbackOk := true }

/-- Whether a call of the UDP platform is `udp_sendto`. -/
def isUdpSendto : UdpPlat.UdpCall → Bool
  | .udp_sendto _ _ _ _ => true
  | _ => false

/-- Collaborators of `otPlatTrelSend` when `otUdpNewMessage` returns no message. -/
def noMessage : SendEnv := { newMessageOk := false, appendOk := true, udpSendOk := true }

/-! ## Datagrams arriving at the UDP platform -/

/-- A datagram handed to `recv_fcn`, with what the collaborators answer while it is
handled. -/
structure Datagram where
  env : UdpPlat.RecvEnv
  arg : UdpPlat.otUdpSocket
  p : List Nat
  addr : UdpPlat.ip_addr_t
  port : Nat
  deriving DecidableEq, Repr

/-- Whether `recv_fcn` succeeds for the datagram: the context and the message are allocated
and the payload is appended. -/
def Datagram.accepted (d : Datagram) : Bool :=
  d.env.contextAllocOk && d.env.newMessageOk && d.env.appendOk

/-- The receive context `recv_fcn` fills in for the datagram. -/
def Datagram.context (d : Datagram) (u : UdpPlat.UdpState) : UdpPlat.udpReceiveContext :=
  { socket := d.arg
    message := d.p
    message_info := UdpPlat.receivedMessageInfo d.env d.addr d.port u }

/-- The callback `recv_fcn` run once for each datagram, in order. -/
def receiveAll : UdpPlat.UdpState → List Datagram → UdpPlat.UdpState
  | u, [] => u
  | u, d :: ds => receiveAll (UdpPlat.recv_fcn d.env d.arg d.p d.addr d.port u) ds

/-- The handler invocations among calls, in the order they were made, each with the receive
context it was made on. -/
def deliveries (calls : List UdpPlat.UdpCall) : List UdpPlat.udpReceiveContext :=
  calls.filterMap fun c =>
    match c with
    | .mHandler socket message message_info =>
      some { socket := socket, message := message, message_info := message_info }
    | _ => none

/-- Collaborators of `recv_fcn` that all succeed, for a datagram to address `addrOf 7`. -/
def recvOk : UdpPlat.RecvEnv :=
  { contextAllocOk := true
    newMessageOk := true
    appendOk := true
    current_dest_addr := { addr := addrOf 7, zone := 0, type := .IPADDR_TYPE_V6 }
    ip4_ttl := 64
    ip6_hoplim := 64
    current_netif := { index := 1 } }

/-- Three datagrams `m1`, `m2`, `m3` for the open socket. -/
def threeDatagrams : List Datagram :=
  [{ env := recvOk, arg := openSocket, p := [1]
     addr := { addr := addrOf 1, zone := 0, type := .IPADDR_TYPE_V6 }, port := 1001 },
   { env := recvOk, arg := openSocket, p := [2, 2]
     addr := { addr := addrOf 2, zone := 0, type := .IPADDR_TYPE_V6 }, port := 1002 },
   { env := recvOk, arg := openSocket, p := [3, 3, 3]
     addr := { addr := addrOf 3, zone := 0, type := .IPADDR_TYPE_V6 }, port := 1003 }]

/-- The link-local address `fe80::1`. -/
def linkLocalAddress : otIp6Address :=
  ⟨[0xfe, 0x80, 0, 0, 0, 0, 0, 0, 0, 0, 0, 0, 0, 0, 0, 1], rfl⟩

/-- An open socket bound to interface 1 whose peer is `fe80::1`, port 1234. -/
def linkLocalSocket : UdpPlat.otUdpSocket :=
  { openSocket with mPeerName := { mAddress := linkLocalAddress, mPort := 1234 } }

/-- The address the specification has `otPlatUdpConnect` hand to `udp_connect` (not what the
function computes): the peer address of the socket in the form of the IP stack, with the zone
of the bound interface, or of the backbone interface when the socket is bound to none and the
address is link-local. -/
def peerAddressWithZone (lw : UdpPlat.Lwip) (aUdpSocket : UdpPlat.otUdpSocket)
    (pcb : UdpPlat.udp_pcb) (u : UdpPlat.UdpState) : UdpPlat.ip_addr_t :=
  let addr := UdpPlat.convertOpenthreadToLwipAddress lw aUdpSocket.mPeerName.mAddress
  if pcb.netif_idx = UdpPlat.NETIF_NO_INDEX then
    if lw.ip6_addr_islinklocal addr.addr then
      UdpPlat.ip6_addr_assign_zone lw addr .IP6_UNICAST (netif_get_index u.sBackboneNetifPtr)
    else { addr with zone := UdpPlat.IP6_NO_ZONE }
  else UdpPlat.ip6_addr_assign_zone lw addr .IP6_UNICAST pcb.netif_idx

/-- A datagram from the IPv4 source `192.0.2.1`, port 5353, to `192.0.2.2`. -/
def ipv4Datagram : Datagram :=
  { env :=
      { recvOk with
        current_dest_addr :=
          { addr := ⟨[192, 0, 2, 2, 0, 0, 0, 0, 0, 0, 0, 0, 0, 0, 0, 0], rfl⟩
            zone := 0
            type := .IPADDR_TYPE_V4 } }
    arg := openSocket
    p := [9, 9]
    addr :=
      { addr := ⟨[192, 0, 2, 1, 0, 0, 0, 0, 0, 0, 0, 0, 0, 0, 0, 0], rfl⟩
        zone := 0
        type := .IPADDR_TYPE_V4 }
    port := 5353 }

/-- The module disabled again after one datagram of three bytes was sent and counted. -/
def countedDisabledState : TrelState :=
  match otPlatTrelDisable true 1 (otPlatTrelSend sendOk [1, 2, 3] somewhere enabledState) with
  | .ok s => s
  | .error _ => initialState

/-! ## Releases made by the UDP platform -/

/-- The calls made between the state `u` and the later state `u'`. -/
def callsSince (u u' : UdpPlat.UdpState) : List UdpPlat.UdpCall :=
  u'.calls.drop u.calls.length

/-- Whether a call of the UDP platform is `pbuf_free`. -/
def isPbufFree : UdpPlat.UdpCall → Bool
  | .pbuf_free _ => true
  | _ => false

/-- Whether a call of the UDP platform is `otPlatFree`. -/
def isOtPlatFree : UdpPlat.UdpCall → Bool
  | .otPlatFree _ => true
  | _ => false

/-- Whether a call of the UDP platform is `otMessageFree`. -/
def isOtMessageFree : UdpPlat.UdpCall → Bool
  | .otMessageFree _ => true
  | _ => false

/-- Collaborators of `recv_fcn` when `otMessageAppend` fails. -/
def recvAppendFails : UdpPlat.RecvEnv := { recvOk with appendOk := false }

/-! ## The local service -/

/-- Modelled from the spec: the helper `CreateAlternativeBaseName` is not among the sources;
in the scenario of the spec the name `X` that collides becomes `X-1`. The name handed in is
never `NULL` once `TrelPlatInit` has run with a base name. -/
def alternativeName : Option String → Option String
  | some name => some (name ++ "-1")
  | none => none

/-- A build whose alternative names are those of `alternativeName`. -/
def buildAlt : Build :=
  { MAX_PEER_NUMBER := 4, CreateAlternativeBaseName := alternativeName }

/-- The registrations of the local service among calls, each by the instance name
submitted. -/
def registeredNames (calls : List Call) : List (Option String) :=
  calls.filterMap fun c =>
    match c with
    | .otMdnsRegisterService service => some service.mServiceInstance
    | _ => none

/-- Initialisation with base name `"X"`, enable, one peer discovered and one datagram sent,
then the host becomes ready and the service is registered as `"X"`. -/
def registerOps : List Op :=
  [.TrelPlatInit (some "X") { index := 1 },
    .otPlatTrelEnable enableOk,
    .HandleServiceBrowseResult true { mServiceInstance := "p", mTtl := 120 },
    .otPlatTrelSend sendOk [1, 2, 3] somewhere,
    .TrelOnAppReady true "host"]

/-- The state reached by `registerOps`. -/
def registeredState : TrelState :=
  match run buildAlt 2 initialState registerOps with
  | .ok s => s
  | .error _ => initialState

/-! ## Further inputs for the discovery callbacks -/

/-- A text-resolve result for peer `"p"` that reports 25 bytes, followed by `extra`. -/
def overlongTxt (extra : List Nat) : otMdnsTxtResult :=
  { mServiceInstance := "p", mTxtData := List.replicate 25 1 ++ extra }

/-- Whether a call starts the browser. -/
def isStartBrowser : Call → Bool
  | .otMdnsStartBrowser _ => true
  | _ => false

/-- Whether an operation is one of the two that clear the browsing flag: `otPlatTrelDisable`
and `TrelOnExternalNetifDown`. -/
def clearsBrowsing : Op → Bool
  | .otPlatTrelDisable _ => true
  | .TrelOnExternalNetifDown _ => true
  | _ => false

/-- Whether an operation is `TrelOnAppReady` or `otPlatTrelEnable`. -/
def isStartOp : Op → Bool
  | .TrelOnAppReady _ _ => true
  | .otPlatTrelEnable _ => true
  | _ => false

/-- Collaborators that let `otPlatTrelEnable` succeed, mDNS host ready. -/
def enableHostReady : EnableEnv := { enableOk with hostIsInitialized := true }

/-- Enable, browse peers `"a"` and `"b"` in that order, then take `"b"` alone through
service-resolve (host `"hb"`) and text-resolve, so that its address resolver is started. -/
def laterResolvedOps : List Op :=
  [.otPlatTrelEnable enableOk,
    .HandleServiceBrowseResult true { mServiceInstance := "a", mTtl := 120 },
    .HandleServiceBrowseResult true { mServiceInstance := "b", mTtl := 120 },
    .HandleServiceResolveResult { mServiceInstance := "b", mHostName := "hb", mPort := 9 },
    .HandleServiceTxtResolveResult { mServiceInstance := "b", mTxtData := [1, 2] }]

/-- The address-resolve result for host `"hb"` that answers the resolver of `"b"`. -/
def addressOfB : Op :=
  .HandleIp6AddressResolver
    { mHostName := "hb", mAddresses := [{ mAddress := addrOf 5, mTtl := 5 }] }

/-- The state `s'` is `s` after further calls, none of which starts the browser, and the
browsing flag is as it was. -/
def KeepsBrowsing (s s' : TrelState) : Prop :=
  s'.sBrowsingEnabled = s.sBrowsingEnabled ∧
    ∃ new, s'.calls = s.calls ++ new ∧ new.filter isStartBrowser = []

/-- The module, not yet enabled, after the host became ready and the browser was started. -/
def browsingState : TrelState := TrelOnAppReady true "host" initialState

/-- Further calls of `otPlatTrelEnable` and `TrelOnAppReady`, with the host ready. -/
def startAgainOps : List Op :=
  [.otPlatTrelEnable enableHostReady, .TrelOnAppReady true "host",
    .otPlatTrelEnable enableHostReady]

/-- Instance name and host name of each record of the directory, in list order. -/
def hostNames (s : TrelState) : List (String × Option String) :=
  s.sPeerList.elems.map fun peer => (peer.mPeerServiceInstance, peer.mPeerHostName)

/-- The peer-info notifications among calls, each as its `mRemoved` flag and its socket
address. -/
def notifiedSockAddrs (calls : List Call) : List (Bool × otSockAddr) :=
  (peerInfoCalls calls).map fun info => (info.mRemoved, info.mSockAddr)

/-- Collaborators of `otPlatUdpSend` when the context is allocated and `pbuf_alloc` returns
no buffer. -/
def noBuffer (messageReadOk tcpipCallbackOk : Bool) : UdpPlat.UdpSendEnv :=
  { contextAllocOk := true
    pbufAllocOk := false
    messageReadOk := messageReadOk
    tcpipCallbackOk := tcpipCallbackOk }

/-- Collaborators of `otPlatUdpSend` when the context and the buffer are allocated and
`otMessageRead` does not read the whole message. -/
def shortRead (tcpipCallbackOk : Bool) : UdpPlat.UdpSendEnv :=
  { contextAllocOk := true
    pbufAllocOk := true
    messageReadOk := false
    tcpipCallbackOk := tcpipCallbackOk }

/-! ## Theorems -/

/-! ### Byte order of addresses -/

theorem memcmp_self (a : List Nat) (n : Nat) : memcmp a a n = 0 := by
  induction a generalizing n with
  | nil => simp [memcmp]
  | cons x xs ih =>
    cases n with
    | zero => simp [memcmp]
    | succ m => simp [memcmp, ih]

theorem memcmp_swap (a b : List Nat) (n : Nat) : memcmp b a n = - memcmp a b n := by
  induction a generalizing b n with
  | nil => cases b <;> simp [memcmp]
  | cons x xs ih =>
    cases b with
    | nil => simp [memcmp]
    | cons y ys =>
      cases n with
      | zero => simp [memcmp]
      | succ m =>
        by_cases hxy : x = y
        · subst hxy
          simp [memcmp, ih]
        · have hyx : ¬ y = x := fun h => hxy h.symm
          simp [memcmp, hxy, hyx]

theorem memcmp_le_trans (a b c : List Nat) (n : Nat) (hab : a.length = b.length)
    (hbc : b.length = c.length) (h1 : memcmp a b n ≤ 0) (h2 : memcmp b c n ≤ 0) :
    memcmp a c n ≤ 0 := by
  induction a generalizing b c n with
  | nil =>
    cases c <;> simp [memcmp]
  | cons x xs ih =>
    cases b with
    | nil => simp at hab
    | cons y ys =>
      cases c with
      | nil => simp at hbc
      | cons z zs =>
        cases n with
        | zero => simp [memcmp]
        | succ m =>
          simp only [List.length_cons, Nat.add_right_cancel_iff] at hab hbc
          by_cases hxy : x = y
          · subst hxy
            by_cases hxz : x = z
            · subst hxz
              simp only [memcmp, if_true] at h1 h2 ⊢
              exact ih ys zs m hab hbc h1 h2
            · simp only [memcmp, if_true, hxz, if_false] at h1 h2 ⊢
              exact h2
          · by_cases hyz : y = z
            · subst hyz
              simp only [memcmp, hxy, if_false] at h1 ⊢
              exact h1
            · simp only [memcmp, hxy, hyz, if_false] at h1 h2
              have hxz : ¬ x = z := by omega
              simp only [memcmp, hxz, if_false]
              omega

theorem memcmp_zero_le (k : Nat) (c : List Nat) (n : Nat) :
    memcmp (List.replicate k 0) c n ≤ 0 := by
  induction k generalizing c n with
  | zero => simp [memcmp]
  | succ j ih =>
    cases c with
    | nil => simp [memcmp]
    | cons y ys =>
      cases n with
      | zero => simp [memcmp]
      | succ m =>
        by_cases hy : 0 = y
        · subst hy
          simp only [List.replicate_succ, memcmp, if_true]
          exact ih ys m
        · simp only [List.replicate_succ, memcmp, hy, if_false]
          omega

theorem eq_replicate_of_memcmp_le (c : List Nat) (n : Nat) (hn : c.length ≤ n)
    (h : memcmp c (List.replicate c.length 0) n ≤ 0) : c = List.replicate c.length 0 := by
  induction c generalizing n with
  | nil => simp
  | cons x xs ih =>
    cases n with
    | zero => simp at hn
    | succ m =>
      simp only [List.length_cons] at hn
      by_cases hx : x = 0
      · subst hx
        simp only [List.length_cons, List.replicate_succ, memcmp, if_true] at h ⊢
        rw [← ih m (by omega) h]
      · simp only [List.length_cons, List.replicate_succ, memcmp, hx, if_false] at h
        omega

theorem otIp6Address.ext_m8 (a b : otIp6Address) (h : a.m8 = b.m8) : a = b := by
  cases a
  cases b
  simp only [otIp6Address.mk.injEq]
  exact h

theorem kAnyAddress_m8 : kAnyAddress.m8 = List.replicate 16 0 := by
  decide

theorem eq_kAnyAddress_of_unspecified (a : otIp6Address)
    (h : otIp6IsAddressUnspecified a = true) : a = kAnyAddress := by
  apply otIp6Address.ext_m8
  rw [kAnyAddress_m8, ← a.size_eq]
  simp only [otIp6IsAddressUnspecified, List.all_eq_true, beq_iff_eq] at h
  exact List.eq_replicate_of_mem h

theorem eq_kAnyAddress_of_memcmp_le (a : otIp6Address)
    (h : memcmp a.m8 kAnyAddress.m8 16 ≤ 0) : a = kAnyAddress := by
  apply otIp6Address.ext_m8
  rw [kAnyAddress_m8, ← a.size_eq] at h ⊢
  exact eq_replicate_of_memcmp_le a.m8 a.m8.length (le_refl _) h

/-! ### The selection loop -/

theorem selectAddressLoop_wraps (aResult : otMdnsAddressResult)
    (h : 256 ≤ aResult.mAddressesLength) (fuel : Nat) :
    ∀ i selectedAddress, i < 256 →
      selectAddressLoop aResult fuel i selectedAddress = .error .outOfFuel := by
  induction fuel with
  | zero => intro i sel _; rfl
  | succ k ih =>
    intro i sel hi
    have hlen : i < aResult.mAddresses.length := by
      simp only [otMdnsAddressResult.mAddressesLength] at h
      omega
    have hi2 : i < aResult.mAddressesLength := hlen
    simp only [selectAddressLoop, hi2, if_true, List.getElem?_eq_getElem hlen]
    exact ih _ _ (Nat.mod_lt _ (by decide))

theorem selectAddressLoop_eq_foldl (aResult : otMdnsAddressResult)
    (h : aResult.mAddressesLength ≤ 255) (fuel : Nat) :
    ∀ i selectedAddress, i ≤ aResult.mAddressesLength → aResult.mAddressesLength - i < fuel →
      selectAddressLoop aResult fuel i selectedAddress =
        .ok ((aResult.mAddresses.drop i).foldl selectStep selectedAddress) := by
  induction fuel with
  | zero => intro i sel _ hf; omega
  | succ k ih =>
    intro i sel hi hf
    by_cases hlt : i < aResult.mAddressesLength
    · have hlen : i < aResult.mAddresses.length := hlt
      have hmod : (i + 1) % 256 = i + 1 := Nat.mod_eq_of_lt (by omega)
      simp only [selectAddressLoop, hlt, if_true, List.getElem?_eq_getElem hlen, hmod]
      rw [ih (i + 1) _ (by omega) (by omega)]
      rw [List.drop_eq_getElem_cons hlen]
      rfl
    · have hlen : aResult.mAddresses.length ≤ i := by
        simp only [otMdnsAddressResult.mAddressesLength] at hlt
        omega
      simp only [selectAddressLoop, hlt, if_false, List.drop_eq_nil_of_le hlen, List.foldl_nil]

theorem selectStep_pos (acc : otIp6Address) (d : otMdnsAddressAndTtl)
    (h : d.mTtl ≠ 0 ∧
      (otIp6IsAddressUnspecified acc = true ∨ memcmp acc.m8 d.mAddress.m8 16 < 0)) :
    selectStep acc d = d.mAddress := if_pos h

theorem selectStep_neg (acc : otIp6Address) (d : otMdnsAddressAndTtl)
    (h : ¬ (d.mTtl ≠ 0 ∧
      (otIp6IsAddressUnspecified acc = true ∨ memcmp acc.m8 d.mAddress.m8 16 < 0))) :
    selectStep acc d = acc := if_neg h

theorem foldl_selectStep_inv (l : List otMdnsAddressAndTtl) :
    ∀ (seen : List otMdnsAddressAndTtl) (acc : otIp6Address),
      (∀ c ∈ seen, c.mTtl ≠ 0 → memcmp c.mAddress.m8 acc.m8 16 ≤ 0) →
      (acc = kAnyAddress ∨ ∃ c ∈ seen, c.mTtl ≠ 0 ∧ c.mAddress = acc) →
      (∀ c ∈ seen ++ l, c.mTtl ≠ 0 →
          memcmp c.mAddress.m8 (l.foldl selectStep acc).m8 16 ≤ 0) ∧
        (l.foldl selectStep acc = kAnyAddress ∨
          ∃ c ∈ seen ++ l, c.mTtl ≠ 0 ∧ c.mAddress = l.foldl selectStep acc) := by
  induction l with
  | nil =>
    intro seen acc h1 h2
    simpa using ⟨h1, h2⟩
  | cons d ds ih =>
    intro seen acc h1 h2
    have key := ih (seen ++ [d]) (selectStep acc d)
    simp only [List.append_assoc, List.singleton_append] at key
    simp only [List.foldl_cons]
    apply key
    · intro c hc httl
      rcases List.mem_append.1 hc with hc | hc
      · by_cases hsel : d.mTtl ≠ 0 ∧
            (otIp6IsAddressUnspecified acc = true ∨ memcmp acc.m8 d.mAddress.m8 16 < 0)
        · rw [selectStep_pos acc d hsel]
          have hacc : memcmp acc.m8 d.mAddress.m8 16 ≤ 0 := by
            rcases hsel.2 with hu | hlt
            · rw [eq_kAnyAddress_of_unspecified acc hu, kAnyAddress_m8]
              exact memcmp_zero_le 16 _ 16
            · exact le_of_lt hlt
          exact memcmp_le_trans _ _ _ 16 (by rw [c.mAddress.size_eq, acc.size_eq])
            (by rw [acc.size_eq, d.mAddress.size_eq]) (h1 c hc httl) hacc
        · rw [selectStep_neg acc d hsel]
          exact h1 c hc httl
      · have hcd : c = d := by simpa using hc
        subst hcd
        by_cases hsel : c.mTtl ≠ 0 ∧
            (otIp6IsAddressUnspecified acc = true ∨ memcmp acc.m8 c.mAddress.m8 16 < 0)
        · rw [selectStep_pos acc c hsel]
          exact le_of_eq (memcmp_self _ _)
        · rw [selectStep_neg acc c hsel]
          have hge : ¬ memcmp acc.m8 c.mAddress.m8 16 < 0 := fun hlt =>
            hsel ⟨httl, Or.inr hlt⟩
          rw [memcmp_swap acc.m8 c.mAddress.m8 16]
          omega
    · by_cases hsel : d.mTtl ≠ 0 ∧
          (otIp6IsAddressUnspecified acc = true ∨ memcmp acc.m8 d.mAddress.m8 16 < 0)
      · right
        exact ⟨d, by simp, hsel.1, (selectStep_pos acc d hsel).symm⟩
      · rw [selectStep_neg acc d hsel]
        rcases h2 with h2 | ⟨c, hc, httl, hcacc⟩
        · exact Or.inl h2
        · exact Or.inr ⟨c, List.mem_append_left _ hc, httl, hcacc⟩

/-- The value left in `selectedAddress` by the loop body run over all candidates: when some
candidate has a non-zero TTL it is the address of such a candidate and no such candidate is
greater in `memcmp` order; when none has, it is the all-zero address. -/
theorem foldl_selectStep_greatest (l : List otMdnsAddressAndTtl) :
    ((∃ c ∈ l, c.mTtl ≠ 0) →
        (∃ c ∈ l, c.mTtl ≠ 0 ∧ c.mAddress = l.foldl selectStep kAnyAddress) ∧
          ∀ c ∈ l, c.mTtl ≠ 0 →
            memcmp c.mAddress.m8 (l.foldl selectStep kAnyAddress).m8 16 ≤ 0) ∧
      ((∀ c ∈ l, c.mTtl = 0) → l.foldl selectStep kAnyAddress = kAnyAddress) := by
  have key := foldl_selectStep_inv l [] kAnyAddress (by simp) (Or.inl rfl)
  simp only [List.nil_append] at key
  refine ⟨fun hex => ⟨?_, key.1⟩, fun hall => ?_⟩
  · rcases key.2 with hzero | hfound
    · obtain ⟨c, hc, httl⟩ := hex
      have hle := key.1 c hc httl
      rw [hzero] at hle
      exact ⟨c, hc, httl, by rw [hzero]; exact eq_kAnyAddress_of_memcmp_le _ hle⟩
    · exact hfound
  · rcases key.2 with hzero | ⟨c, hc, httl, _⟩
    · exact hzero
    · exact absurd (hall c hc) httl

/-! ### C1: address selection -/

/-- With at most 255 candidates, `HandleIp6AddressResolver` called while enabled for the
host name of a record returns: it stops the address resolver of the record, stores the
selected address in the record and announces the record, and the selected address is the
value of `foldl_selectStep_greatest`. -/
theorem HandleIp6AddressResolver_selects (aResult : otMdnsAddressResult) (s : TrelState)
    (element : Nat × Peer) (fuel : Nat) (hen : s.sTrelEnabled = true)
    (hfind : findPeerByHostName s aResult.mHostName = .ok (some element))
    (hlen : aResult.mAddressesLength ≤ 255) (hfuel : aResult.mAddressesLength < fuel) :
    HandleIp6AddressResolver fuel aResult s =
      .ok (emit (.otPlatTrelHandleDiscoveredPeerInfo
          (discoveredPeerInfo { element.2 with mSockAddr :=
            { element.2.mSockAddr with
              mAddress := aResult.mAddresses.foldl selectStep kAnyAddress } }))
        (storePeer (emit (.otMdnsStopIp6AddressResolver element.2.mAddrResolver) s) element.1
          { element.2 with mSockAddr :=
            { element.2.mSockAddr with
              mAddress := aResult.mAddresses.foldl selectStep kAnyAddress } })) := by
  have hloop := selectAddressLoop_eq_foldl aResult hlen fuel 0 kAnyAddress (Nat.zero_le _)
    (by omega)
  simp only [List.drop_zero] at hloop
  simp only [HandleIp6AddressResolver, hen, hfind, hloop, Bool.not_true, Bool.false_eq_true,
    if_false]

/-- The candidates `[(A, ttl 0), (B, ttl 5), (C, ttl 3)]` with `B > C` select `B`, and
candidates whose TTLs are all zero select the all-zero address. -/
theorem selectAddressLoop_example :
    selectAddressLoop
        { mHostName := "h"
          mAddresses :=
            [{ mAddress := addrOf 9, mTtl := 0 }, { mAddress := addrOf 5, mTtl := 5 },
              { mAddress := addrOf 3, mTtl := 3 }] } 4 0 kAnyAddress = .ok (addrOf 5) ∧
      selectAddressLoop
        { mHostName := "h"
          mAddresses := [{ mAddress := addrOf 9, mTtl := 0 }, { mAddress := addrOf 5, mTtl := 0 }] }
        3 0 kAnyAddress = .ok kAnyAddress := by
  decide

/-- C1, evaluated where the code departs from it: for the address-resolve result
`manyAddresses` (256 candidates, all with TTL 5) handled while enabled for the host name of
the record of `resolvedState`, the selection loop of `HandleIp6AddressResolver`, whose
counter is 8 bits wide, does not end: whatever the fuel, the callback does not return, so no
address is selected. -/
theorem HandleIp6AddressResolver_manyAddresses (fuel : Nat) :
    HandleIp6AddressResolver fuel manyAddresses resolvedState = .error .outOfFuel := by
  have hmany : 256 ≤ manyAddresses.mAddressesLength := by
    show 256 ≤ (List.replicate 256 _).length
    rw [List.length_replicate]
  have hloop := selectAddressLoop_wraps manyAddresses hmany fuel 0 kAnyAddress (by decide)
  have hen : resolvedState.sTrelEnabled = true := by decide
  have hfound : (match findPeerByHostName resolvedState "h" with
      | .ok (some _) => true
      | _ => false) = true := by decide
  have hfind : ∃ element, findPeerByHostName resolvedState manyAddresses.mHostName =
      .ok (some element) := by
    show ∃ element, findPeerByHostName resolvedState "h" = .ok (some element)
    cases hr : findPeerByHostName resolvedState "h" with
    | error f => rw [hr] at hfound; simp at hfound
    | ok r =>
      cases r with
      | none => rw [hr] at hfound; simp at hfound
      | some element => exact ⟨element, rfl⟩
  obtain ⟨element, hfind⟩ := hfind
  simp only [HandleIp6AddressResolver, hen, hfind, hloop, Bool.not_true, Bool.false_eq_true,
    if_false]

/-! ### Lookup by instance name -/

@[simp] theorem emit_sPeerList (c : Call) (s : TrelState) : (emit c s).sPeerList = s.sPeerList :=
  rfl

@[simp] theorem emit_sTrelEnabled (c : Call) (s : TrelState) :
    (emit c s).sTrelEnabled = s.sTrelEnabled := rfl

@[simp] theorem emit_sBrowsingEnabled (c : Call) (s : TrelState) :
    (emit c s).sBrowsingEnabled = s.sBrowsingEnabled := rfl

@[simp] theorem emit_calls (c : Call) (s : TrelState) : (emit c s).calls = s.calls ++ [c] := rfl

theorem findPeerByServiceInstanceFrom_none (name : String) (l : List Peer) :
    ∀ i, findPeerByServiceInstanceFrom name l i = none →
      ∀ p ∈ l, p.mPeerServiceInstance ≠ name := by
  induction l with
  | nil => intro i _ p hp; simp at hp
  | cons q qs ih =>
    intro i h p hp
    by_cases hq : q.mPeerServiceInstance = name
    · simp [findPeerByServiceInstanceFrom, hq] at h
    · simp only [findPeerByServiceInstanceFrom, hq, if_false] at h
      rcases List.mem_cons.1 hp with hpq | hpqs
      · rw [hpq]; exact hq
      · exact ih (i + 1) h p hpqs

/-- A successful scan splits the list at the record found: no record before it has the
name, and the position returned is the position of the record. -/
theorem findPeerByServiceInstanceFrom_some (name : String) (l : List Peer) :
    ∀ i j p, findPeerByServiceInstanceFrom name l i = some (j, p) →
      ∃ l1 l2, l = l1 ++ p :: l2 ∧ j = i + l1.length ∧ p.mPeerServiceInstance = name ∧
        ∀ q ∈ l1, q.mPeerServiceInstance ≠ name := by
  induction l with
  | nil => intro i j p h; simp [findPeerByServiceInstanceFrom] at h
  | cons q qs ih =>
    intro i j p h
    by_cases hq : q.mPeerServiceInstance = name
    · simp only [findPeerByServiceInstanceFrom, hq, if_true, Option.some.injEq,
        Prod.mk.injEq] at h
      obtain ⟨hij, hqp⟩ := h
      subst hqp
      exact ⟨[], qs, rfl, by simp [hij], hq, by simp⟩
    · simp only [findPeerByServiceInstanceFrom, hq, if_false] at h
      obtain ⟨l1, l2, hl, hj, hp, hbefore⟩ := ih (i + 1) j p h
      refine ⟨q :: l1, l2, by rw [hl]; rfl, by simp only [List.length_cons]; omega, hp, ?_⟩
      intro r hr
      rcases List.mem_cons.1 hr with hrq | hrl
      · rw [hrq]; exact hq
      · exact hbefore r hrl

/-- The converse: the scan of a list split at the first record with the name finds that
record. -/
theorem findPeerByServiceInstanceFrom_append (name : String) (l1 l2 : List Peer) (p : Peer)
    (hp : p.mPeerServiceInstance = name) (hbefore : ∀ q ∈ l1, q.mPeerServiceInstance ≠ name) :
    ∀ i, findPeerByServiceInstanceFrom name (l1 ++ p :: l2) i = some (i + l1.length, p) := by
  induction l1 with
  | nil => intro i; simp [findPeerByServiceInstanceFrom, hp]
  | cons q qs ih =>
    intro i
    have hq : ¬ q.mPeerServiceInstance = name := hbefore q (by simp)
    show findPeerByServiceInstanceFrom name (q :: (qs ++ p :: l2)) i = _
    simp only [findPeerByServiceInstanceFrom, hq, if_false]
    rw [ih (fun r hr => hbefore r (List.mem_cons_of_mem _ hr)) (i + 1)]
    simp only [List.length_cons]
    congr 2
    omega

/-! ### C2: uniqueness of instance names -/

theorem LIST_AddTail_full (l : list_label_t) (e : Peer)
    (h : l.max ≠ 0 ∧ l.max = l.size) : LIST_AddTail l e = (.kLIST_Full, l) := if_pos h

theorem LIST_AddTail_ok (l : list_label_t) (e : Peer) (h : ¬ (l.max ≠ 0 ∧ l.max = l.size)) :
    LIST_AddTail l e = (.kLIST_Ok, { l with elems := l.elems ++ [e] }) := if_neg h

theorem createAndAppendPeerListEntry_noalloc (aPeer : Peer) (s : TrelState) :
    createAndAppendPeerListEntry false aPeer s = (.OT_ERROR_NONE, s) := rfl

theorem createAndAppendPeerListEntry_full (aPeer : Peer) (s : TrelState)
    (h : s.sPeerList.max ≠ 0 ∧ s.sPeerList.max = s.sPeerList.size) :
    createAndAppendPeerListEntry true aPeer s =
      (.OT_ERROR_FAILED, { s with sPeerNumber := (s.sPeerNumber + 1) % 256 }) := by
  simp only [createAndAppendPeerListEntry, LIST_AddTail_full _ _ h]
  rfl

theorem createAndAppendPeerListEntry_ok (aPeer : Peer) (s : TrelState)
    (h : ¬ (s.sPeerList.max ≠ 0 ∧ s.sPeerList.max = s.sPeerList.size)) :
    createAndAppendPeerListEntry true aPeer s =
      (.OT_ERROR_NONE,
        { s with
          sPeerList := { s.sPeerList with elems := s.sPeerList.elems ++ [aPeer] }
          sPeerNumber := (s.sPeerNumber + 1) % 256 }) := by
  simp only [createAndAppendPeerListEntry, LIST_AddTail_ok _ _ h]
  rfl

theorem createAndAppendPeerListEntry_elems (allocOk : Bool) (aPeer : Peer) (s : TrelState) :
    (createAndAppendPeerListEntry allocOk aPeer s).2.sPeerList.elems = s.sPeerList.elems ∨
      (createAndAppendPeerListEntry allocOk aPeer s).2.sPeerList.elems =
        s.sPeerList.elems ++ [aPeer] := by
  cases allocOk
  · left; rfl
  · by_cases hfull : s.sPeerList.max ≠ 0 ∧ s.sPeerList.max = s.sPeerList.size
    · left; rw [createAndAppendPeerListEntry_full _ _ hfull]
    · right; rw [createAndAppendPeerListEntry_ok _ _ hfull]

theorem AddTrelServiceInstance_sPeerList (allocOk : Bool) (name : String) (s : TrelState) :
    (AddTrelServiceInstance allocOk name s).sPeerList =
      (createAndAppendPeerListEntry allocOk (newPeer s name) s).2.sPeerList := by
  simp only [AddTrelServiceInstance]
  split <;> rfl

theorem AddTrelServiceInstance_elems (allocOk : Bool) (name : String) (s : TrelState) :
    (AddTrelServiceInstance allocOk name s).sPeerList.elems = s.sPeerList.elems ∨
      (AddTrelServiceInstance allocOk name s).sPeerList.elems =
        s.sPeerList.elems ++ [newPeer s name] := by
  rw [AddTrelServiceInstance_sPeerList]
  exact createAndAppendPeerListEntry_elems allocOk (newPeer s name) s

theorem RemoveTrelServiceInstance_elems (aElement : Nat × Peer) (s : TrelState) :
    (RemoveTrelServiceInstance aElement s).sPeerList.elems =
      s.sPeerList.elems.eraseIdx aElement.1 := rfl

theorem newPeer_mPeerServiceInstance (s : TrelState) (name : String) :
    (newPeer s name).mPeerServiceInstance = name := rfl

/-- One browse result keeps the instance names of the directory pairwise distinct. -/
theorem HandleServiceBrowseResult_nodup (allocOk : Bool) (aResult : otMdnsBrowseResult)
    (s : TrelState) (h : (s.sPeerList.elems.map Peer.mPeerServiceInstance).Nodup) :
    ((HandleServiceBrowseResult allocOk aResult s).sPeerList.elems.map
      Peer.mPeerServiceInstance).Nodup := by
  unfold HandleServiceBrowseResult
  by_cases hen : s.sTrelEnabled = true
  · simp only [hen, Bool.not_true, Bool.false_eq_true, if_false]
    cases hfind : findPeerByServiceInstance s aResult.mServiceInstance with
    | some element =>
      simp only
      by_cases httl : aResult.mTtl ≠ 0
      · simpa [httl] using h
      · simp only [httl, if_false, RemoveTrelServiceInstance_elems]
        exact h.sublist ((List.eraseIdx_sublist _ _).map _)
    | none =>
      simp only
      have hnone := findPeerByServiceInstanceFrom_none _ _ 0 hfind
      rcases AddTrelServiceInstance_elems allocOk aResult.mServiceInstance s with hadd | hadd
      · rw [hadd]; exact h
      · rw [hadd, List.map_append, List.map_singleton, newPeer_mPeerServiceInstance]
        refine List.Nodup.append h (List.nodup_singleton _) ?_
        intro n hn1 hn2
        obtain ⟨p, hp, hpn⟩ := List.mem_map.1 hn1
        have hn : n = aResult.mServiceInstance := by simpa using hn2
        exact hnone p hp (hpn.trans hn)
  · have hdis : s.sTrelEnabled = false := by simpa using hen
    simpa [hdis] using h

theorem browseAll_nodup (rs : List (Bool × otMdnsBrowseResult)) :
    ∀ s : TrelState, (s.sPeerList.elems.map Peer.mPeerServiceInstance).Nodup →
      ((browseAll s rs).sPeerList.elems.map Peer.mPeerServiceInstance).Nodup := by
  induction rs with
  | nil => intro s h; exact h
  | cons r rs ih =>
    intro s h
    exact ih _ (HandleServiceBrowseResult_nodup r.1 r.2 s h)

/-- C2: starting from an empty peer directory with the module enabled, after every finite
sequence of browse results (any instance names, any TTLs, any outcome of the allocations)
no two records of the peer list have equal service-instance names. -/
theorem browseAll_unique_instance_names (s : TrelState)
    (rs : List (Bool × otMdnsBrowseResult)) (_hen : s.sTrelEnabled = true)
    (hempty : s.sPeerList.elems = []) :
    ((browseAll s rs).sPeerList.elems.map Peer.mPeerServiceInstance).Nodup := by
  apply browseAll_nodup
  rw [hempty]
  exact List.nodup_nil

theorem browseAll_unique_instance_names_witness :
    enabledState.sTrelEnabled = true ∧ enabledState.sPeerList.elems = [] ∧
      ((browseAll enabledState someBrowseResults).sPeerList.elems.map
        Peer.mPeerServiceInstance).Nodup :=
  ⟨by decide, by decide,
    browseAll_unique_instance_names enabledState someBrowseResults (by decide) (by decide)⟩

/-! ### Removing all records -/

theorem removeAndFreeInternalPeerListEntry_head (p : Peer) (ps : List Peer) (s : TrelState)
    (h : s.sPeerList.elems = p :: ps) :
    removeAndFreeInternalPeerListEntry (0, p) s =
      { s with
        sPeerList := { s.sPeerList with elems := ps }
        sPeerNumber := (s.sPeerNumber + 255) % 256
        calls := s.calls ++ [Call.otPlatFree p] } := by
  simp only [removeAndFreeInternalPeerListEntry, LIST_RemoveElement, emit, h,
    List.eraseIdx_cons_zero]

/-- With more fuel than records, `RemoveAllPeersAndNotify` returns; it leaves the list
empty, has made the calls of `removeAllCallsFor` for each record in list order, and has
decremented the 8-bit counter once per record. -/
theorem RemoveAllPeersAndNotify_ok (otTrelIsEnabled : Bool) (fuel : Nat) :
    ∀ s : TrelState, s.sPeerList.elems.length < fuel →
      RemoveAllPeersAndNotify otTrelIsEnabled fuel s =
        .ok { s with
          sPeerList := { s.sPeerList with elems := [] }
          sPeerNumber := (fun n => (n + 255) % 256)^[s.sPeerList.elems.length] s.sPeerNumber
          calls := s.calls ++ s.sPeerList.elems.flatMap (removeAllCallsFor otTrelIsEnabled) } := by
  induction fuel with
  | zero => intro s h; omega
  | succ k ih =>
    intro s h
    obtain ⟨port, nif, svc, en, br, browser, txt, ctr, num, ⟨elems, max⟩, calls⟩ := s
    cases elems with
    | nil =>
      simp [RemoveAllPeersAndNotify, LIST_GetHead]
    | cons p ps =>
      simp only [List.length_cons] at h
      simp only [RemoveAllPeersAndNotify, LIST_GetHead, List.head?_cons]
      cases otTrelIsEnabled
      · simp only [Bool.false_eq_true, if_false]
        rw [removeAndFreeInternalPeerListEntry_head p ps _ rfl, ih _ (by simp only; omega)]
        simp [removeAllCallsFor, List.flatMap_cons]
      · simp only [if_true]
        rw [removeAndFreeInternalPeerListEntry_head p ps _ rfl, ih _ (by simp only [emit]; omega)]
        simp [removeAllCallsFor, List.flatMap_cons, emit]

theorem StopAllPeerResolversFrom_eq (l : List Peer) :
    ∀ s : TrelState,
      StopAllPeerResolversFrom l s = { s with calls := s.calls ++ l.flatMap stopCallsFor } := by
  induction l with
  | nil => intro s; simp [StopAllPeerResolversFrom]
  | cons p ps ih =>
    intro s
    simp [StopAllPeerResolversFrom, ih, emit, stopCallsFor, List.flatMap_cons]

theorem StopAllPeerResolvers_eq (s : TrelState) :
    StopAllPeerResolvers s =
      { s with calls := s.calls ++ s.sPeerList.elems.flatMap stopCallsFor } :=
  StopAllPeerResolversFrom_eq _ s

/-- The state in which `otPlatTrelDisable` returns when called while enabled with more fuel
than records. -/
theorem otPlatTrelDisable_ok (otTrelIsEnabled : Bool) (fuel : Nat) (s : TrelState)
    (hen : s.sTrelEnabled = true) (hfuel : s.sPeerList.elems.length < fuel) :
    otPlatTrelDisable otTrelIsEnabled fuel s =
      .ok { s with
        sTrelEnabled := false
        sBrowsingEnabled := false
        sPeerList := { s.sPeerList with elems := [] }
        sPeerNumber := (fun n => (n + 255) % 256)^[s.sPeerList.elems.length] s.sPeerNumber
        calls := s.calls ++
          [Call.otPlatUdpClose, Call.otMdnsStopBrowser s.trelBrowser,
            Call.otMdnsUnregisterService s.sTrelService] ++
          s.sPeerList.elems.flatMap stopCallsFor ++
          s.sPeerList.elems.flatMap (removeAllCallsFor otTrelIsEnabled) } := by
  simp only [otPlatTrelDisable, hen, Bool.not_true, Bool.false_eq_true, if_false,
    StopAllPeerResolvers_eq]
  rw [RemoveAllPeersAndNotify_ok otTrelIsEnabled fuel _ (by simpa [emit] using hfuel)]
  simp [emit]

/-! ### C5: disable empties the directory -/

/-- C5: for every state in which the module is enabled and every content of the peer
directory, `otPlatTrelDisable` returns (given more fuel than there are records), and in the
state it returns the peer list is empty and the enabled flag and the browsing flag are both
false. -/
theorem otPlatTrelDisable_empties (otTrelIsEnabled : Bool) (fuel : Nat) (s : TrelState)
    (hen : s.sTrelEnabled = true) (hfuel : s.sPeerList.elems.length < fuel) :
    ∃ s', otPlatTrelDisable otTrelIsEnabled fuel s = .ok s' ∧ s'.sPeerList.elems = [] ∧
      s'.sTrelEnabled = false ∧ s'.sBrowsingEnabled = false :=
  ⟨_, otPlatTrelDisable_ok otTrelIsEnabled fuel s hen hfuel, rfl, rfl, rfl⟩

theorem otPlatTrelDisable_empties_witness :
    activeState.sTrelEnabled = true ∧ activeState.sPeerList.elems.length < 3 ∧
      ∃ s', otPlatTrelDisable true 3 activeState = .ok s' ∧ s'.sPeerList.elems = [] ∧
        s'.sTrelEnabled = false ∧ s'.sBrowsingEnabled = false :=
  ⟨by decide, by decide, otPlatTrelDisable_empties true 3 activeState (by decide) (by decide)⟩

/-! ### C6: notifications made by disable -/

theorem peerInfoCalls_append (l1 l2 : List Call) :
    peerInfoCalls (l1 ++ l2) = peerInfoCalls l1 ++ peerInfoCalls l2 :=
  List.filterMap_append _ _ _

theorem peerInfoCalls_stopCalls (l : List Peer) : peerInfoCalls (l.flatMap stopCallsFor) = [] := by
  induction l with
  | nil => rfl
  | cons p ps ih =>
    rw [List.flatMap_cons, peerInfoCalls_append, ih]
    rfl

theorem peerInfoCalls_removeAllCalls (otTrelIsEnabled : Bool) (l : List Peer) :
    peerInfoCalls (l.flatMap (removeAllCallsFor otTrelIsEnabled)) =
      if otTrelIsEnabled then l.map removedPeerInfo else [] := by
  induction l with
  | nil => cases otTrelIsEnabled <;> rfl
  | cons p ps ih =>
    rw [List.flatMap_cons, peerInfoCalls_append, ih]
    cases otTrelIsEnabled <;> rfl

/-- C6 as stated fails: in `activeState` the module is enabled and peer `"p"` has been
announced as discovered (the one peer-info notification made so far), yet
`otPlatTrelDisable`, called when the mesh layer answers `otTrelIsEnabled` with false,
returns having made no peer-info notification. -/
theorem otPlatTrelDisable_silent :
    activeState.sTrelEnabled = true ∧
      (peerInfoCalls activeState.calls).map (fun info => info.mRemoved) = [false] ∧
      (otPlatTrelDisable false 3 activeState).map
          (fun s' => peerInfoCalls (s'.calls.drop activeState.calls.length)) = .ok [] := by
  decide

/-- C6, amended: for every enabled state, `otPlatTrelDisable` returns (given more fuel than
there are records), and the peer-info notifications it has made are: when the mesh layer
answers `otTrelIsEnabled` with true, exactly one notification with `mRemoved = true` for each
record of the directory, in list order, whether or not the peer had been announced, each
carrying the stored socket address and TXT data of its record; when it answers false,
none. -/
theorem otPlatTrelDisable_notifications (otTrelIsEnabled : Bool) (fuel : Nat) (s : TrelState)
    (hen : s.sTrelEnabled = true) (hfuel : s.sPeerList.elems.length < fuel) :
    ∃ s', otPlatTrelDisable otTrelIsEnabled fuel s = .ok s' ∧
      peerInfoCalls (s'.calls.drop s.calls.length) =
        (if otTrelIsEnabled then s.sPeerList.elems.map removedPeerInfo else []) ∧
      ∀ info ∈ peerInfoCalls (s'.calls.drop s.calls.length), info.mRemoved = true := by
  refine ⟨_, otPlatTrelDisable_ok otTrelIsEnabled fuel s hen hfuel, ?_⟩
  have hdrop : ∀ (a b : List Call), (a ++ b).drop a.length = b := List.drop_left
  simp only [List.append_assoc, hdrop, peerInfoCalls_append, peerInfoCalls_stopCalls,
    peerInfoCalls_removeAllCalls, List.nil_append]
  have hhead : peerInfoCalls [Call.otPlatUdpClose, Call.otMdnsStopBrowser s.trelBrowser,
      Call.otMdnsUnregisterService s.sTrelService] = [] := rfl
  rw [hhead, List.nil_append]
  refine ⟨rfl, ?_⟩
  intro info hinfo
  cases otTrelIsEnabled
  · simp at hinfo
  · simp only [if_true, List.mem_map] at hinfo
    obtain ⟨p, _, hp⟩ := hinfo
    rw [← hp]
    rfl

theorem otPlatTrelDisable_notifications_witness :
    activeState.sTrelEnabled = true ∧ activeState.sPeerList.elems.length < 3 ∧
      ∃ s', otPlatTrelDisable true 3 activeState = .ok s' ∧
        peerInfoCalls (s'.calls.drop activeState.calls.length) =
          (if true then activeState.sPeerList.elems.map removedPeerInfo else []) ∧
        ∀ info ∈ peerInfoCalls (s'.calls.drop activeState.calls.length), info.mRemoved = true :=
  ⟨by decide, by decide,
    otPlatTrelDisable_notifications true 3 activeState (by decide) (by decide)⟩

/-! ### Browse results with TTL zero -/

theorem findPeerByServiceInstance_split (s : TrelState) (name : String) (l1 l2 : List Peer)
    (p : Peer) (hl : s.sPeerList.elems = l1 ++ p :: l2) (hp : p.mPeerServiceInstance = name)
    (hbefore : ∀ q ∈ l1, q.mPeerServiceInstance ≠ name) :
    findPeerByServiceInstance s name = some (l1.length, p) := by
  unfold findPeerByServiceInstance
  rw [hl, findPeerByServiceInstanceFrom_append name l1 l2 p hp hbefore 0, Nat.zero_add]

/-- The state after a browse result with TTL zero for the name of a record, handled while
enabled: the first record with that name is unlinked, the others keep their order, and the
calls made are the removed notification, the stop of the service-record resolver, the stop
of the text-record resolver and the release of the record. -/
theorem HandleServiceBrowseResult_remove (allocOk : Bool) (aResult : otMdnsBrowseResult)
    (s : TrelState) (l1 l2 : List Peer) (p : Peer) (hen : s.sTrelEnabled = true)
    (httl : aResult.mTtl = 0) (hl : s.sPeerList.elems = l1 ++ p :: l2)
    (hp : p.mPeerServiceInstance = aResult.mServiceInstance)
    (hbefore : ∀ q ∈ l1, q.mPeerServiceInstance ≠ aResult.mServiceInstance) :
    HandleServiceBrowseResult allocOk aResult s =
      { s with
        sPeerList := { s.sPeerList with elems := l1 ++ l2 }
        sPeerNumber := (s.sPeerNumber + 255) % 256
        calls := s.calls ++
          [Call.otPlatTrelHandleDiscoveredPeerInfo (removedPeerInfo p),
            Call.otMdnsStopSrvResolver p.mSrvResolver,
            Call.otMdnsStopTxtResolver p.mTxtResolver,
            Call.otPlatFree p] } := by
  have hfind := findPeerByServiceInstance_split s _ l1 l2 p hl hp hbefore
  have herase : (l1 ++ p :: l2).eraseIdx l1.length = l1 ++ l2 := by
    rw [List.eraseIdx_append_of_length_le (Nat.le_refl _), Nat.sub_self]
    rfl
  simp [HandleServiceBrowseResult, hen, hfind, httl, RemoveTrelServiceInstance,
    removeAndFreeInternalPeerListEntry, LIST_RemoveElement, emit, hl, herase]

/-! ### C7: a browse result with TTL zero removes the record -/

/-- C7: whatever the content of a record (whatever stage its resolution has reached), a
browse result with TTL zero for its instance name, handled while enabled, deletes exactly
that record (the first, and by C2 the only, record with the name), leaves every other
record unchanged and in the same order, and makes exactly one peer-info notification, which
has `mRemoved = true`. -/
theorem HandleServiceBrowseResult_ttl_zero_deletes (allocOk : Bool)
    (aResult : otMdnsBrowseResult) (s : TrelState) (l1 l2 : List Peer) (p : Peer)
    (hen : s.sTrelEnabled = true) (httl : aResult.mTtl = 0)
    (hl : s.sPeerList.elems = l1 ++ p :: l2)
    (hp : p.mPeerServiceInstance = aResult.mServiceInstance)
    (hbefore : ∀ q ∈ l1, q.mPeerServiceInstance ≠ aResult.mServiceInstance) :
    (HandleServiceBrowseResult allocOk aResult s).sPeerList.elems = l1 ++ l2 ∧
      peerInfoCalls ((HandleServiceBrowseResult allocOk aResult s).calls.drop s.calls.length) =
        [removedPeerInfo p] ∧
      (removedPeerInfo p).mRemoved = true := by
  rw [HandleServiceBrowseResult_remove allocOk aResult s l1 l2 p hen httl hl hp hbefore]
  refine ⟨rfl, ?_, rfl⟩
  simp only [List.drop_left]
  rfl

theorem HandleServiceBrowseResult_ttl_zero_deletes_witness :
    threePeers.sTrelEnabled = true ∧
      withdrawB.mTtl = 0 ∧
      threePeers.sPeerList.elems = [newPeer enabledState "a"] ++ peerB :: [newPeer enabledState "c"] ∧
      peerB.mPeerServiceInstance = withdrawB.mServiceInstance ∧
      (∀ q ∈ [newPeer enabledState "a"],
        q.mPeerServiceInstance ≠ withdrawB.mServiceInstance) ∧
      (HandleServiceBrowseResult true withdrawB threePeers).sPeerList.elems =
        [newPeer enabledState "a"] ++ [newPeer enabledState "c"] ∧
      peerInfoCalls
          ((HandleServiceBrowseResult true withdrawB threePeers).calls.drop
            threePeers.calls.length) = [removedPeerInfo peerB] ∧
      (removedPeerInfo peerB).mRemoved = true :=
  ⟨by decide, by decide, by decide, by decide, by decide,
    HandleServiceBrowseResult_ttl_zero_deletes true withdrawB threePeers
      [newPeer enabledState "a"] [newPeer enabledState "c"] peerB
      (by decide) (by decide) (by decide) (by decide) (by decide)⟩

/-! ### C9: a browse result with TTL zero for an unknown name -/

/-- C9, evaluated where the code departs from it: in `enabledState` the directory is empty,
yet the browse result `withdrawUnknown` (name `"p"`, TTL zero) makes
`HandleServiceBrowseResult` append a record for `"p"` and start its service-record
resolver, exactly as a browse result with a non-zero TTL does. -/
theorem HandleServiceBrowseResult_ttl_zero_unknown_adds :
    enabledState.sTrelEnabled = true ∧ enabledState.sPeerList.elems = [] ∧
      (HandleServiceBrowseResult true withdrawUnknown enabledState).sPeerList.elems =
        [newPeer enabledState "p"] ∧
      (HandleServiceBrowseResult true withdrawUnknown enabledState).calls.drop
          enabledState.calls.length =
        [Call.otMdnsStartSrvResolver (newPeer enabledState "p").mSrvResolver] ∧
      HandleServiceBrowseResult true withdrawUnknown enabledState =
        HandleServiceBrowseResult true { mServiceInstance := "p", mTtl := 120 }
          enabledState := by
  decide

/-! ### C10: what the removal stops -/

/-- C10 as stated fails: in `resolvingState` the address resolver of peer `"p"` has been
started and not stopped, and the browse result `withdrawP` (TTL zero) deletes the record
of `"p"` without any call that stops an address resolver. -/
theorem HandleServiceBrowseResult_ttl_zero_no_address_stop :
    resolvingState.sTrelEnabled = true ∧
      (resolvingState.sPeerList.elems.map Peer.mPeerServiceInstance = ["p"]) ∧
      (resolvingState.calls.filter isStartIp6AddressResolver).length = 1 ∧
      resolvingState.calls.filter isStopIp6AddressResolver = [] ∧
      (HandleServiceBrowseResult true withdrawP resolvingState).sPeerList.elems = [] ∧
      (HandleServiceBrowseResult true withdrawP resolvingState).calls.filter
        isStopIp6AddressResolver = [] := by
  decide

/-- C10, amended: when a browse result with TTL zero arrives, while enabled, for an
existing peer, the calls made are, in this order, the removed notification, the stop of the
peer's service-record resolver, the stop of its text-record resolver, and the release of
the record: the two resolvers are stopped before the record is deleted, and no
stop-address-resolver call is made. -/
theorem HandleServiceBrowseResult_ttl_zero_calls (allocOk : Bool)
    (aResult : otMdnsBrowseResult) (s : TrelState) (l1 l2 : List Peer) (p : Peer)
    (hen : s.sTrelEnabled = true) (httl : aResult.mTtl = 0)
    (hl : s.sPeerList.elems = l1 ++ p :: l2)
    (hp : p.mPeerServiceInstance = aResult.mServiceInstance)
    (hbefore : ∀ q ∈ l1, q.mPeerServiceInstance ≠ aResult.mServiceInstance) :
    (HandleServiceBrowseResult allocOk aResult s).calls.drop s.calls.length =
        [Call.otPlatTrelHandleDiscoveredPeerInfo (removedPeerInfo p),
          Call.otMdnsStopSrvResolver p.mSrvResolver,
          Call.otMdnsStopTxtResolver p.mTxtResolver,
          Call.otPlatFree p] ∧
      ((HandleServiceBrowseResult allocOk aResult s).calls.drop s.calls.length).filter
        isStopIp6AddressResolver = [] ∧
      (HandleServiceBrowseResult allocOk aResult s).sPeerList.elems = l1 ++ l2 := by
  rw [HandleServiceBrowseResult_remove allocOk aResult s l1 l2 p hen httl hl hp hbefore]
  refine ⟨?_, ?_, rfl⟩
  · simp only [List.drop_left]
  · simp only [List.drop_left]
    rfl

theorem HandleServiceBrowseResult_ttl_zero_calls_witness :
    threePeers.sTrelEnabled = true ∧
      withdrawB.mTtl = 0 ∧
      threePeers.sPeerList.elems = [newPeer enabledState "a"] ++ peerB :: [newPeer enabledState "c"] ∧
      peerB.mPeerServiceInstance = withdrawB.mServiceInstance ∧
      (∀ q ∈ [newPeer enabledState "a"],
        q.mPeerServiceInstance ≠ withdrawB.mServiceInstance) ∧
      (HandleServiceBrowseResult false withdrawB threePeers).calls.drop
          threePeers.calls.length =
        [Call.otPlatTrelHandleDiscoveredPeerInfo (removedPeerInfo peerB),
          Call.otMdnsStopSrvResolver peerB.mSrvResolver,
          Call.otMdnsStopTxtResolver peerB.mTxtResolver,
          Call.otPlatFree peerB] ∧
      ((HandleServiceBrowseResult false withdrawB threePeers).calls.drop
          threePeers.calls.length).filter isStopIp6AddressResolver = [] ∧
      (HandleServiceBrowseResult false withdrawB threePeers).sPeerList.elems =
        [newPeer enabledState "a"] ++ [newPeer enabledState "c"] :=
  ⟨by decide, by decide, by decide, by decide, by decide,
    HandleServiceBrowseResult_ttl_zero_calls false withdrawB threePeers
      [newPeer enabledState "a"] [newPeer enabledState "c"] peerB
      (by decide) (by decide) (by decide) (by decide) (by decide)⟩

/-! ### C4: allocation failure in `createAndAppendPeerListEntry` -/

/-- C4, evaluated where the code departs from it: when the allocation of the new record
fails, `createAndAppendPeerListEntry` returns `OT_ERROR_NONE`, for every peer argument and
every state, and leaves the state as it was; `AddTrelServiceInstance` then goes on to start
the service-record resolver. -/
theorem createAndAppendPeerListEntry_alloc_failure (aPeer : Peer) (s : TrelState)
    (name : String) :
    createAndAppendPeerListEntry false aPeer s = (otError.OT_ERROR_NONE, s) ∧
      AddTrelServiceInstance false name s =
        emit (.otMdnsStartSrvResolver (newPeer s name).mSrvResolver) s := by
  refine ⟨rfl, ?_⟩
  simp [AddTrelServiceInstance, createAndAppendPeerListEntry_noalloc]

/-! ### Effect of the operations on the peer list -/

theorem RemoveAllPeersAndNotify_outOfFuel (otTrelIsEnabled : Bool) (fuel : Nat) :
    ∀ s : TrelState, fuel ≤ s.sPeerList.elems.length →
      RemoveAllPeersAndNotify otTrelIsEnabled fuel s = .error .outOfFuel := by
  induction fuel with
  | zero => intro s _; rfl
  | succ k ih =>
    intro s h
    obtain ⟨port, nif, svc, en, br, browser, txt, ctr, num, ⟨elems, max⟩, calls⟩ := s
    cases elems with
    | nil => simp at h
    | cons p ps =>
      simp only [List.length_cons] at h
      simp only [RemoveAllPeersAndNotify, LIST_GetHead, List.head?_cons]
      cases otTrelIsEnabled
      · simp only [Bool.false_eq_true, if_false]
        rw [removeAndFreeInternalPeerListEntry_head p ps _ rfl, ih _ (by simp only; omega)]
      · simp only [if_true]
        rw [removeAndFreeInternalPeerListEntry_head p ps _ rfl, ih _ (by simp only [emit]; omega)]

/-- Whenever `RemoveAllPeersAndNotify` returns, it returns the state of
`RemoveAllPeersAndNotify_ok`. -/
theorem RemoveAllPeersAndNotify_of_ok (otTrelIsEnabled : Bool) (fuel : Nat) (s s' : TrelState)
    (h : RemoveAllPeersAndNotify otTrelIsEnabled fuel s = .ok s') :
    s' = { s with
      sPeerList := { s.sPeerList with elems := [] }
      sPeerNumber := (fun n => (n + 255) % 256)^[s.sPeerList.elems.length] s.sPeerNumber
      calls := s.calls ++ s.sPeerList.elems.flatMap (removeAllCallsFor otTrelIsEnabled) } := by
  by_cases hf : s.sPeerList.elems.length < fuel
  · rw [RemoveAllPeersAndNotify_ok otTrelIsEnabled fuel s hf] at h
    exact (Except.ok.inj h).symm
  · rw [RemoveAllPeersAndNotify_outOfFuel otTrelIsEnabled fuel s (by omega)] at h
    cases h

theorem storePeer_elems_length (s : TrelState) (idx : Nat) (peer : Peer) :
    (storePeer s idx peer).sPeerList.elems.length = s.sPeerList.elems.length := by
  simp [storePeer]

theorem storePeer_max (s : TrelState) (idx : Nat) (peer : Peer) :
    (storePeer s idx peer).sPeerList.max = s.sPeerList.max := rfl

theorem HandleServiceBrowseResult_max (allocOk : Bool) (aResult : otMdnsBrowseResult)
    (s : TrelState) :
    (HandleServiceBrowseResult allocOk aResult s).sPeerList.max = s.sPeerList.max := by
  unfold HandleServiceBrowseResult
  split
  · rfl
  · split
    · split <;> rfl
    · rw [AddTrelServiceInstance_sPeerList]
      cases allocOk
      · rfl
      · by_cases hfull : s.sPeerList.max ≠ 0 ∧ s.sPeerList.max = s.sPeerList.size
        · rw [createAndAppendPeerListEntry_full _ _ hfull]
        · rw [createAndAppendPeerListEntry_ok _ _ hfull]

/-- A browse result does not take the list beyond a non-zero bound. -/
theorem HandleServiceBrowseResult_length_le (allocOk : Bool) (aResult : otMdnsBrowseResult)
    (s : TrelState) (hmax : 0 < s.sPeerList.max)
    (h : s.sPeerList.elems.length ≤ s.sPeerList.max) :
    (HandleServiceBrowseResult allocOk aResult s).sPeerList.elems.length ≤ s.sPeerList.max := by
  unfold HandleServiceBrowseResult
  split
  · exact h
  · split
    · split
      · exact h
      · rw [RemoveTrelServiceInstance_elems]
        exact le_trans (List.length_eraseIdx_le _ _) h
    · rw [AddTrelServiceInstance_sPeerList]
      cases allocOk
      · exact h
      · by_cases hfull : s.sPeerList.max ≠ 0 ∧ s.sPeerList.max = s.sPeerList.size
        · rw [createAndAppendPeerListEntry_full _ _ hfull]
          exact h
        · rw [createAndAppendPeerListEntry_ok _ _ hfull]
          simp only [List.length_append, List.length_singleton]
          have hne : s.sPeerList.max ≠ s.sPeerList.elems.length := fun heq =>
            hfull ⟨by omega, heq⟩
          omega

theorem HandleServiceResolveResult_sPeerList (aResult : otMdnsSrvResult) (s : TrelState) :
    (HandleServiceResolveResult aResult s).sPeerList.max = s.sPeerList.max ∧
      (HandleServiceResolveResult aResult s).sPeerList.elems.length =
        s.sPeerList.elems.length := by
  unfold HandleServiceResolveResult
  split
  · exact ⟨rfl, rfl⟩
  · split
    · exact ⟨rfl, by simp [storePeer]⟩
    · exact ⟨rfl, rfl⟩

theorem HandleServiceTxtResolveResult_sPeerList (aResult : otMdnsTxtResult) (s s' : TrelState)
    (h : HandleServiceTxtResolveResult aResult s = .ok s') :
    s'.sPeerList.max = s.sPeerList.max ∧
      s'.sPeerList.elems.length = s.sPeerList.elems.length := by
  unfold HandleServiceTxtResolveResult at h
  split at h
  · cases h; exact ⟨rfl, rfl⟩
  · split at h
    · split at h
      · cases h
      · cases h; exact ⟨rfl, by simp [storePeer]⟩
    · cases h; exact ⟨rfl, rfl⟩

theorem HandleIp6AddressResolver_sPeerList (fuel : Nat) (aResult : otMdnsAddressResult)
    (s s' : TrelState) (h : HandleIp6AddressResolver fuel aResult s = .ok s') :
    s'.sPeerList.max = s.sPeerList.max ∧
      s'.sPeerList.elems.length = s.sPeerList.elems.length := by
  unfold HandleIp6AddressResolver at h
  split at h
  · cases h; exact ⟨rfl, rfl⟩
  · split at h
    · cases h
    · cases h; exact ⟨rfl, rfl⟩
    · split at h
      · cases h
      · cases h; exact ⟨rfl, by simp [storePeer]⟩

theorem otPlatTrelEnable_sPeerList (MAX_PEER_NUMBER : Nat) (env : EnableEnv) (s : TrelState) :
    (otPlatTrelEnable MAX_PEER_NUMBER env s).1.sPeerList = LIST_Init MAX_PEER_NUMBER := by
  unfold otPlatTrelEnable
  simp only
  split
  · rfl
  · split
    · rfl
    · split
      · rfl
      · split
        · rfl
        · simp only [otPlatTrelResetCounters]
          split
          · split <;> rfl
          · rfl

theorem otPlatTrelDisable_sPeerList (otTrelIsEnabled : Bool) (fuel : Nat) (s s' : TrelState)
    (h : otPlatTrelDisable otTrelIsEnabled fuel s = .ok s') :
    s'.sPeerList.max = s.sPeerList.max ∧
      s'.sPeerList.elems.length ≤ s.sPeerList.elems.length := by
  unfold otPlatTrelDisable at h
  split at h
  · cases h; exact ⟨rfl, le_refl _⟩
  · have h2 := RemoveAllPeersAndNotify_of_ok _ _ _ _ h
    rw [StopAllPeerResolvers_eq] at h2
    rw [h2]
    exact ⟨rfl, Nat.zero_le _⟩

theorem TrelOnExternalNetifDown_sPeerList (otTrelIsEnabled : Bool) (fuel : Nat)
    (s s' : TrelState) (h : TrelOnExternalNetifDown otTrelIsEnabled fuel s = .ok s') :
    s'.sPeerList.max = s.sPeerList.max ∧
      s'.sPeerList.elems.length ≤ s.sPeerList.elems.length := by
  unfold TrelOnExternalNetifDown at h
  rw [RemoveAllPeersAndNotify_of_ok _ _ _ _ h]
  exact ⟨rfl, Nat.zero_le _⟩

theorem TrelOnAppReady_sPeerList (startOk : Bool) (aHostName : String) (s : TrelState) :
    (TrelOnAppReady startOk aHostName s).sPeerList = s.sPeerList := by
  unfold TrelOnAppReady
  simp only [TrelStartBrowser]
  split <;> rfl

theorem otPlatTrelSend_sPeerList (env : SendEnv) (aUdpPayload : List Nat)
    (aDestSockAddr : otSockAddr) (s : TrelState) :
    (otPlatTrelSend env aUdpPayload aDestSockAddr s).sPeerList = s.sPeerList := by
  unfold otPlatTrelSend
  split
  · rfl
  · simp only
    split
    · rfl
    · split
      · rfl
      · split <;> rfl

theorem otPlatTrelRegisterService_sPeerList (hostIsInitialized : Bool) (aPort : Nat)
    (aTxtData : List Nat) (s s' : TrelState)
    (h : otPlatTrelRegisterService hostIsInitialized aPort aTxtData s = .ok s') :
    s'.sPeerList = s.sPeerList := by
  unfold otPlatTrelRegisterService at h
  split at h
  · cases h
  · cases h
    simp only
    split <;> rfl

theorem HandleTrelRegistrationCallback_sPeerList (f : Option String → Option String)
    (aError : otError) (s : TrelState) :
    (HandleTrelRegistrationCallback f aError s).sPeerList = s.sPeerList := by
  unfold HandleTrelRegistrationCallback
  split <;> rfl

theorem TrelSocketReceive_sPeerList (allocOk : Bool) (aMessage : List Nat) (s s' : TrelState)
    (h : TrelSocketReceive allocOk aMessage s = .ok s') : s'.sPeerList = s.sPeerList := by
  unfold TrelSocketReceive at h
  split at h
  · cases h
  · cases h; rfl

/-- One operation keeps the list within a non-zero bound given to `LIST_Init`. -/
theorem step_bounded (b : Build) (hb : 0 < b.MAX_PEER_NUMBER) (fuel : Nat) (op : Op)
    (s s' : TrelState) (hmax : s.sPeerList.max = b.MAX_PEER_NUMBER)
    (hlen : s.sPeerList.elems.length ≤ b.MAX_PEER_NUMBER)
    (h : step b fuel op s = .ok s') :
    s'.sPeerList.max = b.MAX_PEER_NUMBER ∧ s'.sPeerList.elems.length ≤ b.MAX_PEER_NUMBER := by
  cases op with
  | TrelPlatInit baseName backboneNetif => cases h; exact ⟨hmax, hlen⟩
  | TrelOnAppReady startOk aHostName =>
    cases h
    rw [TrelOnAppReady_sPeerList]
    exact ⟨hmax, hlen⟩
  | TrelOnExternalNetifDown otTrelIsEnabled =>
    have := TrelOnExternalNetifDown_sPeerList _ _ _ _ h
    exact ⟨this.1.trans hmax, le_trans this.2 hlen⟩
  | otPlatTrelEnable env =>
    cases h
    rw [otPlatTrelEnable_sPeerList]
    exact ⟨rfl, Nat.zero_le _⟩
  | otPlatTrelDisable otTrelIsEnabled =>
    have := otPlatTrelDisable_sPeerList _ _ _ _ h
    exact ⟨this.1.trans hmax, le_trans this.2 hlen⟩
  | otPlatTrelSend env aUdpPayload aDestSockAddr =>
    cases h
    rw [otPlatTrelSend_sPeerList]
    exact ⟨hmax, hlen⟩
  | otPlatTrelRegisterService hostIsInitialized aPort aTxtData =>
    rw [otPlatTrelRegisterService_sPeerList _ _ _ _ _ h]
    exact ⟨hmax, hlen⟩
  | otPlatTrelResetCounters => cases h; exact ⟨hmax, hlen⟩
  | TrelSocketReceive allocOk aMessage =>
    rw [TrelSocketReceive_sPeerList _ _ _ _ h]
    exact ⟨hmax, hlen⟩
  | HandleServiceBrowseResult allocOk aResult =>
    cases h
    refine ⟨(HandleServiceBrowseResult_max _ _ _).trans hmax, ?_⟩
    have := HandleServiceBrowseResult_length_le allocOk aResult s (by omega) (by omega)
    omega
  | HandleServiceResolveResult aResult =>
    cases h
    have := HandleServiceResolveResult_sPeerList aResult s
    exact ⟨this.1.trans hmax, by omega⟩
  | HandleServiceTxtResolveResult aResult =>
    have := HandleServiceTxtResolveResult_sPeerList _ _ _ h
    exact ⟨this.1.trans hmax, by omega⟩
  | HandleIp6AddressResolver aResult =>
    have := HandleIp6AddressResolver_sPeerList _ _ _ _ h
    exact ⟨this.1.trans hmax, by omega⟩
  | HandleTrelRegistrationCallback aError =>
    cases h
    rw [HandleTrelRegistrationCallback_sPeerList]
    exact ⟨hmax, hlen⟩

theorem run_bounded (b : Build) (hb : 0 < b.MAX_PEER_NUMBER) (fuel : Nat) (ops : List Op) :
    ∀ s s' : TrelState, s.sPeerList.max = b.MAX_PEER_NUMBER →
      s.sPeerList.elems.length ≤ b.MAX_PEER_NUMBER → run b fuel s ops = .ok s' →
      s'.sPeerList.max = b.MAX_PEER_NUMBER ∧
        s'.sPeerList.elems.length ≤ b.MAX_PEER_NUMBER := by
  induction ops with
  | nil =>
    intro s s' hmax hlen h
    cases h
    exact ⟨hmax, hlen⟩
  | cons op ops ih =>
    intro s s' hmax hlen h
    simp only [run] at h
    cases hstep : step b fuel op s with
    | error f => rw [hstep] at h; cases h
    | ok s1 =>
      rw [hstep] at h
      have := step_bounded b hb fuel op s s1 hmax hlen hstep
      exact ih s1 s' this.1 this.2 h

/-! ### C3: the bound of the peer list -/

/-- What the code does for C3 when the bound is not zero: after `otPlatTrelEnable`, whatever
operations follow and return, the list holds at most `MAX_PEER_NUMBER` records; and
`createAndAppendPeerListEntry`, called with a successful allocation when the list holds
`MAX_PEER_NUMBER` records, returns `OT_ERROR_FAILED` and leaves the list as it was. -/
theorem peer_list_bounded (b : Build) (hb : 0 < b.MAX_PEER_NUMBER) (fuel : Nat)
    (env : EnableEnv) (s0 s' : TrelState) (ops : List Op)
    (h : run b fuel (otPlatTrelEnable b.MAX_PEER_NUMBER env s0).1 ops = .ok s') :
    s'.sPeerList.elems.length ≤ b.MAX_PEER_NUMBER ∧
      (s'.sPeerList.elems.length = b.MAX_PEER_NUMBER → ∀ aPeer,
        (createAndAppendPeerListEntry true aPeer s').1 = .OT_ERROR_FAILED ∧
          (createAndAppendPeerListEntry true aPeer s').2.sPeerList = s'.sPeerList) := by
  have hinv := run_bounded b hb fuel ops _ s'
    (by rw [otPlatTrelEnable_sPeerList]; rfl)
    (by rw [otPlatTrelEnable_sPeerList]; exact Nat.zero_le _) h
  refine ⟨hinv.2, fun hfull aPeer => ?_⟩
  have hf : s'.sPeerList.max ≠ 0 ∧ s'.sPeerList.max = s'.sPeerList.size := by
    refine ⟨by omega, ?_⟩
    rw [hinv.1, list_label_t.size, hfull]
  rw [createAndAppendPeerListEntry_full aPeer s' hf]
  exact ⟨rfl, rfl⟩

/-- C3, evaluated where the code departs from it: `fullState` is reached after
`otPlatTrelEnable` with a bound of one record and holds one record, and
`createAndAppendPeerListEntry` called there, when the allocation of the new record fails,
returns `OT_ERROR_NONE`, not `OT_ERROR_FAILED` (the list is left as it was). -/
theorem createAndAppendPeerListEntry_full_list_alloc_failure :
    fullState.sPeerList.max = build1.MAX_PEER_NUMBER ∧
      fullState.sPeerList.elems.length = build1.MAX_PEER_NUMBER ∧
      (createAndAppendPeerListEntry false (newPeer fullState "b") fullState).1 =
        otError.OT_ERROR_NONE ∧
      (createAndAppendPeerListEntry false (newPeer fullState "b") fullState).2.sPeerList =
        fullState.sPeerList := by
  decide

/-! ### Calls that are not peer-discovered notifications -/

theorem discoveredCalls_append (l1 l2 : List Call) :
    discoveredCalls (l1 ++ l2) = discoveredCalls l1 ++ discoveredCalls l2 := by
  simp [discoveredCalls, peerInfoCalls_append]

theorem QuietlyExtends.of_calls_eq {s s' : TrelState} (h : s'.calls = s.calls) :
    QuietlyExtends s s' :=
  ⟨[], by simp [h], rfl⟩

theorem QuietlyExtends.trans {s1 s2 s3 : TrelState} (h12 : QuietlyExtends s1 s2)
    (h23 : QuietlyExtends s2 s3) : QuietlyExtends s1 s3 := by
  obtain ⟨n1, hc1, hd1⟩ := h12
  obtain ⟨n2, hc2, hd2⟩ := h23
  exact ⟨n1 ++ n2, by rw [hc2, hc1, List.append_assoc], by
    rw [discoveredCalls_append, hd1, hd2]; rfl⟩

theorem QuietlyExtends.emit (c : Call) (s : TrelState) (hc : discoveredCalls [c] = []) :
    QuietlyExtends s (emit c s) :=
  ⟨[c], rfl, hc⟩

theorem QuietlyExtends.drop {s s' : TrelState} (h : QuietlyExtends s s') :
    discoveredCalls (s'.calls.drop s.calls.length) = [] := by
  obtain ⟨new, hc, hd⟩ := h
  rw [hc, List.drop_left, hd]

theorem discoveredCalls_removeAllCalls (otTrelIsEnabled : Bool) (l : List Peer) :
    discoveredCalls (l.flatMap (removeAllCallsFor otTrelIsEnabled)) = [] := by
  rw [discoveredCalls, peerInfoCalls_removeAllCalls]
  cases otTrelIsEnabled
  · rfl
  · simp [removedPeerInfo]

theorem discoveredCalls_stopCalls (l : List Peer) :
    discoveredCalls (l.flatMap stopCallsFor) = [] := by
  rw [discoveredCalls, peerInfoCalls_stopCalls]
  rfl

theorem RemoveAllPeersAndNotify_quiet (otTrelIsEnabled : Bool) (fuel : Nat) (s s' : TrelState)
    (h : RemoveAllPeersAndNotify otTrelIsEnabled fuel s = .ok s') : QuietlyExtends s s' := by
  rw [RemoveAllPeersAndNotify_of_ok _ _ _ _ h]
  exact ⟨_, rfl, discoveredCalls_removeAllCalls _ _⟩

theorem StopAllPeerResolvers_quiet (s : TrelState) :
    QuietlyExtends s (StopAllPeerResolvers s) := by
  rw [StopAllPeerResolvers_eq]
  exact ⟨_, rfl, discoveredCalls_stopCalls _⟩

theorem TrelPlatInit_quiet (baseName : Option String) (backboneNetif : netif) (s : TrelState) :
    QuietlyExtends s (TrelPlatInit baseName backboneNetif s) :=
  QuietlyExtends.of_calls_eq rfl

theorem TrelOnAppReady_quiet (startOk : Bool) (aHostName : String) (s : TrelState) :
    QuietlyExtends s (TrelOnAppReady startOk aHostName s) := by
  unfold TrelOnAppReady
  cases hb : s.sBrowsingEnabled <;>
    simp [QuietlyExtends, TrelStartBrowser, emit, discoveredCalls, peerInfoCalls]

theorem otPlatTrelEnable_quiet (MAX_PEER_NUMBER : Nat) (env : EnableEnv) (s : TrelState) :
    QuietlyExtends s (otPlatTrelEnable MAX_PEER_NUMBER env s).1 := by
  unfold otPlatTrelEnable
  simp only
  split
  · exact QuietlyExtends.of_calls_eq rfl
  · split
    · simp [QuietlyExtends, emit, discoveredCalls, peerInfoCalls]
    · split
      · simp [QuietlyExtends, emit, discoveredCalls, peerInfoCalls]
      · split
        · simp [QuietlyExtends, emit, discoveredCalls, peerInfoCalls]
        · split
          · split <;>
              simp [QuietlyExtends, TrelStartBrowser, emit, discoveredCalls, peerInfoCalls,
                otPlatTrelResetCounters]
          · simp [QuietlyExtends, emit, discoveredCalls, peerInfoCalls,
              otPlatTrelResetCounters]

theorem otPlatTrelDisable_quiet (otTrelIsEnabled : Bool) (fuel : Nat) (s s' : TrelState)
    (h : otPlatTrelDisable otTrelIsEnabled fuel s = .ok s') : QuietlyExtends s s' := by
  unfold otPlatTrelDisable at h
  split at h
  · cases h
    exact QuietlyExtends.of_calls_eq rfl
  · refine QuietlyExtends.trans ?_ (RemoveAllPeersAndNotify_quiet _ _ _ _ h)
    refine QuietlyExtends.trans ?_ (StopAllPeerResolvers_quiet _)
    simp [QuietlyExtends, emit, discoveredCalls, peerInfoCalls]

theorem TrelOnExternalNetifDown_quiet (otTrelIsEnabled : Bool) (fuel : Nat) (s s' : TrelState)
    (h : TrelOnExternalNetifDown otTrelIsEnabled fuel s = .ok s') : QuietlyExtends s s' := by
  unfold TrelOnExternalNetifDown at h
  refine QuietlyExtends.trans ?_ (RemoveAllPeersAndNotify_quiet _ _ _ _ h)
  exact QuietlyExtends.of_calls_eq rfl

theorem otPlatTrelSend_quiet (env : SendEnv) (aUdpPayload : List Nat)
    (aDestSockAddr : otSockAddr) (s : TrelState) :
    QuietlyExtends s (otPlatTrelSend env aUdpPayload aDestSockAddr s) := by
  obtain ⟨nm, ap, us⟩ := env
  unfold otPlatTrelSend
  cases hen : s.sTrelEnabled <;> cases nm <;> cases ap <;> cases us <;>
    simp [QuietlyExtends, emit, discoveredCalls, peerInfoCalls]

theorem otPlatTrelRegisterService_quiet (hostIsInitialized : Bool) (aPort : Nat)
    (aTxtData : List Nat) (s s' : TrelState)
    (h : otPlatTrelRegisterService hostIsInitialized aPort aTxtData s = .ok s') :
    QuietlyExtends s s' := by
  unfold otPlatTrelRegisterService at h
  split at h
  · cases h
  · cases h
    cases hostIsInitialized <;> simp [QuietlyExtends, emit, discoveredCalls, peerInfoCalls]

theorem HandleTrelRegistrationCallback_quiet (f : Option String → Option String)
    (aError : otError) (s : TrelState) :
    QuietlyExtends s (HandleTrelRegistrationCallback f aError s) := by
  unfold HandleTrelRegistrationCallback
  split <;> simp [QuietlyExtends, emit, discoveredCalls, peerInfoCalls]

theorem TrelSocketReceive_quiet (allocOk : Bool) (aMessage : List Nat) (s s' : TrelState)
    (h : TrelSocketReceive allocOk aMessage s = .ok s') : QuietlyExtends s s' := by
  unfold TrelSocketReceive at h
  split at h
  · cases h
  · cases h
    simp [QuietlyExtends, emit, discoveredCalls, peerInfoCalls]

theorem createAndAppendPeerListEntry_calls (allocOk : Bool) (aPeer : Peer) (s : TrelState) :
    (createAndAppendPeerListEntry allocOk aPeer s).2.calls = s.calls := by
  cases allocOk
  · rfl
  · by_cases hfull : s.sPeerList.max ≠ 0 ∧ s.sPeerList.max = s.sPeerList.size
    · rw [createAndAppendPeerListEntry_full _ _ hfull]
    · rw [createAndAppendPeerListEntry_ok _ _ hfull]

theorem HandleServiceBrowseResult_quiet (allocOk : Bool) (aResult : otMdnsBrowseResult)
    (s : TrelState) : QuietlyExtends s (HandleServiceBrowseResult allocOk aResult s) := by
  unfold HandleServiceBrowseResult
  split
  · exact QuietlyExtends.of_calls_eq rfl
  · split
    · split
      · exact QuietlyExtends.emit _ _ rfl
      · simp [QuietlyExtends, RemoveTrelServiceInstance, removeAndFreeInternalPeerListEntry,
          emit, discoveredCalls, peerInfoCalls, removedPeerInfo]
    · unfold AddTrelServiceInstance
      simp only
      split
      · exact QuietlyExtends.trans
          (QuietlyExtends.of_calls_eq (createAndAppendPeerListEntry_calls _ _ _))
          (QuietlyExtends.emit _ _ rfl)
      · exact QuietlyExtends.of_calls_eq (createAndAppendPeerListEntry_calls _ _ _)

theorem HandleServiceResolveResult_quiet (aResult : otMdnsSrvResult) (s : TrelState) :
    QuietlyExtends s (HandleServiceResolveResult aResult s) := by
  unfold HandleServiceResolveResult
  split
  · exact QuietlyExtends.of_calls_eq rfl
  · split
    · simp [QuietlyExtends, storePeer, emit, discoveredCalls, peerInfoCalls]
    · exact QuietlyExtends.of_calls_eq rfl

theorem HandleServiceTxtResolveResult_quiet (aResult : otMdnsTxtResult) (s s' : TrelState)
    (h : HandleServiceTxtResolveResult aResult s = .ok s') : QuietlyExtends s s' := by
  unfold HandleServiceTxtResolveResult at h
  split at h
  · cases h; exact QuietlyExtends.of_calls_eq rfl
  · split at h
    · split at h
      · cases h
      · cases h
        simp [QuietlyExtends, storePeer, emit, discoveredCalls, peerInfoCalls]
    · cases h; exact QuietlyExtends.of_calls_eq rfl

/-! ### Where the records of the directory come from -/

theorem getElem?_append_of_some {α : Type} (l1 l2 : List α) (i : Nat) (x : α)
    (h : l1[i]? = some x) : (l1 ++ l2)[i]? = some x := by
  obtain ⟨hi, _⟩ := List.getElem?_eq_some.1 h
  rw [List.getElem?_append_left hi]
  exact h

theorem findPeerByServiceInstance_mem (s : TrelState) (name : String) (element : Nat × Peer)
    (h : findPeerByServiceInstance s name = some element) :
    element.2 ∈ s.sPeerList.elems ∧ element.2.mPeerServiceInstance = name := by
  obtain ⟨l1, l2, hl, _, hp, _⟩ :=
    findPeerByServiceInstanceFrom_some name s.sPeerList.elems 0 element.1 element.2 h
  exact ⟨by rw [hl]; simp, hp⟩

theorem findPeerByHostNameFrom_mem (name : String) (l : List Peer) :
    ∀ i element, findPeerByHostNameFrom name l i = .ok (some element) →
      element.2 ∈ l ∧ element.2.mPeerHostName = some name := by
  induction l with
  | nil => intro i element h; cases h
  | cons q qs ih =>
    intro i element h
    unfold findPeerByHostNameFrom at h
    split at h
    · cases h
    · rename_i hostName hq
      split at h
      · rename_i heq
        cases h
        exact ⟨by simp, by rw [hq, heq]⟩
      · have := ih (i + 1) element h
        exact ⟨List.mem_cons_of_mem _ this.1, this.2⟩

/-- Records that were already in the directory stay traced when an operation is added to the
history. -/
theorem Traced.weaken {past : List Op} {s s' : TrelState} (op : Op) (h : Traced past s)
    (hsub : ∀ p ∈ s'.sPeerList.elems, p ∈ s.sPeerList.elems) : Traced (past ++ [op]) s' := by
  intro p hp
  obtain ⟨i, allocOk, browse, hi, hname, hhost⟩ := h p (hsub p hp)
  refine ⟨i, allocOk, browse, getElem?_append_of_some _ _ _ _ hi, hname, fun hn hh => ?_⟩
  obtain ⟨j, srv, hij, hj, hsn, hsh⟩ := hhost hn hh
  exact ⟨j, srv, hij, getElem?_append_of_some _ _ _ _ hj, hsn, hsh⟩

/-- A record stored over a traced record `q`, with the name and host name of `q`, is
traced. -/
theorem Traced.store_same {past : List Op} {s : TrelState} (op : Op) (h : Traced past s)
    (idx : Nat) (q peer : Peer) (hq : q ∈ s.sPeerList.elems)
    (hname : peer.mPeerServiceInstance = q.mPeerServiceInstance)
    (hhost : peer.mPeerHostName = q.mPeerHostName) :
    Traced (past ++ [op]) (storePeer s idx peer) := by
  intro p hp
  rcases List.mem_or_eq_of_mem_set hp with hold | hnew
  · exact Traced.weaken op h (fun _ hr => hr) p hold
  · subst hnew
    have := @Traced.weaken past s s op h (fun _ hr => hr) q hq
    rw [hname, hhost]
    exact this

theorem step_traced (b : Build) (fuel : Nat) (past : List Op) (op : Op) (s s' : TrelState)
    (ht : Traced past s) (h : step b fuel op s = .ok s') : Traced (past ++ [op]) s' := by
  cases op with
  | TrelPlatInit baseName backboneNetif => cases h; exact ht.weaken _ (fun _ hp => hp)
  | TrelOnAppReady startOk aHostName =>
    cases h
    exact ht.weaken _ (fun p hp => by rw [TrelOnAppReady_sPeerList] at hp; exact hp)
  | TrelOnExternalNetifDown otTrelIsEnabled =>
    have h2 := RemoveAllPeersAndNotify_of_ok _ _ _ _ h
    exact ht.weaken _ (fun p hp => by rw [h2] at hp; simp at hp)
  | otPlatTrelEnable env =>
    cases h
    exact ht.weaken _ (fun p hp => by
      rw [otPlatTrelEnable_sPeerList] at hp
      simp [LIST_Init] at hp)
  | otPlatTrelDisable otTrelIsEnabled =>
    simp only [step, otPlatTrelDisable] at h
    split at h
    · cases h; exact ht.weaken _ (fun _ hp => hp)
    · have h2 := RemoveAllPeersAndNotify_of_ok _ _ _ _ h
      exact ht.weaken _ (fun p hp => by rw [h2] at hp; simp at hp)
  | otPlatTrelSend env aUdpPayload aDestSockAddr =>
    cases h
    exact ht.weaken _ (fun p hp => by rw [otPlatTrelSend_sPeerList] at hp; exact hp)
  | otPlatTrelRegisterService hostIsInitialized aPort aTxtData =>
    exact ht.weaken _ (fun p hp => by
      rw [otPlatTrelRegisterService_sPeerList _ _ _ _ _ h] at hp; exact hp)
  | otPlatTrelResetCounters => cases h; exact ht.weaken _ (fun _ hp => hp)
  | TrelSocketReceive allocOk aMessage =>
    exact ht.weaken _ (fun p hp => by rw [TrelSocketReceive_sPeerList _ _ _ _ h] at hp; exact hp)
  | HandleServiceBrowseResult allocOk aResult =>
    cases h
    simp only [HandleServiceBrowseResult]
    split
    · exact ht.weaken _ (fun _ hp => hp)
    · split
      · split
        · exact ht.weaken _ (fun _ hp => hp)
        · exact ht.weaken _ (fun p hp => by
            rw [RemoveTrelServiceInstance_elems] at hp
            exact List.mem_of_mem_eraseIdx hp)
      · rcases AddTrelServiceInstance_elems allocOk aResult.mServiceInstance s with hadd | hadd
        · exact ht.weaken _ (fun p hp => by rw [hadd] at hp; exact hp)
        · intro p hp
          rw [hadd] at hp
          rcases List.mem_append.1 hp with hold | hnew
          · exact @Traced.weaken past s s _ ht (fun _ hr => hr) p hold
          · have hpe : p = newPeer s aResult.mServiceInstance := by simpa using hnew
            subst hpe
            exact ⟨past.length, allocOk, aResult, List.getElem?_concat_length _ _, rfl,
              fun hn hh => by cases hh⟩
  | HandleServiceResolveResult aResult =>
    cases h
    simp only [HandleServiceResolveResult]
    split
    · exact ht.weaken _ (fun _ hp => hp)
    · split
      · rename_i element hfind
        obtain ⟨hmem, hname⟩ := findPeerByServiceInstance_mem s _ element hfind
        intro p hp
        rw [emit_sPeerList] at hp
        rcases List.mem_or_eq_of_mem_set hp with hold | hnew
        · exact @Traced.weaken past s s _ ht (fun _ hr => hr) p hold
        · subst hnew
          obtain ⟨i, allocOk, browse, hi, hbn, _⟩ := ht element.2 hmem
          have hlt : i < past.length := (List.getElem?_eq_some.1 hi).1
          refine ⟨i, allocOk, browse, getElem?_append_of_some _ _ _ _ hi, hbn, fun hn hh => ?_⟩
          refine ⟨past.length, aResult, hlt, List.getElem?_concat_length _ _, hname.symm, ?_⟩
          simpa using hh
      · exact ht.weaken _ (fun _ hp => hp)
  | HandleServiceTxtResolveResult aResult =>
    simp only [step, HandleServiceTxtResolveResult] at h
    split at h
    · cases h; exact ht.weaken _ (fun _ hp => hp)
    · split at h
      · rename_i element hfind
        split at h
        · cases h
        · cases h
          obtain ⟨hmem, _⟩ := findPeerByServiceInstance_mem s _ element hfind
          intro p hp
          rw [emit_sPeerList] at hp
          refine Traced.store_same _ ht element.1 element.2 _ hmem ?_ ?_ p hp <;> rfl
      · cases h; exact ht.weaken _ (fun _ hp => hp)
  | HandleIp6AddressResolver aResult =>
    simp only [step, HandleIp6AddressResolver] at h
    split at h
    · cases h; exact ht.weaken _ (fun _ hp => hp)
    · split at h
      · cases h
      · cases h; exact ht.weaken _ (fun _ hp => hp)
      · rename_i element hfind
        split at h
        · cases h
        · cases h
          obtain ⟨hmem, _⟩ := findPeerByHostNameFrom_mem _ _ 0 element hfind
          intro p hp
          rw [emit_sPeerList] at hp
          refine Traced.store_same (s := emit _ s) _ ht element.1 element.2 _ hmem ?_ ?_ p hp <;>
            rfl
  | HandleTrelRegistrationCallback aError =>
    cases h
    exact ht.weaken _ (fun p hp => by
      rw [HandleTrelRegistrationCallback_sPeerList] at hp; exact hp)

theorem run_traced (b : Build) (fuel : Nat) (ops : List Op) :
    ∀ (past : List Op) (s s' : TrelState), Traced past s → run b fuel s ops = .ok s' →
      Traced (past ++ ops) s' := by
  induction ops with
  | nil =>
    intro past s s' ht h
    cases h
    simpa using ht
  | cons op ops ih =>
    intro past s s' ht h
    simp only [run] at h
    cases hstep : step b fuel op s with
    | error f => rw [hstep] at h; cases h
    | ok s1 =>
      rw [hstep] at h
      have := ih (past ++ [op]) s1 s' (step_traced b fuel past op s s1 ht hstep) h
      simpa using this

/-! ### C8: what precedes a peer-discovered notification -/

/-- C8 as stated fails: after a browse result and a service-resolve result for peer `"p"`
only (`earlyOps`: no text-resolve result), the address-resolve result `noCandidates` for its
host, which has no candidate at all, makes `HandleIp6AddressResolver` deliver a
peer-discovered notification (`mRemoved = false`), carrying the all-zero address. -/
theorem discovered_without_text_or_candidate :
    run build4 1 enabledState earlyOps = .ok resolvedState ∧
      earlyOps.any isTxtResolveResult = false ∧
      noCandidates.mAddresses = [] ∧
      (step build4 1 (.HandleIp6AddressResolver noCandidates) resolvedState).map
          (fun s' => discoveredCalls (s'.calls.drop resolvedState.calls.length)) =
        .ok [{ mRemoved := false
               mTxtData := List.replicate TXT_DATA_SIZE 0
               mTxtLength := 0
               mSockAddr := { mAddress := kAnyAddress, mPort := 7 } }] := by
  decide

/-- C8, amended: starting from an empty directory, for every sequence of operations of the
module (discovery callbacks and all others), an operation delivers a peer-discovered
notification (`mRemoved = false`) only if it is an address-resolve result whose host name is
that of a record of the directory, and that peer has received before, in this order, a
browse result for its instance name and a service-resolve result for its instance name that
gave this host name; the notification is the only one made and is that of this record.
Neither a text-resolve result nor a candidate with TTL>0 is required. -/
theorem discovered_only_after_browse_and_service_resolve (b : Build) (fuel : Nat)
    (s0 s s' : TrelState) (ops : List Op) (op : Op) (hempty : s0.sPeerList.elems = [])
    (hrun : run b fuel s0 ops = .ok s) (hstep : step b fuel op s = .ok s')
    (hnew : discoveredCalls (s'.calls.drop s.calls.length) ≠ []) :
    ∃ aResult element selectedAddress,
      op = .HandleIp6AddressResolver aResult ∧
        findPeerByHostName s aResult.mHostName = .ok (some element) ∧
        discoveredCalls (s'.calls.drop s.calls.length) =
          [discoveredPeerInfo { element.2 with mSockAddr :=
            { element.2.mSockAddr with mAddress := selectedAddress } }] ∧
        ∃ (i j : Nat) (allocOk : Bool) (browse : otMdnsBrowseResult) (srv : otMdnsSrvResult),
          i < j ∧ ops[i]? = some (.HandleServiceBrowseResult allocOk browse) ∧
            browse.mServiceInstance = element.2.mPeerServiceInstance ∧
            ops[j]? = some (.HandleServiceResolveResult srv) ∧
            srv.mServiceInstance = element.2.mPeerServiceInstance ∧
            srv.mHostName = aResult.mHostName := by
  have ht0 : Traced [] s0 := by
    intro p hp
    rw [hempty] at hp
    cases hp
  have ht : Traced ops s := by simpa using run_traced b fuel ops [] s0 s ht0 hrun
  have hquiet : QuietlyExtends s s' → False := fun hq => hnew hq.drop
  cases op with
  | TrelPlatInit baseName backboneNetif =>
    cases hstep; exact (hquiet (TrelPlatInit_quiet _ _ _)).elim
  | TrelOnAppReady startOk aHostName =>
    cases hstep; exact (hquiet (TrelOnAppReady_quiet _ _ _)).elim
  | TrelOnExternalNetifDown otTrelIsEnabled =>
    exact (hquiet (TrelOnExternalNetifDown_quiet _ _ _ _ hstep)).elim
  | otPlatTrelEnable env =>
    cases hstep; exact (hquiet (otPlatTrelEnable_quiet _ _ _)).elim
  | otPlatTrelDisable otTrelIsEnabled =>
    exact (hquiet (otPlatTrelDisable_quiet _ _ _ _ hstep)).elim
  | otPlatTrelSend env aUdpPayload aDestSockAddr =>
    cases hstep; exact (hquiet (otPlatTrelSend_quiet _ _ _ _)).elim
  | otPlatTrelRegisterService hostIsInitialized aPort aTxtData =>
    exact (hquiet (otPlatTrelRegisterService_quiet _ _ _ _ _ hstep)).elim
  | otPlatTrelResetCounters =>
    cases hstep; exact (hquiet (QuietlyExtends.of_calls_eq rfl)).elim
  | TrelSocketReceive allocOk aMessage =>
    exact (hquiet (TrelSocketReceive_quiet _ _ _ _ hstep)).elim
  | HandleServiceBrowseResult allocOk aResult =>
    cases hstep; exact (hquiet (HandleServiceBrowseResult_quiet _ _ _)).elim
  | HandleServiceResolveResult aResult =>
    cases hstep; exact (hquiet (HandleServiceResolveResult_quiet _ _)).elim
  | HandleServiceTxtResolveResult aResult =>
    exact (hquiet (HandleServiceTxtResolveResult_quiet _ _ _ hstep)).elim
  | HandleTrelRegistrationCallback aError =>
    cases hstep; exact (hquiet (HandleTrelRegistrationCallback_quiet _ _ _)).elim
  | HandleIp6AddressResolver aResult =>
    simp only [step, HandleIp6AddressResolver] at hstep
    split at hstep
    · cases hstep; exact (hquiet (QuietlyExtends.of_calls_eq rfl)).elim
    · split at hstep
      · cases hstep
      · cases hstep; exact (hquiet (QuietlyExtends.of_calls_eq rfl)).elim
      · rename_i element hfind
        split at hstep
        · cases hstep
        · rename_i selectedAddress _
          cases hstep
          obtain ⟨hmem, hhost⟩ := findPeerByHostNameFrom_mem _ _ 0 element hfind
          obtain ⟨i, allocOk, browse, hi, hbn, hsrv⟩ := ht element.2 hmem
          obtain ⟨j, srv, hij, hj, hsn, hsh⟩ := hsrv _ hhost
          refine ⟨aResult, element, selectedAddress, rfl, hfind, ?_,
            i, j, allocOk, browse, srv, hij, hi, hbn, hj, hsn, hsh⟩
          simp [emit, storePeer, discoveredCalls, peerInfoCalls, discoveredPeerInfo]

theorem discovered_only_after_browse_and_service_resolve_witness :
    enabledState.sPeerList.elems = [] ∧
      run build4 1 enabledState earlyOps = .ok resolvedState ∧
      step build4 1 (.HandleIp6AddressResolver noCandidates) resolvedState =
        .ok announcedState ∧
      discoveredCalls (announcedState.calls.drop resolvedState.calls.length) ≠ [] ∧
      ∃ aResult element selectedAddress,
        Op.HandleIp6AddressResolver noCandidates = .HandleIp6AddressResolver aResult ∧
          findPeerByHostName resolvedState aResult.mHostName = .ok (some element) ∧
          discoveredCalls (announcedState.calls.drop resolvedState.calls.length) =
            [discoveredPeerInfo { element.2 with mSockAddr :=
              { element.2.mSockAddr with mAddress := selectedAddress } }] ∧
          ∃ (i j : Nat) (allocOk : Bool) (browse : otMdnsBrowseResult) (srv : otMdnsSrvResult),
            i < j ∧ earlyOps[i]? = some (.HandleServiceBrowseResult allocOk browse) ∧
              browse.mServiceInstance = element.2.mPeerServiceInstance ∧
              earlyOps[j]? = some (.HandleServiceResolveResult srv) ∧
              srv.mServiceInstance = element.2.mPeerServiceInstance ∧
              srv.mHostName = aResult.mHostName :=
  ⟨by decide, by decide, by decide, by decide,
    discovered_only_after_browse_and_service_resolve build4 1 enabledState resolvedState
      announcedState earlyOps (.HandleIp6AddressResolver noCandidates) (by decide) (by decide)
      (by decide) (by decide)⟩

/-! ### C11: what is stopped when all records are removed -/

theorem TrelOnExternalNetifDown_ok (otTrelIsEnabled : Bool) (fuel : Nat) (s : TrelState)
    (hfuel : s.sPeerList.elems.length < fuel) :
    TrelOnExternalNetifDown otTrelIsEnabled fuel s =
      .ok { s with
        sBrowsingEnabled := false
        sPeerList := { s.sPeerList with elems := [] }
        sPeerNumber := (fun n => (n + 255) % 256)^[s.sPeerList.elems.length] s.sPeerNumber
        calls := s.calls ++ s.sPeerList.elems.flatMap (removeAllCallsFor otTrelIsEnabled) } := by
  unfold TrelOnExternalNetifDown
  exact RemoveAllPeersAndNotify_ok otTrelIsEnabled fuel { s with sBrowsingEnabled := false }
    hfuel

/-- C11 as stated fails: in `activeState` the directory holds two records, and
`TrelOnExternalNetifDown` removes both without any call that stops a resolver; and in
`resolvingState` the address resolver of the record is outstanding, and `otPlatTrelDisable`
removes the record without any call that stops an address resolver. -/
theorem remove_all_without_stop :
    activeState.sPeerList.elems.length = 2 ∧
      (TrelOnExternalNetifDown true 3 activeState).map
          (fun s' => ((s'.calls.drop activeState.calls.length).filter isStopResolver,
            s'.sPeerList.elems)) = .ok ([], []) ∧
      (resolvingState.calls.filter isStartIp6AddressResolver).length = 1 ∧
      resolvingState.calls.filter isStopIp6AddressResolver = [] ∧
      (otPlatTrelDisable true 3 resolvingState).map
          (fun s' => ((s'.calls.drop resolvingState.calls.length).filter
            isStopIp6AddressResolver, s'.sPeerList.elems)) = .ok ([], []) := by
  decide

/-- C11, amended: for every directory content, `otPlatTrelDisable` called while enabled
closes the socket, stops the browser and unregisters the service, then stops the
service-record resolver and the text-record resolver of every record, in list order, before
the first record is removed, and then removes every record; `TrelOnExternalNetifDown`
removes every record and stops no resolver. On neither path is an address resolver
stopped. (Both return, given more fuel than there are records.) -/
theorem remove_all_stops (otTrelIsEnabled : Bool) (fuel : Nat) (s : TrelState)
    (hfuel : s.sPeerList.elems.length < fuel) :
    (s.sTrelEnabled = true →
        ∃ s', otPlatTrelDisable otTrelIsEnabled fuel s = .ok s' ∧
          s'.calls.drop s.calls.length =
            [Call.otPlatUdpClose, Call.otMdnsStopBrowser s.trelBrowser,
              Call.otMdnsUnregisterService s.sTrelService] ++
            s.sPeerList.elems.flatMap (fun peer =>
              [Call.otMdnsStopSrvResolver peer.mSrvResolver,
                Call.otMdnsStopTxtResolver peer.mTxtResolver]) ++
            s.sPeerList.elems.flatMap (fun peer =>
              (if otTrelIsEnabled then
                [Call.otPlatTrelHandleDiscoveredPeerInfo (removedPeerInfo peer)]
              else []) ++ [Call.otPlatFree peer]) ∧
          s'.sPeerList.elems = []) ∧
      ∃ s', TrelOnExternalNetifDown otTrelIsEnabled fuel s = .ok s' ∧
        s'.calls.drop s.calls.length =
          s.sPeerList.elems.flatMap (fun peer =>
            (if otTrelIsEnabled then
              [Call.otPlatTrelHandleDiscoveredPeerInfo (removedPeerInfo peer)]
            else []) ++ [Call.otPlatFree peer]) ∧
        s'.sPeerList.elems = [] := by
  refine ⟨fun hen => ⟨_, otPlatTrelDisable_ok otTrelIsEnabled fuel s hen hfuel, ?_, rfl⟩,
    ⟨_, TrelOnExternalNetifDown_ok otTrelIsEnabled fuel s hfuel, ?_, rfl⟩⟩
  · simp only [List.append_assoc, List.drop_left]
    rfl
  · simp only [List.drop_left]
    rfl

theorem remove_all_stops_witness :
    activeState.sPeerList.elems.length < 3 ∧
      (activeState.sTrelEnabled = true →
        ∃ s', otPlatTrelDisable true 3 activeState = .ok s' ∧
          s'.calls.drop activeState.calls.length =
            [Call.otPlatUdpClose, Call.otMdnsStopBrowser activeState.trelBrowser,
              Call.otMdnsUnregisterService activeState.sTrelService] ++
            activeState.sPeerList.elems.flatMap (fun peer =>
              [Call.otMdnsStopSrvResolver peer.mSrvResolver,
                Call.otMdnsStopTxtResolver peer.mTxtResolver]) ++
            activeState.sPeerList.elems.flatMap (fun peer =>
              (if true then
                [Call.otPlatTrelHandleDiscoveredPeerInfo (removedPeerInfo peer)]
              else []) ++ [Call.otPlatFree peer]) ∧
          s'.sPeerList.elems = []) ∧
      ∃ s', TrelOnExternalNetifDown true 3 activeState = .ok s' ∧
        s'.calls.drop activeState.calls.length =
          activeState.sPeerList.elems.flatMap (fun peer =>
            (if true then
              [Call.otPlatTrelHandleDiscoveredPeerInfo (removedPeerInfo peer)]
            else []) ++ [Call.otPlatFree peer]) ∧
        s'.sPeerList.elems = [] :=
  ⟨by decide, remove_all_stops true 3 activeState (by decide)⟩

/-! ### C12: `RemoveAllPeersAndNotify` -/

/-- C12: for every directory content, `RemoveAllPeersAndNotify` returns (given more fuel
than there are records) with the list empty; when `otTrelIsEnabled` is true the calls it
makes are, for each record in list order, one peer-info notification with `mRemoved = true`
carrying the stored socket address, TXT data and TXT length of the record, followed by the
release of that record; when it is false they are the releases only, with no
notification. -/
theorem RemoveAllPeersAndNotify_notifies (otTrelIsEnabled : Bool) (fuel : Nat) (s : TrelState)
    (hfuel : s.sPeerList.elems.length < fuel) :
    ∃ s', RemoveAllPeersAndNotify otTrelIsEnabled fuel s = .ok s' ∧
      s'.sPeerList.elems = [] ∧
      s'.calls.drop s.calls.length =
        s.sPeerList.elems.flatMap (fun peer =>
          (if otTrelIsEnabled then
            [Call.otPlatTrelHandleDiscoveredPeerInfo
              { mRemoved := true, mSockAddr := peer.mSockAddr, mTxtData := peer.mTxtData,
                mTxtLength := peer.mTxtLength }]
          else []) ++ [Call.otPlatFree peer]) ∧
      peerInfoCalls (s'.calls.drop s.calls.length) =
        (if otTrelIsEnabled then
          s.sPeerList.elems.map (fun peer =>
            { mRemoved := true, mSockAddr := peer.mSockAddr, mTxtData := peer.mTxtData,
              mTxtLength := peer.mTxtLength })
        else []) := by
  refine ⟨_, RemoveAllPeersAndNotify_ok otTrelIsEnabled fuel s hfuel, rfl, ?_, ?_⟩
  · simp only [List.drop_left]
    rfl
  · simp only [List.drop_left]
    exact peerInfoCalls_removeAllCalls otTrelIsEnabled s.sPeerList.elems

theorem RemoveAllPeersAndNotify_notifies_witness :
    activeState.sPeerList.elems.length < 3 ∧
      ∃ s', RemoveAllPeersAndNotify true 3 activeState = .ok s' ∧
        s'.sPeerList.elems = [] ∧
        s'.calls.drop activeState.calls.length =
          activeState.sPeerList.elems.flatMap (fun peer =>
            (if true then
              [Call.otPlatTrelHandleDiscoveredPeerInfo
                { mRemoved := true, mSockAddr := peer.mSockAddr, mTxtData := peer.mTxtData,
                  mTxtLength := peer.mTxtLength }]
            else []) ++ [Call.otPlatFree peer]) ∧
        peerInfoCalls (s'.calls.drop activeState.calls.length) =
          (if true then
            activeState.sPeerList.elems.map (fun peer =>
              { mRemoved := true, mSockAddr := peer.mSockAddr, mTxtData := peer.mTxtData,
                mTxtLength := peer.mTxtLength })
          else []) :=
  ⟨by decide, RemoveAllPeersAndNotify_notifies true 3 activeState (by decide)⟩

/-! ### C13: counting of sent datagrams -/

theorem otPlatTrelSend_dispatched (env : SendEnv) (aUdpPayload : List Nat)
    (aDestSockAddr : otSockAddr) (s : TrelState) (hen : s.sTrelEnabled = true)
    (hnew : env.newMessageOk = true) (happ : env.appendOk = true) :
    (otPlatTrelSend env aUdpPayload aDestSockAddr s).sCounters =
      if env.udpSendOk = true then
        { s.sCounters with
          mTxPackets := (s.sCounters.mTxPackets + 1) % 2 ^ 64
          mTxBytes := (s.sCounters.mTxBytes + aUdpPayload.length) % 2 ^ 64 }
      else { s.sCounters with mTxFailure := (s.sCounters.mTxFailure + 1) % 2 ^ 64 } := by
  unfold otPlatTrelSend
  simp only [hen, hnew, happ, Bool.not_true, Bool.false_eq_true, if_false]
  split <;> rfl

/-- C13: for every `otPlatTrelSend` call made while enabled, with payload length `n`, whose
message is built successfully: when the dispatch `otPlatUdpSend` returns success,
`mTxPackets` is increased by one and `mTxBytes` by `n` (the counters are 64-bit, so the sums
are taken modulo `2 ^ 64`: exactly plus one and plus `n` unless the counter wraps) and
`mTxFailure` is unchanged; when it returns failure, `mTxFailure` is increased by one and
`mTxPackets` and `mTxBytes` are unchanged; `mRxPackets` and `mRxBytes` are unchanged in both
cases. -/
theorem otPlatTrelSend_counts (env : SendEnv) (aUdpPayload : List Nat)
    (aDestSockAddr : otSockAddr) (s : TrelState) (hen : s.sTrelEnabled = true)
    (hnew : env.newMessageOk = true) (happ : env.appendOk = true) :
    (env.udpSendOk = true →
        (otPlatTrelSend env aUdpPayload aDestSockAddr s).sCounters =
            { s.sCounters with
              mTxPackets := (s.sCounters.mTxPackets + 1) % 2 ^ 64
              mTxBytes := (s.sCounters.mTxBytes + aUdpPayload.length) % 2 ^ 64 } ∧
          (s.sCounters.mTxPackets + 1 < 2 ^ 64 →
            (otPlatTrelSend env aUdpPayload aDestSockAddr s).sCounters.mTxPackets =
              s.sCounters.mTxPackets + 1) ∧
          (s.sCounters.mTxBytes + aUdpPayload.length < 2 ^ 64 →
            (otPlatTrelSend env aUdpPayload aDestSockAddr s).sCounters.mTxBytes =
              s.sCounters.mTxBytes + aUdpPayload.length)) ∧
      (env.udpSendOk = false →
        (otPlatTrelSend env aUdpPayload aDestSockAddr s).sCounters =
            { s.sCounters with mTxFailure := (s.sCounters.mTxFailure + 1) % 2 ^ 64 } ∧
          (s.sCounters.mTxFailure + 1 < 2 ^ 64 →
            (otPlatTrelSend env aUdpPayload aDestSockAddr s).sCounters.mTxFailure =
              s.sCounters.mTxFailure + 1)) ∧
      (otPlatTrelSend env aUdpPayload aDestSockAddr s).sCounters.mRxPackets =
        s.sCounters.mRxPackets ∧
      (otPlatTrelSend env aUdpPayload aDestSockAddr s).sCounters.mRxBytes =
        s.sCounters.mRxBytes := by
  have h := otPlatTrelSend_dispatched env aUdpPayload aDestSockAddr s hen hnew happ
  rw [h]
  cases hsend : env.udpSendOk
  · simp only [Bool.false_eq_true, if_false, false_implies, true_implies, true_and, and_true]
    exact fun hlt => Nat.mod_eq_of_lt hlt
  · simp only [if_true, true_implies, Bool.true_eq_false, false_implies, true_and, and_true]
    exact ⟨fun hlt => Nat.mod_eq_of_lt hlt, fun hlt => Nat.mod_eq_of_lt hlt⟩

theorem otPlatTrelSend_counts_witness :
    enabledState.sTrelEnabled = true ∧ sendOk.newMessageOk = true ∧ sendOk.appendOk = true ∧
      (sendOk.udpSendOk = true →
        (otPlatTrelSend sendOk [1, 2, 3] somewhere enabledState).sCounters =
            { enabledState.sCounters with
              mTxPackets := (enabledState.sCounters.mTxPackets + 1) % 2 ^ 64
              mTxBytes := (enabledState.sCounters.mTxBytes + [1, 2, 3].length) % 2 ^ 64 } ∧
          (enabledState.sCounters.mTxPackets + 1 < 2 ^ 64 →
            (otPlatTrelSend sendOk [1, 2, 3] somewhere enabledState).sCounters.mTxPackets =
              enabledState.sCounters.mTxPackets + 1) ∧
          (enabledState.sCounters.mTxBytes + [1, 2, 3].length < 2 ^ 64 →
            (otPlatTrelSend sendOk [1, 2, 3] somewhere enabledState).sCounters.mTxBytes =
              enabledState.sCounters.mTxBytes + [1, 2, 3].length)) ∧
      (sendOk.udpSendOk = false →
        (otPlatTrelSend sendOk [1, 2, 3] somewhere enabledState).sCounters =
            { enabledState.sCounters with
              mTxFailure := (enabledState.sCounters.mTxFailure + 1) % 2 ^ 64 } ∧
          (enabledState.sCounters.mTxFailure + 1 < 2 ^ 64 →
            (otPlatTrelSend sendOk [1, 2, 3] somewhere enabledState).sCounters.mTxFailure =
              enabledState.sCounters.mTxFailure + 1)) ∧
      (otPlatTrelSend sendOk [1, 2, 3] somewhere enabledState).sCounters.mRxPackets =
        enabledState.sCounters.mRxPackets ∧
      (otPlatTrelSend sendOk [1, 2, 3] somewhere enabledState).sCounters.mRxBytes =
        enabledState.sCounters.mRxBytes :=
  ⟨by decide, by decide, by decide,
    otPlatTrelSend_counts sendOk [1, 2, 3] somewhere enabledState (by decide) (by decide)
      (by decide)⟩

/-! ### C16: resetting and reading the counters -/

theorem otPlatTrelEnable_enabling (MAX_PEER_NUMBER : Nat) (env : EnableEnv) (s : TrelState)
    (h0 : s.sTrelEnabled = false)
    (h1 : (otPlatTrelEnable MAX_PEER_NUMBER env s).1.sTrelEnabled = true) :
    (otPlatTrelEnable MAX_PEER_NUMBER env s).1.sCounters = zeroCounters := by
  unfold otPlatTrelEnable at h1 ⊢
  simp only [h0, Bool.false_eq_true, if_false] at h1 ⊢
  split at h1
  · simp [emit, h0] at h1
  · rename_i hs
    simp only [hs, if_false] at h1 ⊢
    split at h1
    · simp [emit, h0] at h1
    · rename_i hb
      simp only [hb, if_false] at h1 ⊢
      split at h1
      · simp [emit, h0] at h1
      · rename_i hn
        simp only [hn, if_false]
        rfl

/-- C16: for every counter state `otPlatTrelResetCounters` leaves the five counters at
zero; every call of `otPlatTrelEnable` that enables the module (it was disabled before the
call and is enabled after it) leaves the five counters at zero; and
`otPlatTrelGetCounters` returns the current counters and changes nothing. -/
theorem counters_reset_and_read (MAX_PEER_NUMBER : Nat) (env : EnableEnv) (s : TrelState) :
    (otPlatTrelResetCounters s).sCounters =
        { mTxPackets := 0, mTxBytes := 0, mTxFailure := 0, mRxPackets := 0, mRxBytes := 0 } ∧
      (s.sTrelEnabled = false →
        (otPlatTrelEnable MAX_PEER_NUMBER env s).1.sTrelEnabled = true →
        (otPlatTrelEnable MAX_PEER_NUMBER env s).1.sCounters =
          { mTxPackets := 0, mTxBytes := 0, mTxFailure := 0, mRxPackets := 0,
            mRxBytes := 0 }) ∧
      (otPlatTrelGetCounters s).1 = s.sCounters ∧ (otPlatTrelGetCounters s).2 = s :=
  ⟨rfl, otPlatTrelEnable_enabling MAX_PEER_NUMBER env s, rfl, rfl⟩

/-- C16, at a concrete input: the module was disabled with `mTxPackets = 1`,
`mTxBytes = 3`; the call that enables it again leaves the five counters at zero. -/
theorem counters_reset_and_read_witness :
    countedDisabledState.sCounters.mTxPackets = 1 ∧
      countedDisabledState.sCounters.mTxBytes = 3 ∧
      countedDisabledState.sTrelEnabled = false ∧
      (otPlatTrelEnable 4 enableOk countedDisabledState).1.sTrelEnabled = true ∧
      (otPlatTrelEnable 4 enableOk countedDisabledState).1.sCounters =
        { mTxPackets := 0, mTxBytes := 0, mTxFailure := 0, mRxPackets := 0, mRxBytes := 0 } :=
  ⟨by decide, by decide, by decide, by decide,
    (counters_reset_and_read 4 enableOk countedDisabledState).2.1 (by decide) (by decide)⟩

/-- The three parts of C16 at a concrete run: a datagram is sent and counted, the counters
are read, the module is disabled and enabled again, and the counters are zero; resetting
the counted state gives zero as well. -/
theorem counters_reset_and_read_example :
    (otPlatTrelGetCounters (otPlatTrelSend sendOk [1, 2, 3] somewhere enabledState)).1 =
        { mTxPackets := 1, mTxBytes := 3, mTxFailure := 0, mRxPackets := 0, mRxBytes := 0 } ∧
      (otPlatTrelResetCounters
          (otPlatTrelSend sendOk [1, 2, 3] somewhere enabledState)).sCounters = zeroCounters ∧
      (otPlatTrelDisable true 1 (otPlatTrelSend sendOk [1, 2, 3] somewhere enabledState)).map
          (fun s => (s.sTrelEnabled, s.sCounters.mTxPackets,
            (otPlatTrelEnable 4 enableOk s).1.sTrelEnabled,
            (otPlatTrelEnable 4 enableOk s).1.sCounters)) =
        .ok (false, 1, true, zeroCounters) := by
  decide

/-! ### Sending through the UDP platform -/

/-- With an open socket `otPlatUdpSend` returns; it returns `OT_ERROR_NONE` exactly when the
context and the buffer are allocated, the message is read and the job is accepted, and
`OT_ERROR_FAILED` otherwise; when it returns `OT_ERROR_NONE` the only change to the waiting
jobs is one more job, for the bytes of the message, and no `udp_sendto` has been called. -/
theorem otPlatUdpSend_outcome (lw : UdpPlat.Lwip) (env : UdpPlat.UdpSendEnv)
    (aUdpSocket : UdpPlat.otUdpSocket) (aMessage : List Nat)
    (aMessageInfo : UdpPlat.otMessageInfo) (u : UdpPlat.UdpState) (pcb : UdpPlat.udp_pcb)
    (hh : aUdpSocket.mHandle = some pcb) :
    ∃ r, UdpPlat.otPlatUdpSend lw env aUdpSocket aMessage aMessageInfo u = .ok r ∧
      (r.1 = if env.contextAllocOk = true ∧ env.pbufAllocOk = true ∧
          env.messageReadOk = true ∧ env.tcpipCallbackOk = true
        then otError.OT_ERROR_NONE else otError.OT_ERROR_FAILED) ∧
      (r.1 = otError.OT_ERROR_NONE →
        ∃ context : UdpPlat.udpSendContext, context.buf = aMessage ∧
          r.2.2.jobs = u.jobs ++ [context] ∧
          r.2.2.calls = u.calls ++ [.tcpip_callback context, .otMessageFree aMessage]) ∧
      (r.1 ≠ otError.OT_ERROR_NONE → r.2.2.jobs = u.jobs) := by
  obtain ⟨ca, pa, mr, tc⟩ := env
  unfold UdpPlat.otPlatUdpSend
  cases ca
  · exact ⟨_, rfl, by simp, by simp, by simp [UdpPlat.emit]⟩
  · simp only [hh, Bool.not_true, Bool.false_eq_true, if_false, UdpPlat.convertToLwipMsg]
    cases pa
    · exact ⟨_, rfl, by simp, by simp, by simp [UdpPlat.emit]⟩
    · cases mr
      · exact ⟨_, rfl, by simp, by simp, by simp [UdpPlat.emit]⟩
      · cases tc
        · exact ⟨_, rfl, by simp, by simp, by simp [UdpPlat.emit]⟩
        · refine ⟨_, rfl, by simp, fun _ => ?_, by simp⟩
          refine ⟨_, ?_, rfl, ?_⟩
          · rfl
          · simp [UdpPlat.emit]

/-- The counters after `sendOverUdp` for a message that was built, while enabled, through an
open socket. -/
theorem sendOverUdp_counters (lw : UdpPlat.Lwip) (env : UdpPlat.UdpSendEnv)
    (aUdpPayload : List Nat) (aDestSockAddr : otSockAddr) (p : Platform)
    (pcb : UdpPlat.udp_pcb) (hen : p.trel.sTrelEnabled = true)
    (hh : p.sTrelSocket.mHandle = some pcb) :
    ∃ p', sendOverUdp lw true true env aUdpPayload aDestSockAddr p = .ok p' ∧
      p'.trel.sCounters =
        (if env.contextAllocOk = true ∧ env.pbufAllocOk = true ∧
            env.messageReadOk = true ∧ env.tcpipCallbackOk = true then
          { p.trel.sCounters with
            mTxPackets := (p.trel.sCounters.mTxPackets + 1) % 2 ^ 64
            mTxBytes := (p.trel.sCounters.mTxBytes + aUdpPayload.length) % 2 ^ 64 }
        else
          { p.trel.sCounters with
            mTxFailure := (p.trel.sCounters.mTxFailure + 1) % 2 ^ 64 }) ∧
      ((env.contextAllocOk = true ∧ env.pbufAllocOk = true ∧
          env.messageReadOk = true ∧ env.tcpipCallbackOk = true) →
        ∃ context : UdpPlat.udpSendContext, context.buf = aUdpPayload ∧
          p'.udp.jobs = p.udp.jobs ++ [context] ∧
          p'.udp.calls =
            p.udp.calls ++ [.tcpip_callback context, .otMessageFree aUdpPayload]) := by
  obtain ⟨r, hr, herr, hjob, _⟩ := otPlatUdpSend_outcome lw env p.sTrelSocket aUdpPayload
    (trelMessageInfo p.trel aDestSockAddr) p.udp pcb hh
  unfold sendOverUdp
  simp only [hen, and_self, if_true, hr]
  refine ⟨_, rfl, ?_, ?_⟩
  · simp only
    rw [otPlatTrelSend_dispatched _ _ _ _ hen rfl rfl]
    by_cases hall : env.contextAllocOk = true ∧ env.pbufAllocOk = true ∧
        env.messageReadOk = true ∧ env.tcpipCallbackOk = true
    · rw [if_pos hall] at herr
      simp [herr, hall]
    · rw [if_neg hall] at herr
      simp [herr, hall]
  · intro hall
    rw [if_pos hall] at herr
    exact hjob herr

/-! ### C14: when a sent datagram is counted -/

/-- C14 as stated fails: on `readyPlatform` a datagram of three bytes whose dispatch is
accepted is counted by `otPlatTrelSend` at once (`mTxPackets = 1`, `mTxBytes = 3`) while its
job is still waiting and no `udp_sendto` has been called; and after the IP-stack thread has
run the job with `udp_sendto` returning an error, the two counters are still 1 and 3. -/
theorem counted_before_transmit :
    readyPlatform.trel.sCounters.mTxPackets = 0 ∧ readyPlatform.trel.sCounters.mTxBytes = 0 ∧
      (sendOverUdp lwip true true udpSendAllOk [1, 2, 3] somewhere readyPlatform).map
          (fun p =>
            [p.trel.sCounters.mTxPackets, p.trel.sCounters.mTxBytes, p.udp.jobs.length,
              (p.udp.calls.filter isUdpSendto).length]) = .ok [1, 3, 1, 0] ∧
      (sendOverUdp lwip true true udpSendAllOk [1, 2, 3] somewhere readyPlatform).map
          (fun p =>
            [((runJobOnPlatform false p).udp.calls.filter isUdpSendto).length,
              (runJobOnPlatform false p).udp.jobs.length,
              (runJobOnPlatform false p).trel.sCounters.mTxPackets,
              (runJobOnPlatform false p).trel.sCounters.mTxBytes]) = .ok [1, 0, 1, 3] := by
  decide

/-- C14, amended: for a datagram sent while enabled through the open TREL socket, whose
message is built and whose dispatch is accepted (`otPlatUdpSend` returns `OT_ERROR_NONE`),
`mTxPackets` and `mTxBytes` are increased (by one and by the payload length, modulo
`2 ^ 64`) when `otPlatTrelSend` returns, while the job that will call `udp_sendto` is still
waiting and no `udp_sendto` has been called for it; the job, whatever `udp_sendto` returns,
leaves the counters as they are. -/
theorem counted_at_dispatch (lw : UdpPlat.Lwip) (env : UdpPlat.UdpSendEnv)
    (aUdpPayload : List Nat) (aDestSockAddr : otSockAddr) (p : Platform)
    (pcb : UdpPlat.udp_pcb) (hen : p.trel.sTrelEnabled = true)
    (hh : p.sTrelSocket.mHandle = some pcb)
    (hall : env.contextAllocOk = true ∧ env.pbufAllocOk = true ∧
      env.messageReadOk = true ∧ env.tcpipCallbackOk = true) :
    ∃ p', sendOverUdp lw true true env aUdpPayload aDestSockAddr p = .ok p' ∧
      p'.trel.sCounters =
        { p.trel.sCounters with
          mTxPackets := (p.trel.sCounters.mTxPackets + 1) % 2 ^ 64
          mTxBytes := (p.trel.sCounters.mTxBytes + aUdpPayload.length) % 2 ^ 64 } ∧
      (∃ context : UdpPlat.udpSendContext, context.buf = aUdpPayload ∧
        p'.udp.jobs = p.udp.jobs ++ [context]) ∧
      (p'.udp.calls.drop p.udp.calls.length).filter isUdpSendto = [] ∧
      ∀ (sendtoOk : Bool) (q : Platform),
        (runJobOnPlatform sendtoOk q).trel.sCounters = q.trel.sCounters := by
  obtain ⟨p', hp', hc, hj⟩ := sendOverUdp_counters lw env aUdpPayload aDestSockAddr p pcb hen hh
  obtain ⟨context, hbuf, hjobs, hcalls⟩ := hj hall
  refine ⟨p', hp', ?_, ⟨context, hbuf, hjobs⟩, ?_, fun _ _ => rfl⟩
  · rw [hc, if_pos hall]
  · rw [hcalls, List.drop_left]
    rfl

theorem counted_at_dispatch_witness :
    readyPlatform.trel.sTrelEnabled = true ∧
      readyPlatform.sTrelSocket.mHandle = some openPcb ∧
      (udpSendAllOk.contextAllocOk = true ∧ udpSendAllOk.pbufAllocOk = true ∧
        udpSendAllOk.messageReadOk = true ∧ udpSendAllOk.tcpipCallbackOk = true) ∧
      ∃ p', sendOverUdp lwip true true udpSendAllOk [1, 2, 3] somewhere readyPlatform =
          .ok p' ∧
        p'.trel.sCounters =
          { readyPlatform.trel.sCounters with
            mTxPackets := (readyPlatform.trel.sCounters.mTxPackets + 1) % 2 ^ 64
            mTxBytes := (readyPlatform.trel.sCounters.mTxBytes + [1, 2, 3].length) % 2 ^ 64 } ∧
        (∃ context : UdpPlat.udpSendContext, context.buf = [1, 2, 3] ∧
          p'.udp.jobs = readyPlatform.udp.jobs ++ [context]) ∧
        (p'.udp.calls.drop readyPlatform.udp.calls.length).filter isUdpSendto = [] ∧
        ∀ (sendtoOk : Bool) (q : Platform),
          (runJobOnPlatform sendtoOk q).trel.sCounters = q.trel.sCounters :=
  ⟨by decide, by decide, by decide,
    counted_at_dispatch lwip udpSendAllOk [1, 2, 3] somewhere readyPlatform openPcb
      (by decide) (by decide) (by decide)⟩

/-! ### C15: failures that are counted -/

/-- What the code does for C15 on the other failures: for a datagram sent while enabled
through the open TREL socket after `otUdpNewMessage` returned a message, a failure of the
payload append, of the allocation of the send context or of the host-stack buffer, of the
copy into that buffer, or of the enqueueing of the dispatch increases `mTxFailure` by one
(modulo `2 ^ 64`) and leaves the other counters as they are. -/
theorem failure_counted (lw : UdpPlat.Lwip) (appendOk : Bool) (env : UdpPlat.UdpSendEnv)
    (aUdpPayload : List Nat) (aDestSockAddr : otSockAddr) (p : Platform)
    (pcb : UdpPlat.udp_pcb) (hen : p.trel.sTrelEnabled = true)
    (hh : p.sTrelSocket.mHandle = some pcb)
    (hfail : appendOk = false ∨ ¬ (env.contextAllocOk = true ∧ env.pbufAllocOk = true ∧
      env.messageReadOk = true ∧ env.tcpipCallbackOk = true)) :
    ∃ p', sendOverUdp lw true appendOk env aUdpPayload aDestSockAddr p = .ok p' ∧
      p'.trel.sCounters =
        { p.trel.sCounters with
          mTxFailure := (p.trel.sCounters.mTxFailure + 1) % 2 ^ 64 } := by
  cases appendOk
  · unfold sendOverUdp
    simp only [Bool.false_eq_true, and_false, if_false]
    exact ⟨_, rfl, by simp [otPlatTrelSend, hen, emit]⟩
  · have hnot : ¬ (env.contextAllocOk = true ∧ env.pbufAllocOk = true ∧
        env.messageReadOk = true ∧ env.tcpipCallbackOk = true) := by
      rcases hfail with h | h
      · cases h
      · exact h
    obtain ⟨p', hp', hc, _⟩ :=
      sendOverUdp_counters lw env aUdpPayload aDestSockAddr p pcb hen hh
    exact ⟨p', hp', by rw [hc, if_neg hnot]⟩

/-- C15, evaluated where the code departs from it: when `otUdpNewMessage` returns no
message (the mesh message object cannot be allocated), `otPlatTrelSend` leaves every
counter as it was, `mTxFailure` included, in every state; in `enabledState`, where the
module is enabled, `mTxFailure` is 0 before and after the call. -/
theorem message_allocation_failure_not_counted (appendOk udpSendOk : Bool)
    (aUdpPayload : List Nat) (aDestSockAddr : otSockAddr) (s : TrelState) :
    (otPlatTrelSend { newMessageOk := false, appendOk := appendOk, udpSendOk := udpSendOk }
        aUdpPayload aDestSockAddr s).sCounters = s.sCounters ∧
      enabledState.sTrelEnabled = true ∧
      enabledState.sCounters.mTxFailure = 0 ∧
      (otPlatTrelSend noMessage [1, 2, 3] somewhere enabledState).sCounters.mTxFailure = 0 := by
  refine ⟨?_, by decide, by decide, by decide⟩
  unfold otPlatTrelSend
  split
  · rfl
  · rfl

/-! ### The receive queue -/

theorem otPlatUdpProcessLoop_ok (fuel : Nat) :
    ∀ u : UdpPlat.UdpState, u.sMsgList.elems.length < fuel →
      UdpPlat.otPlatUdpProcessLoop fuel u =
        .ok { u with
          sMsgList := { u.sMsgList with elems := [] }
          calls := u.calls ++ u.sMsgList.elems.flatMap (fun context =>
            [UdpPlat.UdpCall.mHandler context.socket context.message context.message_info,
              UdpPlat.UdpCall.otPlatFree (.receiveContext context.socket)]) } := by
  induction fuel with
  | zero => intro u h; omega
  | succ k ih =>
    intro u h
    obtain ⟨bi, oi, inst, bp, op, ⟨elems, max⟩, jobs, calls⟩ := u
    cases elems with
    | nil => simp [UdpPlat.otPlatUdpProcessLoop, UdpPlat.LIST_RemoveHead]
    | cons c cs =>
      simp only [List.length_cons] at h
      simp only [UdpPlat.otPlatUdpProcessLoop, UdpPlat.LIST_RemoveHead]
      rw [ih _ (by simp only [UdpPlat.emit]; omega)]
      simp [UdpPlat.emit, List.flatMap_cons]

theorem recv_fcn_accepted (d : Datagram) (u : UdpPlat.UdpState) (hok : d.accepted = true)
    (hmax : u.sMsgList.max = 0) :
    UdpPlat.recv_fcn d.env d.arg d.p d.addr d.port u =
      { u with
        sMsgList := { u.sMsgList with elems := u.sMsgList.elems ++ [d.context u] }
        calls := u.calls ++ [.otTaskletsSignalPending, .pbuf_free d.p] } := by
  simp only [Datagram.accepted, Bool.and_eq_true] at hok
  obtain ⟨⟨h1, h2⟩, h3⟩ := hok
  simp [UdpPlat.recv_fcn, h1, h2, h3, UdpPlat.LIST_AddTail, hmax, UdpPlat.emit,
    Datagram.context]

/-- Datagrams for which `recv_fcn` succeeds are appended to the queue in the order they
arrive, and nothing else of the state that the queue depends on changes. -/
theorem receiveAll_accepted (ds : List Datagram) :
    ∀ u : UdpPlat.UdpState, (∀ d ∈ ds, d.accepted = true) → u.sMsgList.max = 0 →
      (receiveAll u ds).sMsgList.elems = u.sMsgList.elems ++ ds.map (fun d => d.context u) ∧
        (receiveAll u ds).sMsgList.max = 0 ∧
        (receiveAll u ds).sInstance = u.sInstance ∧
        (receiveAll u ds).sBackboneNetifIdx = u.sBackboneNetifIdx := by
  induction ds with
  | nil => intro u _ hmax; simp [receiveAll, hmax]
  | cons d ds ih =>
    intro u hok hmax
    have hd := recv_fcn_accepted d u (hok d (by simp)) hmax
    have hrest := ih (UdpPlat.recv_fcn d.env d.arg d.p d.addr d.port u)
      (fun e he => hok e (List.mem_cons_of_mem _ he)) (by rw [hd]; exact hmax)
    simp only [receiveAll]
    obtain ⟨h1, h2, h3, h4⟩ := hrest
    refine ⟨?_, h2, ?_, ?_⟩
    · rw [h1, hd]
      simp only [List.map_cons, List.append_assoc, List.singleton_append]
      congr 2
    · rw [h3, hd]
    · rw [h4, hd]

theorem deliveries_flatMap (q : List UdpPlat.udpReceiveContext) :
    deliveries (q.flatMap (fun context =>
      [UdpPlat.UdpCall.mHandler context.socket context.message context.message_info,
        UdpPlat.UdpCall.otPlatFree (.receiveContext context.socket)])) = q := by
  induction q with
  | nil => rfl
  | cons c cs ih =>
    simp only [List.flatMap_cons, List.cons_append, List.nil_append]
    simp only [deliveries, List.filterMap_cons] at ih ⊢
    rw [ih]

/-- C17: once the platform holds an instance (`otPlatUdpProcess` does nothing without one),
datagrams `m1 … mn` for which `recv_fcn` succeeds are queued behind what the receive queue
`sMsgList` already holds, in the order they arrive; one `otPlatUdpProcess` call then returns,
leaves the queue empty, and in between invokes the socket handler once per queued context, in
queue order: first on what was queued before, then on `m1`, then `m2`, …, then `mn`. Every
handler invocation of the call is one of these. -/
theorem otPlatUdpProcess_delivers_in_order (aInstance : UdpPlat.otInstance)
    (u : UdpPlat.UdpState) (ds : List Datagram) (fuel : Nat)
    (hinst : u.sInstance = some aInstance) (hmax : u.sMsgList.max = 0)
    (hok : ∀ d ∈ ds, d.accepted = true)
    (hfuel : u.sMsgList.elems.length + ds.length < fuel) :
    (receiveAll u ds).sMsgList.elems = u.sMsgList.elems ++ ds.map (fun d => d.context u) ∧
      ∃ u' : UdpPlat.UdpState,
        UdpPlat.otPlatUdpProcess fuel (receiveAll u ds) = .ok u' ∧
          u'.sMsgList.elems = [] ∧
          deliveries (u'.calls.drop (receiveAll u ds).calls.length) =
            u.sMsgList.elems ++ ds.map (fun d => d.context u) := by
  obtain ⟨h1, _, h3, _⟩ := receiveAll_accepted ds u hok hmax
  refine ⟨h1, ?_⟩
  have hlen : (receiveAll u ds).sMsgList.elems.length < fuel := by
    rw [h1]; simp only [List.length_append, List.length_map]; exact hfuel
  have hrun : UdpPlat.otPlatUdpProcess fuel (receiveAll u ds) =
      UdpPlat.otPlatUdpProcessLoop fuel (receiveAll u ds) := by
    unfold UdpPlat.otPlatUdpProcess
    rw [h3, hinst]
    simp only [Option.isSome_some, if_true]
  rw [hrun, otPlatUdpProcessLoop_ok fuel _ hlen]
  refine ⟨_, rfl, rfl, ?_⟩
  simp only [List.drop_left]
  rw [deliveries_flatMap, h1]

/-- C17, at a concrete input: three datagrams arriving after initialisation are delivered as
`m1`, `m2`, `m3`. -/
theorem otPlatUdpProcess_delivers_in_order_witness :
    udpReady.sInstance = some { id := 1 } ∧ udpReady.sMsgList.max = 0 ∧
      (∀ d ∈ threeDatagrams, d.accepted = true) ∧
      udpReady.sMsgList.elems.length + threeDatagrams.length < 4 ∧
      ((receiveAll udpReady threeDatagrams).sMsgList.elems =
          udpReady.sMsgList.elems ++ threeDatagrams.map (fun d => d.context udpReady) ∧
        ∃ u' : UdpPlat.UdpState,
          UdpPlat.otPlatUdpProcess 4 (receiveAll udpReady threeDatagrams) = .ok u' ∧
            u'.sMsgList.elems = [] ∧
            deliveries (u'.calls.drop (receiveAll udpReady threeDatagrams).calls.length) =
              udpReady.sMsgList.elems ++ threeDatagrams.map (fun d => d.context udpReady)) :=
  ⟨by decide, by decide, by decide, by decide,
    otPlatUdpProcess_delivers_in_order { id := 1 } udpReady threeDatagrams 4
      (by decide) (by decide) (by decide) (by decide)⟩

/-- The three datagrams of the example reach the handler with payloads `[1]`, `[2, 2]`,
`[3, 3, 3]` and source ports 1001, 1002, 1003, in that order. -/
theorem otPlatUdpProcess_three_datagrams :
    (UdpPlat.otPlatUdpProcess 4 (receiveAll udpReady threeDatagrams)).map
        (fun u => (deliveries u.calls).map fun c => (c.message, c.message_info.mPeerPort)) =
      .ok [([1], 1001), ([2, 2], 1002), ([3, 3, 3], 1003)] := by
  decide

/-! ### Connecting a socket -/

/-- C18: on an opened socket (control block `pcb`; the function reads it in both branches),
`otPlatUdpConnect` returns, and among the calls it makes there is `udp_disconnect` and no
`udp_connect` exactly when the peer port of the socket is 0 or its peer address is
unspecified; in that case the result is `OT_ERROR_NONE`. -/
theorem otPlatUdpConnect_disconnect_path (lw : UdpPlat.Lwip) (connectOk : Bool)
    (aUdpSocket : UdpPlat.otUdpSocket) (pcb : UdpPlat.udp_pcb) (u : UdpPlat.UdpState)
    (hh : aUdpSocket.mHandle = some pcb) :
    ∃ (error : otError) (u' : UdpPlat.UdpState),
      UdpPlat.otPlatUdpConnect lw connectOk aUdpSocket u = .ok (error, u') ∧
        ((aUdpSocket.mPeerName.mPort = 0 ∨
            otIp6IsAddressUnspecified aUdpSocket.mPeerName.mAddress = true) ↔
          (UdpPlat.UdpCall.udp_disconnect ∈ u'.calls.drop u.calls.length ∧
            ∀ addr port, UdpPlat.UdpCall.udp_connect addr port ∉ u'.calls.drop u.calls.length)) ∧
        ((aUdpSocket.mPeerName.mPort = 0 ∨
            otIp6IsAddressUnspecified aUdpSocket.mPeerName.mAddress = true) →
          error = .OT_ERROR_NONE) := by
  unfold UdpPlat.otPlatUdpConnect
  rw [hh]
  by_cases hc : aUdpSocket.mPeerName.mPort ≠ 0 ∧
      otIp6IsAddressUnspecified aUdpSocket.mPeerName.mAddress = false
  · have hn : ¬ (aUdpSocket.mPeerName.mPort = 0 ∨
        otIp6IsAddressUnspecified aUdpSocket.mPeerName.mAddress = true) := by
      rintro (h | h)
      · exact hc.1 h
      · rw [hc.2] at h; exact Bool.noConfusion h
    simp only [if_pos hc]
    refine ⟨_, _, rfl, ?_, fun h => absurd h hn⟩
    simp only [UdpPlat.emit, List.drop_left, hn, false_iff]
    simp
  · have hy : aUdpSocket.mPeerName.mPort = 0 ∨
        otIp6IsAddressUnspecified aUdpSocket.mPeerName.mAddress = true := by
      by_contra hcon
      apply hc
      constructor
      · exact fun h => hcon (Or.inl h)
      · cases hb : otIp6IsAddressUnspecified aUdpSocket.mPeerName.mAddress
        · rfl
        · exact absurd (Or.inr hb) hcon
    simp only [if_neg hc]
    refine ⟨_, _, rfl, ?_, fun _ => rfl⟩
    simp only [hy, true_iff]
    by_cases hi : pcb.netif_idx ≠ UdpPlat.NETIF_NO_INDEX
    · simp [if_pos hi, UdpPlat.emit]
    · simp [if_neg hi, UdpPlat.emit]

/-- C18, at concrete inputs: the open socket has peer port 0 (and an unspecified peer
address). -/
theorem otPlatUdpConnect_disconnect_path_witness :
    openSocket.mHandle = some openPcb ∧
      ∃ (error : otError) (u' : UdpPlat.UdpState),
        UdpPlat.otPlatUdpConnect lwip true openSocket udpReady = .ok (error, u') ∧
          ((openSocket.mPeerName.mPort = 0 ∨
              otIp6IsAddressUnspecified openSocket.mPeerName.mAddress = true) ↔
            (UdpPlat.UdpCall.udp_disconnect ∈ u'.calls.drop udpReady.calls.length ∧
              ∀ addr port,
                UdpPlat.UdpCall.udp_connect addr port ∉ u'.calls.drop udpReady.calls.length)) ∧
          ((openSocket.mPeerName.mPort = 0 ∨
              otIp6IsAddressUnspecified openSocket.mPeerName.mAddress = true) →
            error = .OT_ERROR_NONE) :=
  ⟨by decide, otPlatUdpConnect_disconnect_path lwip true openSocket openPcb udpReady (by decide)⟩

/-- Both paths of `otPlatUdpConnect` at concrete sockets: peer port 0 disconnects and binds
the interface again; peer `fe80::1`, port 1234 connects. -/
theorem otPlatUdpConnect_paths :
    (UdpPlat.otPlatUdpConnect lwip true openSocket udpReady).map
        (fun r => (r.1, r.2.calls)) =
      .ok (.OT_ERROR_NONE, [.udp_disconnect, .udp_bind_netif 1]) ∧
    (UdpPlat.otPlatUdpConnect lwip true linkLocalSocket udpReady).map
        (fun r => (r.1, r.2.calls.map fun c =>
          match c with
          | .udp_connect _ port => some port
          | _ => none)) =
      .ok (.OT_ERROR_NONE, [some 1234]) := by
  decide

/-- C19 (the code departs from it): for the socket bound to interface 1 whose peer is
`fe80::1`, port 1234, whatever the IP stack answers, `otPlatUdpConnect` makes the one call
`udp_connect` with port 1234 and an address whose sixteen bytes are zero, not the bytes of
`fe80::1`: the result of `convertOpenthreadToLwipAddress` is not stored. With the macros of
the IP stack the whole address is the zero-initialised one, without a zone, while the peer
address converted and zoned is `fe80::1` with zone 1. -/
theorem otPlatUdpConnect_zero_address (lw : UdpPlat.Lwip) (connectOk : Bool)
    (u : UdpPlat.UdpState) :
    (∃ addr : UdpPlat.ip_addr_t,
      (UdpPlat.otPlatUdpConnect lw connectOk linkLocalSocket u).map
          (fun r => r.2.calls.drop u.calls.length) = .ok [.udp_connect addr 1234] ∧
        addr.addr = kAnyAddress ∧
        addr.addr ≠ linkLocalSocket.mPeerName.mAddress) ∧
      (UdpPlat.otPlatUdpConnect lwip connectOk linkLocalSocket u).map
          (fun r => r.2.calls.drop u.calls.length) =
        .ok [.udp_connect UdpPlat.zero_ip_addr 1234] ∧
      peerAddressWithZone lwip linkLocalSocket openPcb u =
        { addr := linkLocalAddress, zone := 1, type := .IPADDR_TYPE_V6 } := by
  refine ⟨?_, ?_, ?_⟩
  · have hc : linkLocalSocket.mPeerName.mPort ≠ 0 ∧
        otIp6IsAddressUnspecified linkLocalSocket.mPeerName.mAddress = false := by decide
    have hh : linkLocalSocket.mHandle = some openPcb := rfl
    have hi : ¬ openPcb.netif_idx = UdpPlat.NETIF_NO_INDEX := by decide
    unfold UdpPlat.otPlatUdpConnect
    rw [hh]
    simp only [if_pos hc, if_neg hi]
    refine ⟨UdpPlat.ip6_addr_assign_zone lw
      { UdpPlat.zero_ip_addr with zone := UdpPlat.IP6_NO_ZONE } .IP6_UNICAST openPcb.netif_idx,
      ?_, ?_, ?_⟩
    · simp only [Except.map, UdpPlat.emit, List.drop_left]
      rfl
    · rfl
    · show kAnyAddress ≠ linkLocalAddress
      decide
  · have hc : linkLocalSocket.mPeerName.mPort ≠ 0 ∧
        otIp6IsAddressUnspecified linkLocalSocket.mPeerName.mAddress = false := by decide
    have hh : linkLocalSocket.mHandle = some openPcb := rfl
    have hi : ¬ openPcb.netif_idx = UdpPlat.NETIF_NO_INDEX := by decide
    unfold UdpPlat.otPlatUdpConnect
    rw [hh]
    simp only [if_pos hc, if_neg hi]
    simp only [Except.map, UdpPlat.emit, List.drop_left]
    rfl
  · rfl

/-! ### Addresses of received datagrams -/

theorem bytes16_m8 (l : List Nat) (h : l.length = 16) : (UdpPlat.bytes16 l).m8 = l := by
  simp only [UdpPlat.bytes16]
  rw [List.take_append_of_le_length (by omega), List.take_of_length_le (by omega)]

theorem ip4_2_ipv4_mapped_ipv6_m8 (a : UdpPlat.ip_addr_t) :
    (UdpPlat.ip4_2_ipv4_mapped_ipv6 a).addr.m8 =
      [0, 0, 0, 0, 0, 0, 0, 0, 0, 0, 0xff, 0xff] ++ a.addr.m8.take 4 := by
  simp only [UdpPlat.ip4_2_ipv4_mapped_ipv6]
  rw [bytes16_m8]
  · rfl
  · have := a.addr.size_eq
    simp only [List.length_append, List.length_replicate, List.length_cons, List.length_nil,
      List.length_take]
    omega

/-- C20: once the platform holds an instance, a datagram for which `recv_fcn` succeeds reaches
the socket handler at the next `otPlatUdpProcess` (after what was queued before) with a
message info whose peer port is the source port. From an IPv6 source the peer address is
the sixteen bytes of the source and the local address those of the destination. From an IPv4
source `a.b.c.d` the peer address is ten zero bytes, `0xff`, `0xff`, `a`, `b`, `c`, `d`, and
the local address has the same form with the four bytes of the destination. -/
theorem recv_fcn_message_info (aInstance : UdpPlat.otInstance) (u : UdpPlat.UdpState)
    (d : Datagram) (fuel : Nat)
    (hinst : u.sInstance = some aInstance) (hmax : u.sMsgList.max = 0)
    (hok : d.accepted = true) (hfuel : u.sMsgList.elems.length + 1 < fuel) :
    ∃ (u' : UdpPlat.UdpState) (info : UdpPlat.otMessageInfo),
      UdpPlat.otPlatUdpProcess fuel (UdpPlat.recv_fcn d.env d.arg d.p d.addr d.port u) = .ok u' ∧
        deliveries (u'.calls.drop
            (UdpPlat.recv_fcn d.env d.arg d.p d.addr d.port u).calls.length) =
          u.sMsgList.elems ++ [{ socket := d.arg, message := d.p, message_info := info }] ∧
        info.mPeerPort = d.port ∧
        (d.addr.type = .IPADDR_TYPE_V6 →
          info.mPeerAddr = d.addr.addr ∧ info.mSockAddr = d.env.current_dest_addr.addr) ∧
        (d.addr.type = .IPADDR_TYPE_V4 →
          info.mPeerAddr.m8 =
              [0, 0, 0, 0, 0, 0, 0, 0, 0, 0, 0xff, 0xff] ++ d.addr.addr.m8.take 4 ∧
            info.mSockAddr.m8 =
              [0, 0, 0, 0, 0, 0, 0, 0, 0, 0, 0xff, 0xff] ++
                d.env.current_dest_addr.addr.m8.take 4) := by
  have hd := recv_fcn_accepted d u hok hmax
  have hrun : UdpPlat.otPlatUdpProcess fuel (UdpPlat.recv_fcn d.env d.arg d.p d.addr d.port u) =
      UdpPlat.otPlatUdpProcessLoop fuel
        (UdpPlat.recv_fcn d.env d.arg d.p d.addr d.port u) := by
    unfold UdpPlat.otPlatUdpProcess
    rw [hd]
    simp only [hinst, Option.isSome_some, if_true]
  have hlen : (UdpPlat.recv_fcn d.env d.arg d.p d.addr d.port u).sMsgList.elems.length <
      fuel := by
    rw [hd]; simp only [List.length_append, List.length_cons, List.length_nil]; exact hfuel
  rw [hrun, otPlatUdpProcessLoop_ok fuel _ hlen]
  refine ⟨_, UdpPlat.receivedMessageInfo d.env d.addr d.port u, rfl, ?_, rfl, ?_, ?_⟩
  · simp only [List.drop_left]
    rw [deliveries_flatMap, hd]
    rfl
  · intro h6
    simp [UdpPlat.receivedMessageInfo, h6]
  · intro h4
    have hn : ¬ d.addr.type = .IPADDR_TYPE_V6 := by rw [h4]; decide
    simp only [UdpPlat.receivedMessageInfo, if_neg hn]
    exact ⟨ip4_2_ipv4_mapped_ipv6_m8 _, ip4_2_ipv4_mapped_ipv6_m8 _⟩

/-- C20, at a concrete input: a datagram from `192.0.2.1`, port 5353. -/
theorem recv_fcn_message_info_witness :
    udpReady.sInstance = some { id := 1 } ∧ udpReady.sMsgList.max = 0 ∧
      ipv4Datagram.accepted = true ∧ udpReady.sMsgList.elems.length + 1 < 2 ∧
      ∃ (u' : UdpPlat.UdpState) (info : UdpPlat.otMessageInfo),
        UdpPlat.otPlatUdpProcess 2
            (UdpPlat.recv_fcn ipv4Datagram.env ipv4Datagram.arg ipv4Datagram.p
              ipv4Datagram.addr ipv4Datagram.port udpReady) = .ok u' ∧
          deliveries (u'.calls.drop
              (UdpPlat.recv_fcn ipv4Datagram.env ipv4Datagram.arg ipv4Datagram.p
                ipv4Datagram.addr ipv4Datagram.port udpReady).calls.length) =
            udpReady.sMsgList.elems ++
              [{ socket := ipv4Datagram.arg, message := ipv4Datagram.p, message_info := info }] ∧
          info.mPeerPort = ipv4Datagram.port ∧
          (ipv4Datagram.addr.type = .IPADDR_TYPE_V6 →
            info.mPeerAddr = ipv4Datagram.addr.addr ∧
              info.mSockAddr = ipv4Datagram.env.current_dest_addr.addr) ∧
          (ipv4Datagram.addr.type = .IPADDR_TYPE_V4 →
            info.mPeerAddr.m8 =
                [0, 0, 0, 0, 0, 0, 0, 0, 0, 0, 0xff, 0xff] ++
                  ipv4Datagram.addr.addr.m8.take 4 ∧
              info.mSockAddr.m8 =
                [0, 0, 0, 0, 0, 0, 0, 0, 0, 0, 0xff, 0xff] ++
                  ipv4Datagram.env.current_dest_addr.addr.m8.take 4) :=
  ⟨by decide, by decide, by decide, by decide,
    recv_fcn_message_info { id := 1 } udpReady ipv4Datagram 2
      (by decide) (by decide) (by decide) (by decide)⟩

/-- The datagram from `192.0.2.1`, port 5353, to `192.0.2.2` reaches the handler with peer
`::ffff:192.0.2.1`, local address `::ffff:192.0.2.2` and peer port 5353; the first of the
three IPv6 datagrams with its sixteen source bytes unchanged. -/
theorem recv_fcn_message_info_examples :
    (UdpPlat.otPlatUdpProcess 2
          (UdpPlat.recv_fcn ipv4Datagram.env ipv4Datagram.arg ipv4Datagram.p ipv4Datagram.addr
            ipv4Datagram.port udpReady)).map
        (fun u => (deliveries u.calls).map fun c =>
          (c.message_info.mPeerAddr.m8, c.message_info.mSockAddr.m8,
            c.message_info.mPeerPort)) =
      .ok [([0, 0, 0, 0, 0, 0, 0, 0, 0, 0, 255, 255, 192, 0, 2, 1],
        [0, 0, 0, 0, 0, 0, 0, 0, 0, 0, 255, 255, 192, 0, 2, 2], 5353)] ∧
    (UdpPlat.otPlatUdpProcess 4 (receiveAll udpReady threeDatagrams)).map
        (fun u => ((deliveries u.calls).map fun c =>
          (c.message_info.mPeerAddr.m8, c.message_info.mPeerPort)).head?) =
      .ok (some ([0, 0, 0, 0, 0, 0, 0, 0, 0, 0, 0, 0, 0, 0, 0, 1], 1001)) := by
  decide

/-! ### Releases in `recv_fcn` -/

/-- C21: for every datagram handled by `recv_fcn` (the receive queue being the unbounded one
made by `LIST_Init(&sMsgList, 0)`), whatever the collaborators answer: `pbuf_free` is called
exactly once, on the buffer of the datagram. When the context allocation, the message
allocation and the payload append all succeed, the context is linked at the tail of the
queue, `otTaskletsSignalPending` is called once, and neither the context nor the message is
released. Otherwise the queue is unchanged and nothing is signalled; the context, if it was
allocated, is released exactly once, and the message, if it was allocated, is released
exactly once; nothing that was not allocated is released. -/
theorem recv_fcn_releases (env : UdpPlat.RecvEnv) (arg : UdpPlat.otUdpSocket) (p : List Nat)
    (addr : UdpPlat.ip_addr_t) (port : Nat) (u : UdpPlat.UdpState)
    (hmax : u.sMsgList.max = 0) :
    (callsSince u (UdpPlat.recv_fcn env arg p addr port u)).filter isPbufFree =
        [.pbuf_free p] ∧
      ((env.contextAllocOk = true ∧ env.newMessageOk = true ∧ env.appendOk = true) →
        (UdpPlat.recv_fcn env arg p addr port u).sMsgList.elems =
            u.sMsgList.elems ++
              [{ socket := arg, message := p
                 message_info := UdpPlat.receivedMessageInfo env addr port u }] ∧
          (callsSince u (UdpPlat.recv_fcn env arg p addr port u)).count
            .otTaskletsSignalPending = 1 ∧
          (callsSince u (UdpPlat.recv_fcn env arg p addr port u)).filter isOtPlatFree = [] ∧
          (callsSince u (UdpPlat.recv_fcn env arg p addr port u)).filter isOtMessageFree =
            []) ∧
      (¬ (env.contextAllocOk = true ∧ env.newMessageOk = true ∧ env.appendOk = true) →
        (UdpPlat.recv_fcn env arg p addr port u).sMsgList = u.sMsgList ∧
          (callsSince u (UdpPlat.recv_fcn env arg p addr port u)).count
            .otTaskletsSignalPending = 0 ∧
          (callsSince u (UdpPlat.recv_fcn env arg p addr port u)).filter isOtPlatFree =
            (if env.contextAllocOk = true then [.otPlatFree (.receiveContext arg)] else []) ∧
          (callsSince u (UdpPlat.recv_fcn env arg p addr port u)).filter isOtMessageFree =
            (if env.contextAllocOk = true ∧ env.newMessageOk = true then [.otMessageFree p]
              else [])) := by
  cases h1 : env.contextAllocOk <;> cases h2 : env.newMessageOk <;> cases h3 : env.appendOk <;>
    simp [UdpPlat.recv_fcn, callsSince, h1, h2, h3, UdpPlat.emit, UdpPlat.LIST_AddTail, hmax,
      List.append_assoc, List.drop_left, isPbufFree, isOtPlatFree, isOtMessageFree]

/-- C21, at a concrete input: the first of the three datagrams arrives on the initialised
platform. -/
theorem recv_fcn_releases_witness :
    udpReady.sMsgList.max = 0 ∧
      (callsSince udpReady (UdpPlat.recv_fcn recvOk openSocket [1] ipv4Datagram.addr 5353
          udpReady)).filter isPbufFree = [.pbuf_free [1]] ∧
      (UdpPlat.recv_fcn recvOk openSocket [1] ipv4Datagram.addr 5353 udpReady).sMsgList.elems =
        [{ socket := openSocket, message := [1]
           message_info :=
             UdpPlat.receivedMessageInfo recvOk ipv4Datagram.addr 5353 udpReady }] :=
  ⟨by decide,
    (recv_fcn_releases recvOk openSocket [1] ipv4Datagram.addr 5353 udpReady (by decide)).1,
    ((recv_fcn_releases recvOk openSocket [1] ipv4Datagram.addr 5353 udpReady
      (by decide)).2.1 (by decide)).1⟩

/-- The three failing paths of `recv_fcn` and the successful one, evaluated: the calls made,
and the length of the queue afterwards. -/
theorem recv_fcn_paths :
    (UdpPlat.recv_fcn { recvOk with contextAllocOk := false } openSocket [1]
        ipv4Datagram.addr 5353 udpReady).calls = [.pbuf_free [1]] ∧
      (UdpPlat.recv_fcn { recvOk with newMessageOk := false } openSocket [1]
        ipv4Datagram.addr 5353 udpReady).calls =
        [.otPlatFree (.receiveContext openSocket), .pbuf_free [1]] ∧
      (UdpPlat.recv_fcn recvAppendFails openSocket [1] ipv4Datagram.addr 5353 udpReady).calls =
        [.otMessageFree [1], .otPlatFree (.receiveContext openSocket), .pbuf_free [1]] ∧
      (UdpPlat.recv_fcn recvAppendFails openSocket [1] ipv4Datagram.addr 5353
        udpReady).sMsgList.elems.length = 0 ∧
      (UdpPlat.recv_fcn recvOk openSocket [1] ipv4Datagram.addr 5353 udpReady).calls =
        [.otTaskletsSignalPending, .pbuf_free [1]] ∧
      (UdpPlat.recv_fcn recvOk openSocket [1] ipv4Datagram.addr 5353
        udpReady).sMsgList.elems.length = 1 := by
  decide

/-! ### Registration of the local service -/

/-- C22: for every state, every alternative-name helper and every error value,
`HandleTrelRegistrationCallback` with an error other than `OT_ERROR_NONE` replaces the
instance name of the local service by the alternative derived from the current one and
makes exactly one call, the registration of the local service under the new name, changing
nothing else; with `OT_ERROR_NONE` it leaves the state as it is and makes no call. In both
cases the counters, the peer list and the peer count are unchanged. -/
theorem HandleTrelRegistrationCallback_renames
    (CreateAlternativeBaseName : Option String → Option String) (aError : otError)
    (s : TrelState) :
    (aError ≠ .OT_ERROR_NONE →
        HandleTrelRegistrationCallback CreateAlternativeBaseName aError s =
          { s with
            sTrelService :=
              { s.sTrelService with
                mServiceInstance := CreateAlternativeBaseName s.sTrelService.mServiceInstance }
            calls := s.calls ++
              [.otMdnsRegisterService
                { s.sTrelService with
                  mServiceInstance :=
                    CreateAlternativeBaseName s.sTrelService.mServiceInstance }] }) ∧
      (aError = .OT_ERROR_NONE →
        HandleTrelRegistrationCallback CreateAlternativeBaseName aError s = s) ∧
      (HandleTrelRegistrationCallback CreateAlternativeBaseName aError s).sCounters =
        s.sCounters ∧
      (HandleTrelRegistrationCallback CreateAlternativeBaseName aError s).sPeerList =
        s.sPeerList ∧
      (HandleTrelRegistrationCallback CreateAlternativeBaseName aError s).sPeerNumber =
        s.sPeerNumber := by
  unfold HandleTrelRegistrationCallback
  by_cases h : aError = .OT_ERROR_NONE
  · simp [h]
  · simp [h, emit]

/-- C22, at a concrete input: the conflict callback in `registeredState`, where the service
was registered as `"X"`. -/
theorem HandleTrelRegistrationCallback_renames_witness :
    otError.OT_ERROR_DUPLICATED ≠ otError.OT_ERROR_NONE ∧
      HandleTrelRegistrationCallback alternativeName .OT_ERROR_DUPLICATED registeredState =
        { registeredState with
          sTrelService :=
            { registeredState.sTrelService with
              mServiceInstance := alternativeName registeredState.sTrelService.mServiceInstance }
          calls := registeredState.calls ++
            [.otMdnsRegisterService
              { registeredState.sTrelService with
                mServiceInstance :=
                  alternativeName registeredState.sTrelService.mServiceInstance }] } :=
  ⟨by decide,
    (HandleTrelRegistrationCallback_renames alternativeName .OT_ERROR_DUPLICATED
      registeredState).1 (by decide)⟩

/-- C22, the scenario: the service is registered as `"X"`; the conflict callback registers
`"X-1"`; the success callback registers nothing; the counters and the peer list are those
from before the two callbacks. -/
theorem HandleTrelRegistrationCallback_scenario :
    registeredNames registeredState.calls = [some "X"] ∧
      registeredNames
          (HandleTrelRegistrationCallback alternativeName .OT_ERROR_NONE
            (HandleTrelRegistrationCallback alternativeName .OT_ERROR_DUPLICATED
              registeredState)).calls = [some "X", some "X-1"] ∧
      (HandleTrelRegistrationCallback alternativeName .OT_ERROR_NONE
          (HandleTrelRegistrationCallback alternativeName .OT_ERROR_DUPLICATED
            registeredState)).sTrelService.mServiceInstance = some "X-1" ∧
      (otPlatTrelGetCounters
          (HandleTrelRegistrationCallback alternativeName .OT_ERROR_NONE
            (HandleTrelRegistrationCallback alternativeName .OT_ERROR_DUPLICATED
              registeredState))).1 = registeredState.sCounters ∧
      registeredState.sCounters.mTxPackets = 1 ∧
      (HandleTrelRegistrationCallback alternativeName .OT_ERROR_NONE
          (HandleTrelRegistrationCallback alternativeName .OT_ERROR_DUPLICATED
            registeredState)).sPeerList = registeredState.sPeerList ∧
      registeredState.sPeerList.elems.length = 1 := by
  decide

/-- C23: for every port and every blob of at most 24 bytes, `otPlatTrelRegisterService`
returns and leaves the local service record with that port, the length of the blob as TXT
length, and as TXT data the 24 bytes of `sTrelTxtData`, which are the blob followed by
zero bytes; the other members of the record are unchanged. It makes one call, the
registration of that record, when `BrMdnsHostIsInitialized()` is true, and no call when it
is false. -/
theorem otPlatTrelRegisterService_record (hostIsInitialized : Bool) (aPort : Nat)
    (aTxtData : List Nat) (s : TrelState) (hlen : aTxtData.length ≤ 24) :
    ∃ s', otPlatTrelRegisterService hostIsInitialized aPort aTxtData s = .ok s' ∧
      s'.sTrelService =
        { s.sTrelService with
          mPort := aPort
          mTxtDataLength := aTxtData.length
          mTxtData := aTxtData ++ List.replicate (24 - aTxtData.length) 0 } ∧
      s'.sTrelService.mTxtData.length = 24 ∧
      s'.sTrelTxtData = s'.sTrelService.mTxtData ∧
      s'.calls = s.calls ++
        (if hostIsInitialized = true then [.otMdnsRegisterService s'.sTrelService] else []) := by
  have hnot : ¬ TXT_DATA_SIZE < aTxtData.length := by
    simp only [TXT_DATA_SIZE]; omega
  unfold otPlatTrelRegisterService
  rw [if_neg hnot]
  refine ⟨_, rfl, ?_, ?_, ?_, ?_⟩
  · cases hostIsInitialized <;> simp [emit, TXT_DATA_SIZE]
  · cases hostIsInitialized <;>
      simp [emit, TXT_DATA_SIZE] <;> omega
  · cases hostIsInitialized <;> simp [emit]
  · cases hostIsInitialized <;> simp [emit]

/-- C23, at a concrete input: port 49152 and a blob of three bytes, host ready. -/
theorem otPlatTrelRegisterService_record_witness :
    [7, 8, 9].length ≤ 24 ∧
      ∃ s', otPlatTrelRegisterService true 49152 [7, 8, 9] enabledState = .ok s' ∧
        s'.sTrelService =
          { enabledState.sTrelService with
            mPort := 49152
            mTxtDataLength := [7, 8, 9].length
            mTxtData := [7, 8, 9] ++ List.replicate (24 - [7, 8, 9].length) 0 } ∧
        s'.sTrelService.mTxtData.length = 24 ∧
        s'.sTrelTxtData = s'.sTrelService.mTxtData ∧
        s'.calls = enabledState.calls ++
          (if true = true then [.otMdnsRegisterService s'.sTrelService] else []) :=
  ⟨by decide, otPlatTrelRegisterService_record true 49152 [7, 8, 9] enabledState (by decide)⟩

/-- The record and the calls of `otPlatTrelRegisterService` for a blob of three bytes, with
the host ready and not ready. -/
theorem otPlatTrelRegisterService_examples :
    (otPlatTrelRegisterService true 49152 [7, 8, 9] enabledState).map
        (fun s => (s.sTrelService.mPort, s.sTrelService.mTxtDataLength,
          s.sTrelService.mTxtData, (registeredNames (s.calls.drop enabledState.calls.length)).length)) =
      .ok (49152, 3, [7, 8, 9, 0, 0, 0, 0, 0, 0, 0, 0, 0, 0, 0, 0, 0, 0, 0, 0, 0, 0, 0, 0, 0], 1) ∧
    (otPlatTrelRegisterService false 49152 [7, 8, 9] enabledState).map
        (fun s => (s.sTrelService.mPort, s.sTrelService.mTxtDataLength,
          (registeredNames (s.calls.drop enabledState.calls.length)).length)) =
      .ok (49152, 3, 0) := by
  decide

/-! ### The copy of the TXT data of a peer -/

/-- What the code does for C24 when the reported length fits: for a text-resolve result of
at most 24 bytes handled while enabled for an existing record, the callback returns, the
blob of the record becomes the data followed by zero bytes, 24 bytes in all, the TXT
length becomes the reported length, and the one call made starts the address resolver of
the record. -/
theorem HandleServiceTxtResolveResult_fits (aResult : otMdnsTxtResult) (s : TrelState)
    (element : Nat × Peer) (hen : s.sTrelEnabled = true)
    (hfound : findPeerByServiceInstance s aResult.mServiceInstance = some element)
    (hlen : aResult.mTxtData.length ≤ 24) :
    ∃ peer : Peer,
      HandleServiceTxtResolveResult aResult s =
          .ok (emit (.otMdnsStartIp6AddressResolver element.2.mAddrResolver)
            (storePeer s element.1 peer)) ∧
        peer.mTxtData = aResult.mTxtData ++ List.replicate (24 - aResult.mTxtData.length) 0 ∧
        peer.mTxtData.length = 24 ∧
        peer.mTxtLength = aResult.mTxtData.length := by
  have hnot : ¬ TXT_DATA_SIZE < aResult.mTxtDataLength := by
    simp only [TXT_DATA_SIZE, otMdnsTxtResult.mTxtDataLength]; omega
  unfold HandleServiceTxtResolveResult
  simp only [hen, Bool.not_true, Bool.false_eq_true, if_false, hfound, if_neg hnot]
  refine ⟨_, rfl, rfl, ?_, ?_⟩
  · simp only [TXT_DATA_SIZE, otMdnsTxtResult.mTxtDataLength, List.length_append,
      List.length_replicate]
    omega
  · simp only [otMdnsTxtResult.mTxtDataLength]
    exact Nat.mod_eq_of_lt (by omega)

/-- C24 (the code departs from it): in `resolvedState`, where the module is enabled and the
directory holds the record of `"p"`, a text-resolve result for `"p"` that reports 25 bytes
or more is copied by `memcpy` with the reported length into the blob of 24 bytes: the copy
is not bounded by the capacity of the blob and writes beyond it, which is undefined
behaviour. -/
theorem HandleServiceTxtResolveResult_overlong (extra : List Nat) :
    resolvedState.sTrelEnabled = true ∧
      (findPeerByServiceInstance resolvedState "p").isSome = true ∧
      TXT_DATA_SIZE < (overlongTxt extra).mTxtDataLength ∧
      HandleServiceTxtResolveResult (overlongTxt extra) resolvedState =
        .error .undefinedBehaviour := by
  have hlen : TXT_DATA_SIZE < (overlongTxt extra).mTxtDataLength := by
    simp only [TXT_DATA_SIZE, otMdnsTxtResult.mTxtDataLength, overlongTxt, List.length_append,
      List.length_replicate]
    omega
  have hen : resolvedState.sTrelEnabled = true := by decide
  have hfound : (findPeerByServiceInstance resolvedState "p").isSome = true := by decide
  refine ⟨hen, hfound, hlen, ?_⟩
  unfold HandleServiceTxtResolveResult
  simp only [hen, Bool.not_true, Bool.false_eq_true, if_false]
  have hname : (overlongTxt extra).mServiceInstance = "p" := rfl
  rw [hname]
  cases hf : findPeerByServiceInstance resolvedState "p" with
  | none => rw [hf] at hfound; cases hfound
  | some element => simp only [if_pos hlen]

/-! ### Starting the browser once -/

theorem KeepsBrowsing_of_eq {s s' : TrelState} (hf : s'.sBrowsingEnabled = s.sBrowsingEnabled)
    (hc : s'.calls = s.calls) : KeepsBrowsing s s' :=
  ⟨hf, [], by simp [hc], rfl⟩

theorem KeepsBrowsing_trans {s1 s2 s3 : TrelState} (h12 : KeepsBrowsing s1 s2)
    (h23 : KeepsBrowsing s2 s3) : KeepsBrowsing s1 s3 := by
  obtain ⟨hf1, n1, hc1, hd1⟩ := h12
  obtain ⟨hf2, n2, hc2, hd2⟩ := h23
  exact ⟨hf2.trans hf1, n1 ++ n2, by rw [hc2, hc1, List.append_assoc], by
    rw [List.filter_append, hd1, hd2]; rfl⟩

theorem KeepsBrowsing_emit (c : Call) (s : TrelState) (hc : isStartBrowser c = false) :
    KeepsBrowsing s (emit c s) :=
  ⟨rfl, [c], rfl, by simp [hc]⟩

theorem TrelOnAppReady_keepsBrowsing (startOk : Bool) (aHostName : String) (s : TrelState)
    (hflag : s.sBrowsingEnabled = true) :
    KeepsBrowsing s (TrelOnAppReady startOk aHostName s) := by
  unfold TrelOnAppReady
  simp [KeepsBrowsing, hflag, emit, isStartBrowser]

theorem otPlatTrelEnable_keepsBrowsing (MAX_PEER_NUMBER : Nat) (env : EnableEnv)
    (s : TrelState) (hflag : s.sBrowsingEnabled = true) :
    KeepsBrowsing s (otPlatTrelEnable MAX_PEER_NUMBER env s).1 := by
  unfold otPlatTrelEnable
  simp only
  split
  · exact KeepsBrowsing_of_eq rfl rfl
  · split
    · simp [KeepsBrowsing, emit, isStartBrowser]
    · split
      · simp [KeepsBrowsing, emit, isStartBrowser]
      · split
        · simp [KeepsBrowsing, emit, isStartBrowser]
        · split
          · simp [KeepsBrowsing, emit, isStartBrowser, hflag, otPlatTrelResetCounters]
          · simp [KeepsBrowsing, emit, isStartBrowser, otPlatTrelResetCounters]

theorem createAndAppendPeerListEntry_sBrowsingEnabled (allocOk : Bool) (aPeer : Peer)
    (s : TrelState) :
    (createAndAppendPeerListEntry allocOk aPeer s).2.sBrowsingEnabled = s.sBrowsingEnabled := by
  cases allocOk
  · rfl
  · by_cases hfull : s.sPeerList.max ≠ 0 ∧ s.sPeerList.max = s.sPeerList.size
    · rw [createAndAppendPeerListEntry_full _ _ hfull]
    · rw [createAndAppendPeerListEntry_ok _ _ hfull]

theorem HandleServiceBrowseResult_keepsBrowsing (allocOk : Bool)
    (aResult : otMdnsBrowseResult) (s : TrelState) :
    KeepsBrowsing s (HandleServiceBrowseResult allocOk aResult s) := by
  unfold HandleServiceBrowseResult
  split
  · exact KeepsBrowsing_of_eq rfl rfl
  · split
    · split
      · exact KeepsBrowsing_emit _ _ rfl
      · simp [KeepsBrowsing, RemoveTrelServiceInstance, removeAndFreeInternalPeerListEntry,
          emit, isStartBrowser]
    · unfold AddTrelServiceInstance
      simp only
      split
      · exact KeepsBrowsing_trans
          (KeepsBrowsing_of_eq (createAndAppendPeerListEntry_sBrowsingEnabled _ _ _)
            (createAndAppendPeerListEntry_calls _ _ _))
          (KeepsBrowsing_emit _ _ rfl)
      · exact KeepsBrowsing_of_eq (createAndAppendPeerListEntry_sBrowsingEnabled _ _ _)
          (createAndAppendPeerListEntry_calls _ _ _)

theorem HandleIp6AddressResolver_keepsBrowsing (fuel : Nat) (aResult : otMdnsAddressResult)
    (s s' : TrelState) (h : HandleIp6AddressResolver fuel aResult s = .ok s') :
    KeepsBrowsing s s' := by
  unfold HandleIp6AddressResolver at h
  split at h
  · cases h; exact KeepsBrowsing_of_eq rfl rfl
  · split at h
    · cases h
    · cases h; exact KeepsBrowsing_of_eq rfl rfl
    · split at h
      · cases h
      · cases h
        simp [KeepsBrowsing, storePeer, emit, isStartBrowser]

/-- An operation other than `otPlatTrelDisable` and `TrelOnExternalNetifDown`, run with the
browsing flag set, leaves the flag set and does not start the browser. -/
theorem step_keepsBrowsing (b : Build) (fuel : Nat) (op : Op) (s s' : TrelState)
    (hflag : s.sBrowsingEnabled = true) (hop : clearsBrowsing op = false)
    (hstep : step b fuel op s = .ok s') : KeepsBrowsing s s' := by
  cases op with
  | TrelPlatInit baseName backboneNetif =>
    cases hstep; exact KeepsBrowsing_of_eq rfl rfl
  | TrelOnAppReady startOk aHostName =>
    cases hstep; exact TrelOnAppReady_keepsBrowsing _ _ _ hflag
  | TrelOnExternalNetifDown otTrelIsEnabled => cases hop
  | otPlatTrelEnable env =>
    cases hstep; exact otPlatTrelEnable_keepsBrowsing _ _ _ hflag
  | otPlatTrelDisable otTrelIsEnabled => cases hop
  | otPlatTrelSend env aUdpPayload aDestSockAddr =>
    cases hstep
    obtain ⟨nm, ap, us⟩ := env
    unfold otPlatTrelSend
    cases hen : s.sTrelEnabled <;> cases nm <;> cases ap <;> cases us <;>
      simp [KeepsBrowsing, emit, isStartBrowser]
  | otPlatTrelRegisterService hostIsInitialized aPort aTxtData =>
    simp only [step] at hstep
    unfold otPlatTrelRegisterService at hstep
    split at hstep
    · cases hstep
    · cases hstep
      cases hostIsInitialized <;> simp [KeepsBrowsing, emit, isStartBrowser]
  | otPlatTrelResetCounters =>
    cases hstep; exact KeepsBrowsing_of_eq rfl rfl
  | TrelSocketReceive allocOk aMessage =>
    simp only [step] at hstep
    unfold TrelSocketReceive at hstep
    split at hstep
    · cases hstep
    · cases hstep
      simp [KeepsBrowsing, emit, isStartBrowser]
  | HandleServiceBrowseResult allocOk aResult =>
    cases hstep; exact HandleServiceBrowseResult_keepsBrowsing _ _ _
  | HandleServiceResolveResult aResult =>
    cases hstep
    unfold HandleServiceResolveResult
    split
    · exact KeepsBrowsing_of_eq rfl rfl
    · split
      · simp [KeepsBrowsing, storePeer, emit, isStartBrowser]
      · exact KeepsBrowsing_of_eq rfl rfl
  | HandleServiceTxtResolveResult aResult =>
    simp only [step] at hstep
    unfold HandleServiceTxtResolveResult at hstep
    split at hstep
    · cases hstep; exact KeepsBrowsing_of_eq rfl rfl
    · split at hstep
      · split at hstep
        · cases hstep
        · cases hstep
          simp [KeepsBrowsing, storePeer, emit, isStartBrowser]
      · cases hstep; exact KeepsBrowsing_of_eq rfl rfl
  | HandleIp6AddressResolver aResult =>
    exact HandleIp6AddressResolver_keepsBrowsing fuel aResult s s' hstep
  | HandleTrelRegistrationCallback aError =>
    cases hstep
    unfold HandleTrelRegistrationCallback
    split <;> simp [KeepsBrowsing, emit, isStartBrowser]

theorem run_keepsBrowsing (b : Build) (fuel : Nat) (ops : List Op) :
    ∀ s s' : TrelState, s.sBrowsingEnabled = true →
      (∀ op ∈ ops, clearsBrowsing op = false) → run b fuel s ops = .ok s' →
      KeepsBrowsing s s' := by
  induction ops with
  | nil =>
    intro s s' _ _ h
    cases h
    exact KeepsBrowsing_of_eq rfl rfl
  | cons op ops ih =>
    intro s s' hflag hops h
    simp only [run] at h
    cases hstep : step b fuel op s with
    | error f => rw [hstep] at h; cases h
    | ok s1 =>
      rw [hstep] at h
      have h1 := step_keepsBrowsing b fuel op s s1 hflag (hops op (by simp)) hstep
      have hflag1 : s1.sBrowsingEnabled = true := h1.1.trans hflag
      exact KeepsBrowsing_trans h1
        (ih s1 s' hflag1 (fun o ho => hops o (List.mem_cons_of_mem _ ho)) h)

/-- A sequence of `TrelOnAppReady` and `otPlatTrelEnable` calls returns. -/
theorem run_startOps (b : Build) (fuel : Nat) (ops : List Op) :
    ∀ s : TrelState, (∀ op ∈ ops, isStartOp op = true) → ∃ s', run b fuel s ops = .ok s' := by
  induction ops with
  | nil => intro s _; exact ⟨s, rfl⟩
  | cons op ops ih =>
    intro s hops
    have hrest : ∀ o ∈ ops, isStartOp o = true := fun o ho => hops o (List.mem_cons_of_mem _ ho)
    have hop := hops op (by simp)
    cases op <;> first
      | (simp only [run, step]; exact ih _ hrest)
      | cases hop

/-- C25: once the browsing flag is set, whatever operations follow other than
`otPlatTrelDisable` and `TrelOnExternalNetifDown` (further `TrelOnAppReady` and
`otPlatTrelEnable` calls among them, with any answers of the collaborators), the flag stays
set and no call starts the browser; a sequence of `TrelOnAppReady` and `otPlatTrelEnable`
calls always returns. Starting from a cleared flag, two consecutive `TrelOnAppReady` calls
of which the first starts the browser successfully make exactly one start-browse call. -/
theorem start_browse_idempotent (b : Build) (fuel : Nat) (ops : List Op) (s : TrelState)
    (hflag : s.sBrowsingEnabled = true) (hops : ∀ op ∈ ops, clearsBrowsing op = false) :
    (∀ s', run b fuel s ops = .ok s' →
        s'.sBrowsingEnabled = true ∧
          (s'.calls.drop s.calls.length).filter isStartBrowser = []) ∧
      ((∀ op ∈ ops, isStartOp op = true) → ∃ s', run b fuel s ops = .ok s') ∧
      ∀ (s0 : TrelState) (startOk : Bool) (aHostName1 aHostName2 : String),
        s0.sBrowsingEnabled = false →
          (((TrelOnAppReady startOk aHostName2 (TrelOnAppReady true aHostName1 s0)).calls.drop
            s0.calls.length).filter isStartBrowser).length = 1 := by
  refine ⟨?_, run_startOps b fuel ops s, ?_⟩
  · intro s' hrun
    obtain ⟨hf, new, hc, hn⟩ := run_keepsBrowsing b fuel ops s s' hflag hops hrun
    refine ⟨hf.trans hflag, ?_⟩
    rw [hc, List.drop_left, hn]
  · intro s0 startOk aHostName1 aHostName2 h0
    simp [TrelOnAppReady, TrelStartBrowser, h0, emit, List.append_assoc, List.drop_left,
      isStartBrowser]

/-- C25, at a concrete input: the browser was started when the host became ready; enabling
the module with the host ready, a second `TrelOnAppReady` and a second `otPlatTrelEnable`
start no browser. -/
theorem start_browse_idempotent_witness :
    browsingState.sBrowsingEnabled = true ∧
      (∀ op ∈ startAgainOps, clearsBrowsing op = false) ∧
      (∀ op ∈ startAgainOps, isStartOp op = true) ∧
      (∃ s', run build4 1 browsingState startAgainOps = .ok s') ∧
      ∀ s', run build4 1 browsingState startAgainOps = .ok s' →
        s'.sBrowsingEnabled = true ∧
          (s'.calls.drop browsingState.calls.length).filter isStartBrowser = [] :=
  ⟨by decide, by decide, by decide,
    (start_browse_idempotent build4 1 startAgainOps browsingState (by decide)
      (by decide)).2.1 (by decide),
    (start_browse_idempotent build4 1 startAgainOps browsingState (by decide) (by decide)).1⟩

/-- The run of C25 evaluated: from the initial state, `TrelOnAppReady`, `otPlatTrelEnable`
with the host ready, `TrelOnAppReady` and `otPlatTrelEnable` again make one start-browse
call in all; after `otPlatTrelDisable` the next `TrelOnAppReady` starts the browser again. -/
theorem start_browse_example :
    (run build4 1 initialState (.TrelOnAppReady true "host" :: startAgainOps)).map
        (fun s => (s.sBrowsingEnabled, (s.calls.filter isStartBrowser).length)) =
      .ok (true, 1) ∧
    (run build4 1 initialState
        (.TrelOnAppReady true "host" :: startAgainOps ++
          [.otPlatTrelDisable true, .TrelOnAppReady true "host"])).map
        (fun s => (s.sBrowsingEnabled, (s.calls.filter isStartBrowser).length)) =
      .ok (true, 2) := by
  decide

/-! ### The host-name lookup -/

/-- C26 (the code departs from it): after enable, browse results for `"a"` and then `"b"`,
and the service-resolve and text-resolve results for `"b"` alone, the directory holds `"a"`
with its host name still unset followed by `"b"` with host name `"hb"`, and the address
resolver of `"b"` has been started. The lookup `findPeerByHostName` for `"hb"` hands the
unset host name of `"a"`, the first record scanned, to `strcmp`; so the address-resolve
result for `"hb"` is not handled: the behaviour is undefined, for every fuel. -/
theorem findPeerByHostName_unset_host_name (fuel : Nat) :
    (run build4 fuel initialState laterResolvedOps).map hostNames =
        .ok [("a", none), ("b", some "hb")] ∧
      (run build4 fuel initialState laterResolvedOps).map
          (fun s => (s.calls.filter isStartIp6AddressResolver).length) = .ok 1 ∧
      (run build4 fuel initialState laterResolvedOps).map
          (fun s => findPeerByHostName s "hb") = .ok (.error .undefinedBehaviour) ∧
      run build4 fuel initialState (laterResolvedOps ++ [addressOfB]) =
        .error .undefinedBehaviour := by
  refine ⟨?_, ?_, ?_, ?_⟩ <;> rfl

/-- Whenever the first record of the directory has no host name yet, the lookup by host
name is undefined, whatever the name looked up. -/
theorem findPeerByHostName_head_unset (s : TrelState) (peer : Peer) (rest : List Peer)
    (aHostName : String) (h : s.sPeerList.elems = peer :: rest)
    (hn : peer.mPeerHostName = none) :
    findPeerByHostName s aHostName = .error .undefinedBehaviour := by
  unfold findPeerByHostName
  rw [h]
  simp only [findPeerByHostNameFrom, hn]

/-! ### The socket address of the removal notification -/

/-- C27 (the code departs from it): peer `"p"` is announced by a peer-discovered
notification with address `addrOf 5` and port 7. The peer-removed notification emitted for
it by the browse result with TTL 0 carries address `addrOf 5` and port 0, and so does the
one emitted by `RemoveAllPeersAndNotify` on disable (followed there by the notification for
`"q"`, which was never announced): `mSockAddr.mPort` of a record is never assigned, the
port being kept in `mPort`. -/
theorem removed_notification_port :
    (run build4 2 initialState
        (discoverOps ++ [.HandleServiceBrowseResult true withdrawP])).map
        (fun s => notifiedSockAddrs s.calls) =
      .ok [(false, { mAddress := addrOf 5, mPort := 7 }),
        (true, { mAddress := addrOf 5, mPort := 0 })] ∧
    (run build4 3 initialState (discoverOps ++ [.otPlatTrelDisable true])).map
        (fun s => notifiedSockAddrs s.calls) =
      .ok [(false, { mAddress := addrOf 5, mPort := 7 }),
        (true, { mAddress := addrOf 5, mPort := 0 }),
        (true, { mAddress := kAnyAddress, mPort := 0 })] := by
  decide

/-- The two notifications are built from one record in different ways: the peer-discovered
one takes the port from `mPort`, the peer-removed one from `mSockAddr.mPort`; they carry the
same socket address exactly when the two members hold the same port. -/
theorem removed_eq_discovered_sockAddr (peer : Peer) :
    (removedPeerInfo peer).mSockAddr = (discoveredPeerInfo peer).mSockAddr ↔
      peer.mSockAddr.mPort = peer.mPort := by
  obtain ⟨n, h, t, l, port, ⟨a, p⟩, r1, r2, r3⟩ := peer
  simp only [removedPeerInfo, discoveredPeerInfo, otSockAddr.mk.injEq, true_and]

/-! ### Enabling twice -/

/-- C28 (the code departs from it): in `activeState` the module is enabled and the directory
holds two records, with `sPeerNumber = 2`. A further `otPlatTrelEnable`, whatever the bound
and whatever the collaborators answer, runs `LIST_Init` before it tests `sTrelEnabled`: the
peer list is left empty, while the peer count is still 2. The counters, the enabled flag
and everything else are unchanged, no call is made and `*aUdpPort` is not written. -/
theorem otPlatTrelEnable_again_empties (MAX_PEER_NUMBER : Nat) (env : EnableEnv) :
    activeState.sTrelEnabled = true ∧
      activeState.sPeerList.elems.length = 2 ∧
      activeState.sPeerNumber = 2 ∧
      otPlatTrelEnable MAX_PEER_NUMBER env activeState =
        ({ activeState with sPeerList := { elems := [], max := MAX_PEER_NUMBER } }, none) ∧
      (otPlatTrelEnable MAX_PEER_NUMBER env activeState).1.sPeerList.elems = [] ∧
      (otPlatTrelEnable MAX_PEER_NUMBER env activeState).1.sPeerNumber = 2 := by
  have hen : activeState.sTrelEnabled = true := by decide
  have h : otPlatTrelEnable MAX_PEER_NUMBER env activeState =
      ({ activeState with sPeerList := { elems := [], max := MAX_PEER_NUMBER } }, none) := by
    unfold otPlatTrelEnable
    simp only [hen, if_true, LIST_Init]
  have hnum : activeState.sPeerNumber = 2 := by decide
  refine ⟨hen, by decide, hnum, h, ?_, ?_⟩
  · rw [h]
  · rw [h]; exact hnum

/-- What the code does for C28 apart from the peer list: for every enabled state a further
`otPlatTrelEnable` changes nothing but the peer list, which `LIST_Init` empties and gives
the bound; it makes no call and writes no port. -/
theorem otPlatTrelEnable_again (MAX_PEER_NUMBER : Nat) (env : EnableEnv) (s : TrelState)
    (hen : s.sTrelEnabled = true) :
    otPlatTrelEnable MAX_PEER_NUMBER env s =
      ({ s with sPeerList := { elems := [], max := MAX_PEER_NUMBER } }, none) := by
  unfold otPlatTrelEnable
  simp only [hen, if_true, LIST_Init]

/-! ### The peer count -/

/-- C30 (the code departs from it): with a bound of one record, after enable and the browse
result for `"a"` the list holds one record and `sPeerNumber` is 1. The browse result for
`"b"` calls `createAndAppendPeerListEntry`, whose `LIST_AddTail` refuses the record because
the list is full; the list still holds one record and `sPeerNumber` is 2. -/
theorem sPeerNumber_after_rejected_add :
    (run build1 1 initialState
        [.otPlatTrelEnable enableOk,
          .HandleServiceBrowseResult true { mServiceInstance := "a", mTtl := 120 }]).map
        (fun s => (s.sPeerList.elems.length, s.sPeerNumber)) = .ok (1, 1) ∧
    (run build1 1 initialState
        [.otPlatTrelEnable enableOk,
          .HandleServiceBrowseResult true { mServiceInstance := "a", mTtl := 120 },
          .HandleServiceBrowseResult true { mServiceInstance := "b", mTtl := 120 }]).map
        (fun s => (s.sPeerList.elems.length, s.sPeerNumber)) = .ok (1, 2) ∧
    (createAndAppendPeerListEntry true (newPeer fullState "b") fullState).1 =
      .OT_ERROR_FAILED ∧
    (createAndAppendPeerListEntry true (newPeer fullState "b") fullState).2.sPeerList =
      fullState.sPeerList ∧
    (createAndAppendPeerListEntry true (newPeer fullState "b") fullState).2.sPeerNumber =
      fullState.sPeerNumber + 1 := by
  decide

/-- What the code does for C30 on the other paths: an add whose allocation fails leaves the
list and the count as they are; an add into a list that is not full appends one record and
increases the count by one (modulo 256); a removal of a record at a position of the list
takes one record out and decreases the count by one (modulo 256). -/
theorem sPeerNumber_other_paths (aPeer : Peer) (s : TrelState) :
    ((createAndAppendPeerListEntry false aPeer s).2.sPeerList = s.sPeerList ∧
        (createAndAppendPeerListEntry false aPeer s).2.sPeerNumber = s.sPeerNumber) ∧
      (¬ (s.sPeerList.max ≠ 0 ∧ s.sPeerList.max = s.sPeerList.size) →
        (createAndAppendPeerListEntry true aPeer s).2.sPeerList.elems.length =
            s.sPeerList.elems.length + 1 ∧
          (createAndAppendPeerListEntry true aPeer s).2.sPeerNumber =
            (s.sPeerNumber + 1) % 256) ∧
      ∀ idx, idx < s.sPeerList.elems.length →
        (removeAndFreeInternalPeerListEntry (idx, aPeer) s).sPeerList.elems.length + 1 =
            s.sPeerList.elems.length ∧
          (removeAndFreeInternalPeerListEntry (idx, aPeer) s).sPeerNumber =
            (s.sPeerNumber + 255) % 256 := by
  refine ⟨⟨rfl, rfl⟩, ?_, ?_⟩
  · intro hfull
    rw [createAndAppendPeerListEntry_ok _ _ hfull]
    simp
  · intro idx hidx
    simp only [removeAndFreeInternalPeerListEntry, LIST_RemoveElement, emit]
    rw [List.length_eraseIdx]
    simp only [hidx, if_true]
    exact ⟨by omega, trivial⟩

/-! ### Releases in `otPlatUdpSend` -/

/-- C29 (the code departs from it): on the open socket, when the send context is allocated
and `convertToLwipMsg` returns no buffer (because `pbuf_alloc` fails, or because
`otMessageRead` reads short and the buffer is freed again), `otPlatUdpSend` returns
`OT_ERROR_FAILED` after releasing the message only: it makes no `otPlatFree` call for the
context and hands no job to the IP-stack thread, so the context is never released. -/
theorem otPlatUdpSend_context_not_released (lw : UdpPlat.Lwip)
    (messageReadOk tcpipCallbackOk : Bool) (aMessage : List Nat)
    (aMessageInfo : UdpPlat.otMessageInfo) (u : UdpPlat.UdpState) :
    UdpPlat.otPlatUdpSend lw (noBuffer messageReadOk tcpipCallbackOk) openSocket aMessage
        aMessageInfo u =
      .ok (.OT_ERROR_FAILED, openSocket,
        { u with calls := u.calls ++ [.otMessageFree aMessage] }) ∧
    UdpPlat.otPlatUdpSend lw (shortRead tcpipCallbackOk) openSocket aMessage aMessageInfo u =
      .ok (.OT_ERROR_FAILED, openSocket,
        { u with calls := u.calls ++ [.pbuf_free aMessage, .otMessageFree aMessage] }) ∧
    (noBuffer messageReadOk tcpipCallbackOk).contextAllocOk = true ∧
    (shortRead tcpipCallbackOk).contextAllocOk = true ∧
    ([UdpPlat.UdpCall.otMessageFree aMessage].filter isOtPlatFree = [] ∧
      [UdpPlat.UdpCall.pbuf_free aMessage, UdpPlat.UdpCall.otMessageFree aMessage].filter
        isOtPlatFree = []) := by
  have hh : openSocket.mHandle = some openPcb := rfl
  refine ⟨?_, ?_, rfl, rfl, ⟨rfl, rfl⟩⟩
  · unfold UdpPlat.otPlatUdpSend
    simp [noBuffer, hh, UdpPlat.convertToLwipMsg, UdpPlat.emit]
  · unfold UdpPlat.otPlatUdpSend
    simp [shortRead, hh, UdpPlat.convertToLwipMsg, UdpPlat.emit]

/-- What the code does for C29 on the other paths, for a socket that has a control block:
on every path the message is released exactly once. When the context is not allocated
nothing else is released. When the context and the buffer are obtained and
`tcpip_callback` refuses the job, the context is released exactly once and no job is
queued. When the job is accepted, `otPlatUdpSend` does not release the context and queues
one job; the job `lwipTaskCb`, whatever `udp_sendto` returns, releases a context exactly
once, after the transmit call. -/
theorem otPlatUdpSend_releases (lw : UdpPlat.Lwip) (env : UdpPlat.UdpSendEnv)
    (aUdpSocket : UdpPlat.otUdpSocket) (aMessage : List Nat)
    (aMessageInfo : UdpPlat.otMessageInfo) (u : UdpPlat.UdpState) (pcb : UdpPlat.udp_pcb)
    (hh : aUdpSocket.mHandle = some pcb) :
    (∃ r, UdpPlat.otPlatUdpSend lw env aUdpSocket aMessage aMessageInfo u = .ok r ∧
      (callsSince u r.2.2).filter isOtMessageFree = [.otMessageFree aMessage] ∧
      (env.contextAllocOk = false →
        (callsSince u r.2.2).filter isOtPlatFree = [] ∧ r.2.2.jobs = u.jobs) ∧
      (env.contextAllocOk = true → env.pbufAllocOk = true → env.messageReadOk = true →
        env.tcpipCallbackOk = false →
        (callsSince u r.2.2).filter isOtPlatFree = [.otPlatFree .sendContext] ∧
          r.2.2.jobs = u.jobs) ∧
      (env.contextAllocOk = true → env.pbufAllocOk = true → env.messageReadOk = true →
        env.tcpipCallbackOk = true →
        (callsSince u r.2.2).filter isOtPlatFree = [] ∧
          r.2.2.jobs.length = u.jobs.length + 1)) ∧
      ∀ (sendtoOk : Bool) (context : UdpPlat.udpSendContext) (v : UdpPlat.UdpState),
        callsSince v (UdpPlat.lwipTaskCb sendtoOk context v) =
          [.udp_sendto context.buf context.peer_addr context.peerPort sendtoOk,
            .pbuf_free context.buf, .otPlatFree .sendContext] := by
  obtain ⟨c, b, m, t⟩ := env
  refine ⟨?_, ?_⟩
  · unfold UdpPlat.otPlatUdpSend
    cases c <;> cases b <;> cases m <;> cases t <;>
      simp [hh, UdpPlat.convertToLwipMsg, UdpPlat.emit, callsSince, List.append_assoc,
        List.drop_left, isOtMessageFree, isOtPlatFree]
  · intro sendtoOk context v
    simp [UdpPlat.lwipTaskCb, UdpPlat.emit, callsSince, List.append_assoc, List.drop_left]

/-- The paths of `otPlatUdpSend` evaluated on the initialised platform: the calls made and
the number of waiting jobs, when all succeeds (and the job is then run), when
`tcpip_callback` refuses, and when no buffer is obtained. -/
theorem otPlatUdpSend_paths :
    (UdpPlat.otPlatUdpSend lwip udpSendAllOk openSocket [1, 2]
        (trelMessageInfo enabledState somewhere) udpReady).map
        (fun r => ((UdpPlat.runJob true r.2.2).calls.map fun c =>
          (isOtPlatFree c, isOtMessageFree c, isPbufFree c), r.2.2.jobs.length)) =
      .ok ([(false, false, false), (false, true, false), (false, false, false),
        (false, false, true), (true, false, false)], 1) ∧
    (UdpPlat.otPlatUdpSend lwip { udpSendAllOk with tcpipCallbackOk := false } openSocket
        [1, 2] (trelMessageInfo enabledState somewhere) udpReady).map
        (fun r => (r.2.2.calls.map fun c =>
          (isOtPlatFree c, isOtMessageFree c, isPbufFree c), r.2.2.jobs.length)) =
      .ok ([(false, false, false), (false, false, true), (true, false, false),
        (false, true, false)], 0) ∧
    (UdpPlat.otPlatUdpSend lwip (noBuffer true true) openSocket [1, 2]
        (trelMessageInfo enabledState somewhere) udpReady).map
        (fun r => (r.1, r.2.2.calls, r.2.2.jobs.length)) =
      .ok (.OT_ERROR_FAILED, [.otMessageFree [1, 2]], 0) := by
  decide

end TrelPlat
